import Mathlib

/-! Command marshaling layer of the SHA204 library.

A shallow embedding of `board/autorock/wisehmi/SHA204/sha204_comm_marshaling.c`.

* `uint8_t` / `uint16_t` values are natural numbers; every place where the C
  code narrows a value to 8 bits is written with an explicit `% 256`.
* A pointer is `Option Mem`: `none` is `NULL`, `some m` gives the bytes found
  at the successive offsets from the pointer.
* The macros of `sha204_comm_marshaling.h`, `sha204_comm.h` and
  `sha204_lib_return_codes.h` are the fields of `Header`; the functions are
  parameterised by it.
* The two collaborators of the layer (`sha204c_calculate_crc`,
  `sha204c_send_and_receive`) are the fields of `Collaborators`; every call
  made to them is recorded in the `calls` of the `Outcome`.
-/

namespace SHA204

/-- Bytes found at the successive offsets from a (non-null) pointer. -/
abbrev Mem := Nat → Nat

/-- A `uint8_t *`: `none` is the null pointer. -/
abbrev Ptr := Option Mem

/-- The macros the marshaling layer takes from its headers. -/
structure Header where
  /-- Whether `SHA204_CHECK_PARAMETERS` is defined. -/
  SHA204_CHECK_PARAMETERS : Bool
  SHA204_SUCCESS : Nat
  SHA204_BAD_PARAM : Nat
  SHA204_CMD_SIZE_MIN : Nat
  SHA204_RSP_SIZE_MIN : Nat
  SHA204_CRC_SIZE : Nat
  SHA204_COMMAND_EXEC_MAX : Nat
  SHA204_KEY_ID_MAX : Nat
  SHA204_OTP_BLOCK_MAX : Nat
  SHA204_BUFFER_POS_DATA : Nat
  -- op-codes
  SHA204_CHECKMAC : Nat
  SHA204_DERIVE_KEY : Nat
  SHA204_DEVREV : Nat
  SHA204_GENDIG : Nat
  SHA204_HMAC : Nat
  SHA204_LOCK : Nat
  SHA204_MAC : Nat
  SHA204_NONCE : Nat
  SHA204_PAUSE : Nat
  SHA204_RANDOM : Nat
  SHA204_READ : Nat
  SHA204_TEMPSENSE : Nat
  SHA204_UPDATE_EXTRA : Nat
  SHA204_WRITE : Nat
  -- packet indexes, zones
  SHA204_COUNT_IDX : Nat
  SHA204_OPCODE_IDX : Nat
  SHA204_ZONE_OTP : Nat
  SHA204_ZONE_DATA : Nat
  SHA204_ZONE_COUNT_FLAG : Nat
  SHA204_ZONE_ACCESS_4 : Nat
  SHA204_ZONE_ACCESS_32 : Nat
  SHA204_ADDRESS_MASK : Nat
  -- CheckMac
  CHECKMAC_MODE_IDX : Nat
  CHECKMAC_KEYID_IDX : Nat
  CHECKMAC_CLIENT_CHALLENGE_IDX : Nat
  CHECKMAC_CLIENT_RESPONSE_IDX : Nat
  CHECKMAC_DATA_IDX : Nat
  CHECKMAC_COUNT : Nat
  CHECKMAC_MODE_MASK : Nat
  CHECKMAC_CLIENT_CHALLENGE_SIZE : Nat
  CHECKMAC_CLIENT_RESPONSE_SIZE : Nat
  CHECKMAC_OTHER_DATA_SIZE : Nat
  CHECKMAC_RSP_SIZE : Nat
  CHECKMAC_DELAY : Nat
  CHECKMAC_EXEC_MAX : Nat
  -- DeriveKey
  DERIVE_KEY_RANDOM_IDX : Nat
  DERIVE_KEY_TARGETKEY_IDX : Nat
  DERIVE_KEY_MAC_IDX : Nat
  DERIVE_KEY_COUNT_SMALL : Nat
  DERIVE_KEY_COUNT_LARGE : Nat
  DERIVE_KEY_RANDOM_FLAG : Nat
  DERIVE_KEY_MAC_SIZE : Nat
  DERIVE_KEY_RSP_SIZE : Nat
  DERIVE_KEY_DELAY : Nat
  DERIVE_KEY_EXEC_MAX : Nat
  -- DevRev
  DEVREV_PARAM1_IDX : Nat
  DEVREV_PARAM2_IDX : Nat
  DEVREV_COUNT : Nat
  DEVREV_RSP_SIZE : Nat
  DEVREV_DELAY : Nat
  DEVREV_EXEC_MAX : Nat
  -- GenDig
  GENDIG_ZONE_IDX : Nat
  GENDIG_KEYID_IDX : Nat
  GENDIG_DATA_IDX : Nat
  GENDIG_COUNT : Nat
  GENDIG_COUNT_DATA : Nat
  GENDIG_OTHER_DATA_SIZE : Nat
  GENDIG_ZONE_OTP : Nat
  GENDIG_ZONE_DATA : Nat
  GENDIG_RSP_SIZE : Nat
  GENDIG_DELAY : Nat
  GENDIG_EXEC_MAX : Nat
  -- HMAC
  HMAC_MODE_IDX : Nat
  HMAC_KEYID_IDX : Nat
  HMAC_COUNT : Nat
  HMAC_MODE_MASK : Nat
  HMAC_RSP_SIZE : Nat
  HMAC_DELAY : Nat
  HMAC_EXEC_MAX : Nat
  -- Lock
  LOCK_ZONE_IDX : Nat
  LOCK_SUMMARY_IDX : Nat
  LOCK_COUNT : Nat
  LOCK_ZONE_NO_CRC : Nat
  LOCK_ZONE_MASK : Nat
  LOCK_RSP_SIZE : Nat
  LOCK_DELAY : Nat
  LOCK_EXEC_MAX : Nat
  -- Mac
  MAC_MODE_IDX : Nat
  MAC_KEYID_IDX : Nat
  MAC_CHALLENGE_IDX : Nat
  MAC_COUNT_SHORT : Nat
  MAC_COUNT_LONG : Nat
  MAC_MODE_BLOCK2_TEMPKEY : Nat
  MAC_CHALLENGE_SIZE : Nat
  MAC_MODE_MASK : Nat
  MAC_RSP_SIZE : Nat
  MAC_DELAY : Nat
  MAC_EXEC_MAX : Nat
  -- Nonce
  NONCE_MODE_IDX : Nat
  NONCE_PARAM2_IDX : Nat
  NONCE_INPUT_IDX : Nat
  NONCE_COUNT_SHORT : Nat
  NONCE_COUNT_LONG : Nat
  NONCE_MODE_INVALID : Nat
  NONCE_MODE_PASSTHROUGH : Nat
  NONCE_NUMIN_SIZE : Nat
  NONCE_NUMIN_SIZE_PASSTHROUGH : Nat
  NONCE_RSP_SIZE_SHORT : Nat
  NONCE_RSP_SIZE_LONG : Nat
  NONCE_DELAY : Nat
  NONCE_EXEC_MAX : Nat
  -- Pause
  PAUSE_SELECT_IDX : Nat
  PAUSE_PARAM2_IDX : Nat
  PAUSE_COUNT : Nat
  PAUSE_RSP_SIZE : Nat
  PAUSE_DELAY : Nat
  PAUSE_EXEC_MAX : Nat
  -- Random
  RANDOM_MODE_IDX : Nat
  RANDOM_PARAM2_IDX : Nat
  RANDOM_COUNT : Nat
  RANDOM_SEED_UPDATE : Nat
  RANDOM_NO_SEED_UPDATE : Nat
  RANDOM_RSP_SIZE : Nat
  RANDOM_DELAY : Nat
  RANDOM_EXEC_MAX : Nat
  -- Read
  READ_ZONE_IDX : Nat
  READ_ADDR_IDX : Nat
  READ_COUNT : Nat
  READ_ZONE_MASK : Nat
  READ_ZONE_MODE_32_BYTES : Nat
  READ_4_RSP_SIZE : Nat
  READ_32_RSP_SIZE : Nat
  READ_DELAY : Nat
  READ_EXEC_MAX : Nat
  -- TempSense
  TEMP_SENSE_PARAM1_IDX : Nat
  TEMP_SENSE_PARAM2_IDX : Nat
  TEMP_SENSE_COUNT : Nat
  TEMP_SENSE_RSP_SIZE : Nat
  TEMP_SENSE_DELAY : Nat
  TEMP_SENSE_EXEC_MAX : Nat
  -- UpdateExtra
  UPDATE_MODE_IDX : Nat
  UPDATE_VALUE_IDX : Nat
  UPDATE_COUNT : Nat
  UPDATE_CONFIG_BYTE_86 : Nat
  UPDATE_RSP_SIZE : Nat
  UPDATE_DELAY : Nat
  UPDATE_EXEC_MAX : Nat
  -- Write
  WRITE_MAC_SIZE : Nat
  WRITE_ZONE_MASK : Nat
  WRITE_RSP_SIZE : Nat
  WRITE_DELAY : Nat
  WRITE_EXEC_MAX : Nat

/-- Modelled from the spec: the values of the macros of `sha204_comm_marshaling.h`,
`sha204_comm.h` and `sha204_lib_return_codes.h`, which are not among the
sources. The frame is `[count][opcode][param1][param2 lo][param2 hi][data][crc lo][crc hi]`
with a two byte checksum, the smallest command has 7 bytes, key indexes go up
to 15, and parameter checking is compiled in. The remaining values are those
of the device's published command set. -/
def atmel : Header where
  SHA204_CHECK_PARAMETERS := true
  SHA204_SUCCESS := 0x00
  SHA204_BAD_PARAM := 0xE2
  SHA204_CMD_SIZE_MIN := 7
  SHA204_RSP_SIZE_MIN := 4
  SHA204_CRC_SIZE := 2
  SHA204_COMMAND_EXEC_MAX := 70
  SHA204_KEY_ID_MAX := 15
  SHA204_OTP_BLOCK_MAX := 1
  SHA204_BUFFER_POS_DATA := 1
  SHA204_CHECKMAC := 0x28
  SHA204_DERIVE_KEY := 0x1C
  SHA204_DEVREV := 0x30
  SHA204_GENDIG := 0x15
  SHA204_HMAC := 0x11
  SHA204_LOCK := 0x17
  SHA204_MAC := 0x08
  SHA204_NONCE := 0x16
  SHA204_PAUSE := 0x01
  SHA204_RANDOM := 0x1B
  SHA204_READ := 0x02
  SHA204_TEMPSENSE := 0x18
  SHA204_UPDATE_EXTRA := 0x20
  SHA204_WRITE := 0x12
  SHA204_COUNT_IDX := 0
  SHA204_OPCODE_IDX := 1
  SHA204_ZONE_OTP := 0x01
  SHA204_ZONE_DATA := 0x02
  SHA204_ZONE_COUNT_FLAG := 0x80
  SHA204_ZONE_ACCESS_4 := 4
  SHA204_ZONE_ACCESS_32 := 32
  SHA204_ADDRESS_MASK := 0x7F
  CHECKMAC_MODE_IDX := 2
  CHECKMAC_KEYID_IDX := 3
  CHECKMAC_CLIENT_CHALLENGE_IDX := 5
  CHECKMAC_CLIENT_RESPONSE_IDX := 37
  CHECKMAC_DATA_IDX := 69
  CHECKMAC_COUNT := 84
  CHECKMAC_MODE_MASK := 0x27
  CHECKMAC_CLIENT_CHALLENGE_SIZE := 32
  CHECKMAC_CLIENT_RESPONSE_SIZE := 32
  CHECKMAC_OTHER_DATA_SIZE := 13
  CHECKMAC_RSP_SIZE := 4
  CHECKMAC_DELAY := 11
  CHECKMAC_EXEC_MAX := 38
  DERIVE_KEY_RANDOM_IDX := 2
  DERIVE_KEY_TARGETKEY_IDX := 3
  DERIVE_KEY_MAC_IDX := 5
  DERIVE_KEY_COUNT_SMALL := 7
  DERIVE_KEY_COUNT_LARGE := 39
  DERIVE_KEY_RANDOM_FLAG := 4
  DERIVE_KEY_MAC_SIZE := 32
  DERIVE_KEY_RSP_SIZE := 4
  DERIVE_KEY_DELAY := 13
  DERIVE_KEY_EXEC_MAX := 63
  DEVREV_PARAM1_IDX := 2
  DEVREV_PARAM2_IDX := 3
  DEVREV_COUNT := 7
  DEVREV_RSP_SIZE := 7
  DEVREV_DELAY := 0
  DEVREV_EXEC_MAX := 2
  GENDIG_ZONE_IDX := 2
  GENDIG_KEYID_IDX := 3
  GENDIG_DATA_IDX := 5
  GENDIG_COUNT := 7
  GENDIG_COUNT_DATA := 11
  GENDIG_OTHER_DATA_SIZE := 4
  GENDIG_ZONE_OTP := 1
  GENDIG_ZONE_DATA := 2
  GENDIG_RSP_SIZE := 4
  GENDIG_DELAY := 10
  GENDIG_EXEC_MAX := 43
  HMAC_MODE_IDX := 2
  HMAC_KEYID_IDX := 3
  HMAC_COUNT := 7
  HMAC_MODE_MASK := 0x74
  HMAC_RSP_SIZE := 35
  HMAC_DELAY := 26
  HMAC_EXEC_MAX := 70
  LOCK_ZONE_IDX := 2
  LOCK_SUMMARY_IDX := 3
  LOCK_COUNT := 7
  LOCK_ZONE_NO_CRC := 0x80
  LOCK_ZONE_MASK := 0x81
  LOCK_RSP_SIZE := 4
  LOCK_DELAY := 4
  LOCK_EXEC_MAX := 24
  MAC_MODE_IDX := 2
  MAC_KEYID_IDX := 3
  MAC_CHALLENGE_IDX := 5
  MAC_COUNT_SHORT := 7
  MAC_COUNT_LONG := 39
  MAC_MODE_BLOCK2_TEMPKEY := 0x01
  MAC_CHALLENGE_SIZE := 32
  MAC_MODE_MASK := 0x77
  MAC_RSP_SIZE := 35
  MAC_DELAY := 11
  MAC_EXEC_MAX := 35
  NONCE_MODE_IDX := 2
  NONCE_PARAM2_IDX := 3
  NONCE_INPUT_IDX := 5
  NONCE_COUNT_SHORT := 27
  NONCE_COUNT_LONG := 39
  NONCE_MODE_INVALID := 0x02
  NONCE_MODE_PASSTHROUGH := 0x03
  NONCE_NUMIN_SIZE := 20
  NONCE_NUMIN_SIZE_PASSTHROUGH := 32
  NONCE_RSP_SIZE_SHORT := 4
  NONCE_RSP_SIZE_LONG := 35
  NONCE_DELAY := 21
  NONCE_EXEC_MAX := 61
  PAUSE_SELECT_IDX := 2
  PAUSE_PARAM2_IDX := 3
  PAUSE_COUNT := 7
  PAUSE_RSP_SIZE := 4
  PAUSE_DELAY := 0
  PAUSE_EXEC_MAX := 2
  RANDOM_MODE_IDX := 2
  RANDOM_PARAM2_IDX := 3
  RANDOM_COUNT := 7
  RANDOM_SEED_UPDATE := 0x00
  RANDOM_NO_SEED_UPDATE := 0x01
  RANDOM_RSP_SIZE := 35
  RANDOM_DELAY := 10
  RANDOM_EXEC_MAX := 51
  READ_ZONE_IDX := 2
  READ_ADDR_IDX := 3
  READ_COUNT := 7
  READ_ZONE_MASK := 0x83
  READ_ZONE_MODE_32_BYTES := 0x80
  READ_4_RSP_SIZE := 7
  READ_32_RSP_SIZE := 35
  READ_DELAY := 0
  READ_EXEC_MAX := 4
  TEMP_SENSE_PARAM1_IDX := 2
  TEMP_SENSE_PARAM2_IDX := 3
  TEMP_SENSE_COUNT := 7
  TEMP_SENSE_RSP_SIZE := 7
  TEMP_SENSE_DELAY := 3
  TEMP_SENSE_EXEC_MAX := 11
  UPDATE_MODE_IDX := 2
  UPDATE_VALUE_IDX := 3
  UPDATE_COUNT := 7
  UPDATE_CONFIG_BYTE_86 := 0x01
  UPDATE_RSP_SIZE := 4
  UPDATE_DELAY := 3
  UPDATE_EXEC_MAX := 6
  WRITE_MAC_SIZE := 32
  WRITE_ZONE_MASK := 0xC3
  WRITE_RSP_SIZE := 4
  WRITE_DELAY := 3
  WRITE_EXEC_MAX := 42

/-- Conversion of an `int` to `uint8_t`. -/
def u8 (x : Int) : Nat := (x % 256).toNat

/-- Bit pattern of `~m` for an `int` holding the non-negative value `m`
(the operand is promoted to a 32 bit `int` before `~`). -/
def cnot (m : Nat) : Nat := 0xFFFFFFFF - m

/-- Store into a `uint8_t` cell: `m[i] = v`, the value narrowed to 8 bits. -/
def store (m : Mem) (i v : Nat) : Mem := fun j => if j = i then v % 256 else m j

/-- Copy of `n` bytes: `memcpy(&dst[pos], src, n)`. -/
def memcpy (dst : Mem) (pos : Nat) (src : Mem) (n : Nat) : Mem :=
  fun j => if pos ≤ j ∧ j < pos + n then src (j - pos) else dst j

/-- Fill of `n` bytes: `memset(&dst[pos], v, n)`. -/
def memset (dst : Mem) (pos : Nat) (v : Nat) (n : Nat) : Mem :=
  fun j => if pos ≤ j ∧ j < pos + n then v else dst j

/-- The first `n` bytes behind a pointer, as a list. -/
def bytes (m : Mem) (n : Nat) : List Nat := (List.range n).map m

/-- The parameter check of `sha204m_execute` (lines 44-147). The result is the
returned status. -/
def sha204m_check_parameters (H : Header) (op_code param1 param2 : Nat)
    (datalen1 : Nat) (data1 : Ptr) (datalen2 : Nat) (data2 : Ptr)
    (datalen3 : Nat) (data3 : Ptr)
    (tx_size : Nat) (tx_buffer : Ptr) (rx_size : Nat) (rx_buffer : Ptr) : Nat :=
  if H.SHA204_CHECK_PARAMETERS then
    let len := (datalen1 + datalen2 + datalen3 + H.SHA204_CMD_SIZE_MIN) % 256
    if tx_buffer.isNone ∨ tx_size < len ∨ rx_size < H.SHA204_RSP_SIZE_MIN ∨ rx_buffer.isNone then
      H.SHA204_BAD_PARAM
    else if (datalen1 > 0 ∧ data1.isNone) ∨ (datalen2 > 0 ∧ data2.isNone)
        ∨ (datalen3 > 0 ∧ data3.isNone) then
      H.SHA204_BAD_PARAM
    -- Check parameters depending on op-code.
    else if op_code = H.SHA204_CHECKMAC then
      if data1.isNone ∨ data2.isNone
          ∨ (param1 ||| H.CHECKMAC_MODE_MASK) ≠ H.CHECKMAC_MODE_MASK
          ∨ param2 > H.SHA204_KEY_ID_MAX then
        H.SHA204_BAD_PARAM
      else H.SHA204_SUCCESS
    else if op_code = H.SHA204_DERIVE_KEY then
      if (param1 &&& cnot H.DERIVE_KEY_RANDOM_FLAG) ≠ 0 ∨ param2 > H.SHA204_KEY_ID_MAX then
        H.SHA204_BAD_PARAM
      else H.SHA204_SUCCESS
    else if op_code = H.SHA204_DEVREV then
      H.SHA204_SUCCESS
    else if op_code = H.SHA204_GENDIG then
      if param1 ≠ H.GENDIG_ZONE_OTP ∧ param1 ≠ H.GENDIG_ZONE_DATA then
        H.SHA204_BAD_PARAM
      else H.SHA204_SUCCESS
    else if op_code = H.SHA204_HMAC then
      if (param1 &&& cnot H.HMAC_MODE_MASK) ≠ 0 then
        H.SHA204_BAD_PARAM
      else H.SHA204_SUCCESS
    else if op_code = H.SHA204_LOCK then
      if (param1 &&& cnot H.LOCK_ZONE_MASK) ≠ 0
          ∨ ((param1 &&& H.LOCK_ZONE_NO_CRC) ≠ 0 ∧ param2 ≠ 0) then
        H.SHA204_BAD_PARAM
      else H.SHA204_SUCCESS
    else if op_code = H.SHA204_MAC then
      if (param1 &&& cnot H.MAC_MODE_MASK) ≠ 0
          ∨ ((param1 &&& H.MAC_MODE_BLOCK2_TEMPKEY) = 0 ∧ data1.isNone) then
        H.SHA204_BAD_PARAM
      else H.SHA204_SUCCESS
    else if op_code = H.SHA204_NONCE then
      if data1.isNone ∨ param1 > H.NONCE_MODE_PASSTHROUGH ∨ param1 = H.NONCE_MODE_INVALID then
        H.SHA204_BAD_PARAM
      else H.SHA204_SUCCESS
    else if op_code = H.SHA204_PAUSE then
      H.SHA204_SUCCESS
    else if op_code = H.SHA204_RANDOM then
      if param1 > H.RANDOM_NO_SEED_UPDATE then
        H.SHA204_BAD_PARAM
      else H.SHA204_SUCCESS
    else if op_code = H.SHA204_READ then
      if (param1 &&& cnot H.READ_ZONE_MASK) ≠ 0
          ∨ ((param1 &&& H.READ_ZONE_MODE_32_BYTES) ≠ 0 ∧ param1 = H.SHA204_ZONE_OTP) then
        H.SHA204_BAD_PARAM
      else H.SHA204_SUCCESS
    else if op_code = H.SHA204_TEMPSENSE then
      H.SHA204_SUCCESS
    else if op_code = H.SHA204_UPDATE_EXTRA then
      if param1 > H.UPDATE_CONFIG_BYTE_86 then
        H.SHA204_BAD_PARAM
      else H.SHA204_SUCCESS
    else if op_code = H.SHA204_WRITE then
      if data1.isNone ∨ (param1 &&& cnot H.WRITE_ZONE_MASK) ≠ 0 then
        H.SHA204_BAD_PARAM
      else H.SHA204_SUCCESS
    else
      -- unknown op-code
      H.SHA204_BAD_PARAM
  else
    H.SHA204_SUCCESS

/-- A call made to one of the two collaborators of the layer. The pointers
handed over are recorded as offsets from `tx_buffer` and as the bytes found
behind them at the time of the call. -/
inductive Call where
  /-- The call `sha204c_calculate_crc(length, data, crc)`, with `crc = data + crc_pos`. -/
  | calculate_crc (length : Nat) (data : Mem) (crc_pos : Nat)
  /-- The call `sha204c_send_and_receive(tx_buffer, rx_size, rx_buffer, execution_delay, execution_timeout)`. -/
  | send_and_receive (tx_buffer : Mem) (rx_size : Nat) (rx_buffer : Mem)
      (execution_delay execution_timeout : Nat)

/-- The two external functions the layer calls. -/
structure Collaborators where
  /-- The two bytes `sha204c_calculate_crc` computes from the bytes it covers. -/
  crc : List Nat → Nat × Nat
  /-- The status `sha204c_send_and_receive` returns and the response buffer it leaves. -/
  transport : Mem → Nat → Mem → Nat → Nat → Nat × Mem

/-- Modelled from the spec: `sha204c_calculate_crc(length, data, crc)`, which is
not among the sources, computes a checksum over `length` bytes of `data`
starting at its beginning and writes the two result bytes at the output
position `crc` (here the offset `crc_pos` from `data`). -/
def sha204c_calculate_crc (E : Collaborators) (length : Nat) (data : Mem) (crc_pos : Nat) : Mem :=
  fun j =>
    if j = crc_pos + 1 then (E.crc (bytes data length)).2
    else if j = crc_pos then (E.crc (bytes data length)).1
    else data j

/-- What a call of a function of the layer leaves behind: the returned status,
the two caller buffers, and the calls made to the collaborators, in order. -/
structure Outcome where
  ret : Nat
  tx : Ptr
  rx : Ptr
  calls : List Call

/-- Modelled from the spec: `sha204c_send_and_receive`, which is not among the
sources, transmits the frame as it is, writes the response into the response
buffer and returns a status code. Its size and time parameters are `uint8_t`,
like the locals `sha204m_execute` passes to it. The call is appended to `calls`. -/
def sha204c_send_and_receive (E : Collaborators) (calls : List Call) (tx_buffer : Mem)
    (rx_size : Nat) (rx_buffer : Mem) (execution_delay execution_timeout : Nat) : Outcome :=
  { ret := (E.transport tx_buffer (rx_size % 256) rx_buffer
      (execution_delay % 256) (execution_timeout % 256)).1
    tx := some tx_buffer
    rx := some (E.transport tx_buffer (rx_size % 256) rx_buffer
      (execution_delay % 256) (execution_timeout % 256)).2
    calls := calls ++ [Call.send_and_receive tx_buffer (rx_size % 256) rx_buffer
      (execution_delay % 256) (execution_timeout % 256)] }

/-- The switch of `sha204m_execute` that supplies the delays and the response
size (lines 181-273): the `uint8_t` locals `(poll_delay, poll_timeout, response_size)`. -/
def sha204m_execute_supply (H : Header) (op_code param1 rx_size : Nat) : Nat × Nat × Nat :=
  if op_code = H.SHA204_CHECKMAC then
    (H.CHECKMAC_DELAY % 256, u8 (H.CHECKMAC_EXEC_MAX - H.CHECKMAC_DELAY), H.CHECKMAC_RSP_SIZE % 256)
  else if op_code = H.SHA204_DERIVE_KEY then
    (H.DERIVE_KEY_DELAY % 256, u8 (H.DERIVE_KEY_EXEC_MAX - H.DERIVE_KEY_DELAY), H.DERIVE_KEY_RSP_SIZE % 256)
  else if op_code = H.SHA204_DEVREV then
    (H.DEVREV_DELAY % 256, u8 (H.DEVREV_EXEC_MAX - H.DEVREV_DELAY), H.DEVREV_RSP_SIZE % 256)
  else if op_code = H.SHA204_GENDIG then
    (H.GENDIG_DELAY % 256, u8 (H.GENDIG_EXEC_MAX - H.GENDIG_DELAY), H.GENDIG_RSP_SIZE % 256)
  else if op_code = H.SHA204_HMAC then
    (H.HMAC_DELAY % 256, u8 (H.HMAC_EXEC_MAX - H.HMAC_DELAY), H.HMAC_RSP_SIZE % 256)
  else if op_code = H.SHA204_LOCK then
    (H.LOCK_DELAY % 256, u8 (H.LOCK_EXEC_MAX - H.LOCK_DELAY), H.LOCK_RSP_SIZE % 256)
  else if op_code = H.SHA204_MAC then
    (H.MAC_DELAY % 256, u8 (H.MAC_EXEC_MAX - H.MAC_DELAY), H.MAC_RSP_SIZE % 256)
  else if op_code = H.SHA204_NONCE then
    (H.NONCE_DELAY % 256, u8 (H.NONCE_EXEC_MAX - H.NONCE_DELAY),
      (if param1 = H.NONCE_MODE_PASSTHROUGH then H.NONCE_RSP_SIZE_SHORT
        else H.NONCE_RSP_SIZE_LONG) % 256)
  else if op_code = H.SHA204_PAUSE then
    (H.PAUSE_DELAY % 256, u8 (H.PAUSE_EXEC_MAX - H.PAUSE_DELAY), H.PAUSE_RSP_SIZE % 256)
  else if op_code = H.SHA204_RANDOM then
    (H.RANDOM_DELAY % 256, u8 (H.RANDOM_EXEC_MAX - H.RANDOM_DELAY), H.RANDOM_RSP_SIZE % 256)
  else if op_code = H.SHA204_READ then
    (H.READ_DELAY % 256, u8 (H.READ_EXEC_MAX - H.READ_DELAY),
      (if (param1 &&& H.SHA204_ZONE_COUNT_FLAG) ≠ 0 then H.READ_32_RSP_SIZE
        else H.READ_4_RSP_SIZE) % 256)
  else if op_code = H.SHA204_TEMPSENSE then
    (H.TEMP_SENSE_DELAY % 256, u8 (H.TEMP_SENSE_EXEC_MAX - H.TEMP_SENSE_DELAY), H.TEMP_SENSE_RSP_SIZE % 256)
  else if op_code = H.SHA204_UPDATE_EXTRA then
    (H.UPDATE_DELAY % 256, u8 (H.UPDATE_EXEC_MAX - H.UPDATE_DELAY), H.UPDATE_RSP_SIZE % 256)
  else if op_code = H.SHA204_WRITE then
    (H.WRITE_DELAY % 256, u8 (H.WRITE_EXEC_MAX - H.WRITE_DELAY), H.WRITE_RSP_SIZE % 256)
  else
    (0, H.SHA204_COMMAND_EXEC_MAX % 256, rx_size % 256)

/-- One data block of `sha204m_execute`: `if (datalen > 0) memcpy(p_buffer, data, datalen)`.
Reading through a null pointer has no defined result (`none`). -/
def copy_block (tx : Mem) (p_buffer : Nat) (datalen : Nat) (data : Ptr) : Option Mem :=
  if datalen > 0 then
    match data with
    | some d => some (memcpy tx p_buffer d datalen)
    | none => none
  else some tx

/-- The assembly of the command by `sha204m_execute` (lines 275-297): the
transmit buffer after the checksum call, and the record of that call (covered
length, buffer, offset of `p_buffer`). `none` when a null data pointer is read. -/
def sha204m_execute_assemble (H : Header) (E : Collaborators) (op_code param1 param2 : Nat)
    (datalen1 : Nat) (data1 : Ptr) (datalen2 : Nat) (data2 : Ptr)
    (datalen3 : Nat) (data3 : Ptr) (tx_buffer : Mem) : Option (Mem × Call) :=
  let len := (datalen1 + datalen2 + datalen3 + H.SHA204_CMD_SIZE_MIN) % 256
  let tx := store tx_buffer 0 len
  let tx := store tx 1 op_code
  let tx := store tx 2 param1
  let tx := store tx 3 (param2 &&& 0xFF)
  let tx := store tx 4 (param2 >>> 8)
  let p0 := 5
  (copy_block tx p0 datalen1 data1).bind fun tx =>
  let p1 := if datalen1 > 0 then p0 + datalen1 else p0
  (copy_block tx p1 datalen2 data2).bind fun tx =>
  let p2 := if datalen2 > 0 then p1 + datalen1 else p1
  (copy_block tx p2 datalen3 data3).bind fun tx =>
  let p3 := if datalen3 > 0 then p2 + datalen3 else p2
  some (sha204c_calculate_crc E (u8 (len - H.SHA204_CRC_SIZE)) tx p3,
        Call.calculate_crc (u8 (len - H.SHA204_CRC_SIZE)) tx p3)

/-- The function `sha204m_execute` (lines 167-302): creates a command packet,
sends it, and receives its response. `none` when the C function dereferences a
null pointer (possible only with the parameter check compiled out). -/
def sha204m_execute (H : Header) (E : Collaborators) (op_code param1 param2 : Nat)
    (datalen1 : Nat) (data1 : Ptr) (datalen2 : Nat) (data2 : Ptr)
    (datalen3 : Nat) (data3 : Ptr)
    (tx_size : Nat) (tx_buffer : Ptr) (rx_size : Nat) (rx_buffer : Ptr) : Option Outcome :=
  let ret_code := sha204m_check_parameters H op_code param1 param2
    datalen1 data1 datalen2 data2 datalen3 data3 tx_size tx_buffer rx_size rx_buffer
  if ret_code ≠ H.SHA204_SUCCESS then
    some { ret := ret_code, tx := tx_buffer, rx := rx_buffer, calls := [] }
  else
    -- Supply delays and response size.
    let supply := sha204m_execute_supply H op_code param1 rx_size
    match tx_buffer, rx_buffer with
    | some tx0, some rx0 =>
      -- Assemble command.
      (sha204m_execute_assemble H E op_code param1 param2
          datalen1 data1 datalen2 data2 datalen3 data3 tx0).bind fun a =>
      -- Send command and receive response.
      some (sha204c_send_and_receive E [a.2] a.1 supply.2.2 rx0 supply.1 supply.2.1)
    | _, _ => none

/-- The early `return SHA204_BAD_PARAM` of the command functions: nothing has
been written and no collaborator has been called. -/
def bad_param (H : Header) (tx_buffer rx_buffer : Ptr) : Outcome :=
  { ret := H.SHA204_BAD_PARAM, tx := tx_buffer, rx := rx_buffer, calls := [] }

/-- The function `sha204m_check_mac` (lines 316-342). -/
def sha204m_check_mac (H : Header) (E : Collaborators) (tx_buffer rx_buffer : Ptr)
    (mode key_id : Nat) (client_challenge client_response other_data : Ptr) : Outcome :=
  match tx_buffer, rx_buffer, client_response, other_data with
  | some tx, some rx, some response, some other =>
    if (mode ||| H.CHECKMAC_MODE_MASK) ≠ H.CHECKMAC_MODE_MASK ∨ key_id > H.SHA204_KEY_ID_MAX then
      bad_param H tx_buffer rx_buffer
    else
      let tx := store tx H.SHA204_COUNT_IDX H.CHECKMAC_COUNT
      let tx := store tx H.SHA204_OPCODE_IDX H.SHA204_CHECKMAC
      let tx := store tx H.CHECKMAC_MODE_IDX (mode &&& H.CHECKMAC_MODE_MASK)
      let tx := store tx H.CHECKMAC_KEYID_IDX key_id
      let tx := store tx (H.CHECKMAC_KEYID_IDX + 1) 0
      let tx := match client_challenge with
        | none => memset tx H.CHECKMAC_CLIENT_CHALLENGE_IDX 0 H.CHECKMAC_CLIENT_CHALLENGE_SIZE
        | some challenge =>
          memcpy tx H.CHECKMAC_CLIENT_CHALLENGE_IDX challenge H.CHECKMAC_CLIENT_CHALLENGE_SIZE
      let tx := memcpy tx H.CHECKMAC_CLIENT_RESPONSE_IDX response H.CHECKMAC_CLIENT_RESPONSE_SIZE
      let tx := memcpy tx H.CHECKMAC_DATA_IDX other H.CHECKMAC_OTHER_DATA_SIZE
      sha204c_send_and_receive E [] tx H.CHECKMAC_RSP_SIZE rx
        H.CHECKMAC_DELAY (u8 (H.CHECKMAC_EXEC_MAX - H.CHECKMAC_DELAY))
  | _, _, _, _ => bad_param H tx_buffer rx_buffer

/-- The function `sha204m_derive_key` (lines 353-374). -/
def sha204m_derive_key (H : Header) (E : Collaborators) (tx_buffer rx_buffer : Ptr)
    (random target_key : Nat) (mac : Ptr) : Outcome :=
  match tx_buffer, rx_buffer with
  | some tx, some rx =>
    if (random &&& cnot H.DERIVE_KEY_RANDOM_FLAG) ≠ 0 ∨ target_key > H.SHA204_KEY_ID_MAX then
      bad_param H tx_buffer rx_buffer
    else
      let tx := store tx H.SHA204_OPCODE_IDX H.SHA204_DERIVE_KEY
      let tx := store tx H.DERIVE_KEY_RANDOM_IDX random
      let tx := store tx H.DERIVE_KEY_TARGETKEY_IDX target_key
      let tx := store tx (H.DERIVE_KEY_TARGETKEY_IDX + 1) 0
      let tx := match mac with
        | some m =>
          store (memcpy tx H.DERIVE_KEY_MAC_IDX m H.DERIVE_KEY_MAC_SIZE)
            H.SHA204_COUNT_IDX H.DERIVE_KEY_COUNT_LARGE
        | none => store tx H.SHA204_COUNT_IDX H.DERIVE_KEY_COUNT_SMALL
      sha204c_send_and_receive E [] tx H.DERIVE_KEY_RSP_SIZE rx
        H.DERIVE_KEY_DELAY (u8 (H.DERIVE_KEY_EXEC_MAX - H.DERIVE_KEY_DELAY))
  | _, _ => bad_param H tx_buffer rx_buffer

/-- The function `sha204m_dev_rev` (lines 382-397). -/
def sha204m_dev_rev (H : Header) (E : Collaborators) (tx_buffer rx_buffer : Ptr) : Outcome :=
  match tx_buffer, rx_buffer with
  | some tx, some rx =>
    let tx := store tx H.SHA204_COUNT_IDX H.DEVREV_COUNT
    let tx := store tx H.SHA204_OPCODE_IDX H.SHA204_DEVREV
    -- Parameters are 0.
    let tx := store tx (H.DEVREV_PARAM2_IDX + 1) 0
    let tx := store tx H.DEVREV_PARAM2_IDX 0
    let tx := store tx H.DEVREV_PARAM1_IDX 0
    sha204c_send_and_receive E [] tx H.DEVREV_RSP_SIZE rx
      H.DEVREV_DELAY (u8 (H.DEVREV_EXEC_MAX - H.DEVREV_DELAY))
  | _, _ => bad_param H tx_buffer rx_buffer

/-- The function `sha204m_gen_dig` (lines 408-434). -/
def sha204m_gen_dig (H : Header) (E : Collaborators) (tx_buffer rx_buffer : Ptr)
    (zone key_id : Nat) (other_data : Ptr) : Outcome :=
  match tx_buffer, rx_buffer with
  | some tx, some rx =>
    if zone ≠ H.GENDIG_ZONE_OTP ∧ zone ≠ H.GENDIG_ZONE_DATA then
      bad_param H tx_buffer rx_buffer
    else if (zone = H.GENDIG_ZONE_OTP ∧ key_id > H.SHA204_OTP_BLOCK_MAX)
        ∨ (zone = H.GENDIG_ZONE_DATA ∧ key_id > H.SHA204_KEY_ID_MAX) then
      bad_param H tx_buffer rx_buffer
    else
      let tx := store tx H.SHA204_OPCODE_IDX H.SHA204_GENDIG
      let tx := store tx H.GENDIG_ZONE_IDX zone
      let tx := store tx H.GENDIG_KEYID_IDX key_id
      let tx := store tx (H.GENDIG_KEYID_IDX + 1) 0
      let tx := match other_data with
        | some other =>
          store (memcpy tx H.GENDIG_DATA_IDX other H.GENDIG_OTHER_DATA_SIZE)
            H.SHA204_COUNT_IDX H.GENDIG_COUNT_DATA
        | none => store tx H.SHA204_COUNT_IDX H.GENDIG_COUNT
      sha204c_send_and_receive E [] tx H.GENDIG_RSP_SIZE rx
        H.GENDIG_DELAY (u8 (H.GENDIG_EXEC_MAX - H.GENDIG_DELAY))
  | _, _ => bad_param H tx_buffer rx_buffer

/-- The function `sha204m_hmac` (lines 444-460). -/
def sha204m_hmac (H : Header) (E : Collaborators) (tx_buffer rx_buffer : Ptr)
    (mode key_id : Nat) : Outcome :=
  match tx_buffer, rx_buffer with
  | some tx, some rx =>
    if (mode &&& cnot H.HMAC_MODE_MASK) ≠ 0 then
      bad_param H tx_buffer rx_buffer
    else
      let tx := store tx H.SHA204_COUNT_IDX H.HMAC_COUNT
      let tx := store tx H.SHA204_OPCODE_IDX H.SHA204_HMAC
      let tx := store tx H.HMAC_MODE_IDX mode
      -- all 16 bits are used in the HMAC message
      let tx := store tx H.HMAC_KEYID_IDX (key_id &&& 0xFF)
      let tx := store tx (H.HMAC_KEYID_IDX + 1) (key_id >>> 8)
      sha204c_send_and_receive E [] tx H.HMAC_RSP_SIZE rx
        H.HMAC_DELAY (u8 (H.HMAC_EXEC_MAX - H.HMAC_DELAY))
  | _, _ => bad_param H tx_buffer rx_buffer

/-- The function `sha204m_lock` (lines 470-483). -/
def sha204m_lock (H : Header) (E : Collaborators) (tx_buffer rx_buffer : Ptr)
    (zone summary : Nat) : Outcome :=
  match tx_buffer, rx_buffer with
  | some tx, some rx =>
    if (zone &&& cnot H.LOCK_ZONE_MASK) ≠ 0
        ∨ ((zone &&& H.LOCK_ZONE_NO_CRC) ≠ 0 ∧ summary ≠ 0) then
      bad_param H tx_buffer rx_buffer
    else
      let tx := store tx H.SHA204_COUNT_IDX H.LOCK_COUNT
      let tx := store tx H.SHA204_OPCODE_IDX H.SHA204_LOCK
      let tx := store tx H.LOCK_ZONE_IDX (zone &&& H.LOCK_ZONE_MASK)
      let tx := store tx H.LOCK_SUMMARY_IDX (summary &&& 0xFF)
      let tx := store tx (H.LOCK_SUMMARY_IDX + 1) (summary >>> 8)
      sha204c_send_and_receive E [] tx H.LOCK_RSP_SIZE rx
        H.LOCK_DELAY (u8 (H.LOCK_EXEC_MAX - H.LOCK_DELAY))
  | _, _ => bad_param H tx_buffer rx_buffer

/-- The function `sha204m_mac` (lines 494-514). -/
def sha204m_mac (H : Header) (E : Collaborators) (tx_buffer rx_buffer : Ptr)
    (mode key_id : Nat) (challenge : Ptr) : Outcome :=
  match tx_buffer, rx_buffer with
  | some tx, some rx =>
    if (mode &&& cnot H.MAC_MODE_MASK) ≠ 0
        ∨ ((mode &&& H.MAC_MODE_BLOCK2_TEMPKEY) = 0 ∧ challenge.isNone) then
      bad_param H tx_buffer rx_buffer
    else
      let tx := store tx H.SHA204_COUNT_IDX H.MAC_COUNT_SHORT
      let tx := store tx H.SHA204_OPCODE_IDX H.SHA204_MAC
      let tx := store tx H.MAC_MODE_IDX mode
      let tx := store tx H.MAC_KEYID_IDX (key_id &&& 0xFF)
      let tx := store tx (H.MAC_KEYID_IDX + 1) (key_id >>> 8)
      let tx :=
        if (mode &&& H.MAC_MODE_BLOCK2_TEMPKEY) = 0 then
          match challenge with
          | some c =>
            store (memcpy tx H.MAC_CHALLENGE_IDX c H.MAC_CHALLENGE_SIZE)
              H.SHA204_COUNT_IDX H.MAC_COUNT_LONG
          | none => tx
        else tx
      sha204c_send_and_receive E [] tx H.MAC_RSP_SIZE rx
        H.MAC_DELAY (u8 (H.MAC_EXEC_MAX - H.MAC_DELAY))
  | _, _ => bad_param H tx_buffer rx_buffer

/-- The function `sha204m_nonce` (lines 527-557). -/
def sha204m_nonce (H : Header) (E : Collaborators) (tx_buffer rx_buffer : Ptr)
    (mode : Nat) (numin : Ptr) : Outcome :=
  match tx_buffer, rx_buffer, numin with
  | some tx, some rx, some numin =>
    if mode > H.NONCE_MODE_PASSTHROUGH ∨ mode = H.NONCE_MODE_INVALID then
      bad_param H tx_buffer rx_buffer
    else
      let tx := store tx H.SHA204_OPCODE_IDX H.SHA204_NONCE
      let tx := store tx H.NONCE_MODE_IDX mode
      -- 2. parameter is 0.
      let tx := store tx (H.NONCE_PARAM2_IDX + 1) 0
      let tx := store tx H.NONCE_PARAM2_IDX 0
      if mode ≠ H.NONCE_MODE_PASSTHROUGH then
        let tx := memcpy tx H.NONCE_INPUT_IDX numin H.NONCE_NUMIN_SIZE
        let tx := store tx H.SHA204_COUNT_IDX H.NONCE_COUNT_SHORT
        sha204c_send_and_receive E [] tx H.NONCE_RSP_SIZE_LONG rx
          H.NONCE_DELAY (u8 (H.NONCE_EXEC_MAX - H.NONCE_DELAY))
      else
        let tx := memcpy tx H.NONCE_INPUT_IDX numin H.NONCE_NUMIN_SIZE_PASSTHROUGH
        let tx := store tx H.SHA204_COUNT_IDX H.NONCE_COUNT_LONG
        sha204c_send_and_receive E [] tx H.NONCE_RSP_SIZE_SHORT rx
          H.NONCE_DELAY (u8 (H.NONCE_EXEC_MAX - H.NONCE_DELAY))
  | _, _, _ => bad_param H tx_buffer rx_buffer

/-- The function `sha204m_pause` (lines 566-581). -/
def sha204m_pause (H : Header) (E : Collaborators) (tx_buffer rx_buffer : Ptr)
    (selector : Nat) : Outcome :=
  match tx_buffer, rx_buffer with
  | some tx, some rx =>
    let tx := store tx H.SHA204_COUNT_IDX H.PAUSE_COUNT
    let tx := store tx H.SHA204_OPCODE_IDX H.SHA204_PAUSE
    let tx := store tx H.PAUSE_SELECT_IDX selector
    -- 2. parameter is 0.
    let tx := store tx (H.PAUSE_PARAM2_IDX + 1) 0
    let tx := store tx H.PAUSE_PARAM2_IDX 0
    sha204c_send_and_receive E [] tx H.PAUSE_RSP_SIZE rx
      H.PAUSE_DELAY (u8 (H.PAUSE_EXEC_MAX - H.PAUSE_DELAY))
  | _, _ => bad_param H tx_buffer rx_buffer

/-- The function `sha204m_random` (lines 590-605). -/
def sha204m_random (H : Header) (E : Collaborators) (tx_buffer rx_buffer : Ptr)
    (mode : Nat) : Outcome :=
  match tx_buffer, rx_buffer with
  | some tx, some rx =>
    if mode > H.RANDOM_NO_SEED_UPDATE then
      bad_param H tx_buffer rx_buffer
    else
      let tx := store tx H.SHA204_COUNT_IDX H.RANDOM_COUNT
      let tx := store tx H.SHA204_OPCODE_IDX H.SHA204_RANDOM
      let tx := store tx H.RANDOM_MODE_IDX (mode &&& H.RANDOM_SEED_UPDATE)
      -- 2. parameter is 0.
      let tx := store tx (H.RANDOM_PARAM2_IDX + 1) 0
      let tx := store tx H.RANDOM_PARAM2_IDX 0
      sha204c_send_and_receive E [] tx H.RANDOM_RSP_SIZE rx
        H.RANDOM_DELAY (u8 (H.RANDOM_EXEC_MAX - H.RANDOM_DELAY))
  | _, _ => bad_param H tx_buffer rx_buffer

/-- The function `sha204m_read` (lines 615-641). -/
def sha204m_read (H : Header) (E : Collaborators) (tx_buffer rx_buffer : Ptr)
    (zone address : Nat) : Outcome :=
  match tx_buffer, rx_buffer with
  | some tx, some rx =>
    if (zone &&& cnot H.READ_ZONE_MASK) ≠ 0
        ∨ ((zone &&& H.READ_ZONE_MODE_32_BYTES) ≠ 0 ∧ zone = H.SHA204_ZONE_OTP) then
      bad_param H tx_buffer rx_buffer
    else
      let address := if (zone &&& H.SHA204_ZONE_DATA) ≠ 0 then address >>> 2 else address
      if (zone &&& H.SHA204_ZONE_DATA) ≠ 0 ∧ (address &&& 1) ≠ 0 then
        bad_param H tx_buffer rx_buffer
      else
        let tx := store tx H.SHA204_COUNT_IDX H.READ_COUNT
        let tx := store tx H.SHA204_OPCODE_IDX H.SHA204_READ
        let tx := store tx H.READ_ZONE_IDX zone
        let tx := store tx H.READ_ADDR_IDX (address &&& H.SHA204_ADDRESS_MASK)
        let tx := store tx (H.READ_ADDR_IDX + 1) 0
        let rx_size := (if (zone &&& H.SHA204_ZONE_COUNT_FLAG) ≠ 0
          then H.READ_32_RSP_SIZE else H.READ_4_RSP_SIZE) % 256
        sha204c_send_and_receive E [] tx rx_size rx
          H.READ_DELAY (u8 (H.READ_EXEC_MAX - H.READ_DELAY))
  | _, _ => bad_param H tx_buffer rx_buffer

/-- The function `sha204m_temp_sense` (lines 652-683). The second component is
the `uint16_t` behind `temp_raw` after the call (`none` for a null pointer). -/
def sha204m_temp_sense (H : Header) (E : Collaborators) (tx_buffer rx_buffer : Ptr)
    (temp_raw : Option Nat) : Outcome × Option Nat :=
  match tx_buffer, rx_buffer, temp_raw with
  | some tx, some rx, some raw =>
    let tx := store tx H.SHA204_COUNT_IDX H.TEMP_SENSE_COUNT
    let tx := store tx H.SHA204_OPCODE_IDX H.SHA204_TEMPSENSE
    -- Parameters are 0.
    let tx := store tx (H.TEMP_SENSE_PARAM2_IDX + 1) 0
    let tx := store tx H.TEMP_SENSE_PARAM2_IDX 0
    let tx := store tx H.TEMP_SENSE_PARAM1_IDX 0
    let o := sha204c_send_and_receive E [] tx H.TEMP_SENSE_RSP_SIZE rx
      H.TEMP_SENSE_DELAY (u8 (H.TEMP_SENSE_EXEC_MAX - H.TEMP_SENSE_DELAY))
    if o.ret ≠ H.SHA204_SUCCESS then
      (o, some raw)
    else
      -- Calculate temp_raw.
      let temp_data := o.rx.getD rx
      let pos := H.SHA204_BUFFER_POS_DATA
      let temp_high := (temp_data pos <<< 8) % 65536
      let temp_high := (temp_high + temp_data (pos + 1)) % 65536
      let temp_low := (temp_data (pos + 2) <<< 8) % 65536
      let temp_low := (temp_low + temp_data (pos + 3)) % 65536
      (o, some ((((temp_high : Int) - temp_low) % 65536).toNat))
  | _, _, _ => (bad_param H tx_buffer rx_buffer, temp_raw)

/-- The function `sha204m_update_extra` (lines 693-706). -/
def sha204m_update_extra (H : Header) (E : Collaborators) (tx_buffer rx_buffer : Ptr)
    (mode new_value : Nat) : Outcome :=
  match tx_buffer, rx_buffer with
  | some tx, some rx =>
    if mode > H.UPDATE_CONFIG_BYTE_86 then
      bad_param H tx_buffer rx_buffer
    else
      let tx := store tx H.SHA204_COUNT_IDX H.UPDATE_COUNT
      let tx := store tx H.SHA204_OPCODE_IDX H.SHA204_UPDATE_EXTRA
      let tx := store tx H.UPDATE_MODE_IDX mode
      let tx := store tx H.UPDATE_VALUE_IDX new_value
      let tx := store tx (H.UPDATE_VALUE_IDX + 1) 0
      sha204c_send_and_receive E [] tx H.UPDATE_RSP_SIZE rx
        H.UPDATE_DELAY (u8 (H.UPDATE_EXEC_MAX - H.UPDATE_DELAY))
  | _, _ => bad_param H tx_buffer rx_buffer

/-- The function `sha204m_write` (lines 718-756). -/
def sha204m_write (H : Header) (E : Collaborators) (tx_buffer rx_buffer : Ptr)
    (zone address : Nat) (new_value mac : Ptr) : Outcome :=
  match tx_buffer, rx_buffer, new_value with
  | some tx, some rx, some value =>
    if (zone &&& cnot H.WRITE_ZONE_MASK) ≠ 0 then
      bad_param H tx_buffer rx_buffer
    else
      let address := if (zone &&& H.SHA204_ZONE_DATA) ≠ 0 then address >>> 2 else address
      if (zone &&& H.SHA204_ZONE_DATA) ≠ 0 ∧ (address &&& 1) ≠ 0 then
        bad_param H tx_buffer rx_buffer
      else
        let p_command := H.SHA204_OPCODE_IDX
        let tx := store tx p_command H.SHA204_WRITE
        let tx := store tx (p_command + 1) zone
        let tx := store tx (p_command + 2) (address &&& H.SHA204_ADDRESS_MASK)
        let tx := store tx (p_command + 3) 0
        let p_command := p_command + 4
        let count := if (zone &&& H.SHA204_ZONE_COUNT_FLAG) ≠ 0
          then H.SHA204_ZONE_ACCESS_32 else H.SHA204_ZONE_ACCESS_4
        let tx := memcpy tx p_command value count
        let p_command := p_command + count
        let tx := match mac with
          | some m => memcpy tx p_command m H.WRITE_MAC_SIZE
          | none => tx
        let p_command := match mac with
          | some _ => p_command + H.WRITE_MAC_SIZE
          | none => p_command
        -- Supply count.
        let tx := store tx H.SHA204_COUNT_IDX (p_command + H.SHA204_CRC_SIZE)
        sha204c_send_and_receive E [] tx H.WRITE_RSP_SIZE rx
          H.WRITE_DELAY (u8 (H.WRITE_EXEC_MAX - H.WRITE_DELAY))
  | _, _, _ => bad_param H tx_buffer rx_buffer

/-- The op-codes `sha204m_check_parameters` and `sha204m_execute` have a case for. -/
def supported_opcodes (H : Header) : List Nat :=
  [H.SHA204_CHECKMAC, H.SHA204_DERIVE_KEY, H.SHA204_DEVREV, H.SHA204_GENDIG, H.SHA204_HMAC,
   H.SHA204_LOCK, H.SHA204_MAC, H.SHA204_NONCE, H.SHA204_PAUSE, H.SHA204_RANDOM,
   H.SHA204_READ, H.SHA204_TEMPSENSE, H.SHA204_UPDATE_EXTRA, H.SHA204_WRITE]

/-- Some concrete collaborators: an additive checksum and a transport that
answers with a fixed status and stores the expected size in the response. -/
def demo : Collaborators where
  crc := fun bs => (bs.sum % 256, (bs.sum / 256) % 256)
  transport := fun _ rx_size rx _ _ => (0, store rx 0 rx_size)

/-- Whether a recorded call is a call of the transport. -/
def Call.is_transport : Call → Bool
  | Call.send_and_receive _ _ _ _ _ => true
  | Call.calculate_crc _ _ _ => false

/-- The function returned without having called the transport, that is through
one of its own `return SHA204_BAD_PARAM` statements. -/
def Outcome.returned_locally (o : Outcome) : Prop :=
  ∀ c ∈ o.calls, c.is_transport = false

/-- A validation failure is atomic: when the function returned locally, the
status is `SHA204_BAD_PARAM`, the transmit and the response buffer are the
caller's, unchanged, and no collaborator has been called. -/
def atomic_failure (H : Header) (tx_buffer rx_buffer : Ptr) (o : Outcome) : Prop :=
  o.returned_locally →
    o.ret = H.SHA204_BAD_PARAM ∧ o.tx = tx_buffer ∧ o.rx = rx_buffer ∧ o.calls = []

/-- The general precondition of the generic validator (lines 50-55), in the
words of the spec: transmit buffer non-null and large enough for the computed
(8 bit) frame length, response buffer non-null and large enough for the
minimum response, every non-empty data block behind a non-null pointer. -/
def general_preconditions (H : Header) (datalen1 : Nat) (data1 : Ptr) (datalen2 : Nat)
    (data2 : Ptr) (datalen3 : Nat) (data3 : Ptr)
    (tx_size : Nat) (tx_buffer : Ptr) (rx_size : Nat) (rx_buffer : Ptr) : Prop :=
  tx_buffer ≠ none
  ∧ (datalen1 + datalen2 + datalen3 + H.SHA204_CMD_SIZE_MIN) % 256 ≤ tx_size
  ∧ H.SHA204_RSP_SIZE_MIN ≤ rx_size
  ∧ rx_buffer ≠ none
  ∧ (0 < datalen1 → data1 ≠ none) ∧ (0 < datalen2 → data2 ≠ none)
  ∧ (0 < datalen3 → data3 ≠ none)

/-- Concrete collaborators whose transport answers with status 0 and the
response `07 12 34 00 10`: `temp_high = 0x1234`, `temp_low = 0x0010`. -/
def thermo : Collaborators where
  crc := fun bs => (bs.sum % 256, (bs.sum / 256) % 256)
  transport := fun _ _ rx _ _ =>
    (0, store (store (store (store (store rx 0 7) 1 0x12) 2 0x34) 3 0x00) 4 0x10)

/-- The response size, poll delay and poll timeout of a recorded transport call. -/
def Call.metadata : Call → Option (Nat × Nat × Nat)
  | Call.send_and_receive _ rx_size _ execution_delay execution_timeout =>
    some (rx_size, execution_delay, execution_timeout)
  | Call.calculate_crc _ _ _ => none

/-- The triples (response size, poll delay, poll timeout) handed to the
transport during a call, in order. -/
def Outcome.metadata (o : Outcome) : List (Nat × Nat × Nat) :=
  o.calls.filterMap Call.metadata

/-- The generic path (outcome `g` of `sha204m_execute`, if any) and the command
function (outcome `o`) use the same metadata: whenever both reach the
transport, both hand it one and the same triple. -/
def metadata_agree (g : Option Outcome) (o : Outcome) : Prop :=
  ∀ g0, g = some g0 → ¬ g0.returned_locally → ¬ o.returned_locally →
    g0.metadata = o.metadata ∧ ∃ t, o.metadata = [t]

/-- The command function, if it reaches the transport, hands it the triple of
the row of the switch of `sha204m_execute` for this op-code and `param1`. -/
def uses_row (H : Header) (op_code param1 : Nat) (o : Outcome) : Prop :=
  ¬ o.returned_locally → ∀ rx_size,
    o.metadata = [((sha204m_execute_supply H op_code param1 rx_size).2.2,
      (sha204m_execute_supply H op_code param1 rx_size).1,
      (sha204m_execute_supply H op_code param1 rx_size).2.1)]

/-! Unknown op-codes -/

theorem check_parameters_unknown (H : Header) (op_code param1 param2 : Nat)
    (datalen1 : Nat) (data1 : Ptr) (datalen2 : Nat) (data2 : Ptr)
    (datalen3 : Nat) (data3 : Ptr)
    (tx_size : Nat) (tx_buffer : Ptr) (rx_size : Nat) (rx_buffer : Ptr)
    (hcheck : H.SHA204_CHECK_PARAMETERS = true)
    (hop : op_code ∉ supported_opcodes H) :
    sha204m_check_parameters H op_code param1 param2 datalen1 data1 datalen2 data2
      datalen3 data3 tx_size tx_buffer rx_size rx_buffer = H.SHA204_BAD_PARAM := by
  simp only [supported_opcodes, List.mem_cons, List.mem_singleton, not_or, List.mem_nil_iff,
    or_false] at hop
  obtain ⟨h1, h2, h3, h4, h5, h6, h7, h8, h9, h10, h11, h12, h13, h14⟩ := hop
  unfold sha204m_check_parameters
  simp only [hcheck, if_true, h1, h2, h3, h4, h5, h6, h7, h8, h9, h10, h11, h12, h13, h14,
    if_false]
  split_ifs <;> rfl

/-- C1. With parameter checking compiled in, `sha204m_execute` with an op-code
that is none of the 14 supported ones returns `SHA204_BAD_PARAM` for every
choice of the other arguments, leaves both buffers as they are and calls
neither the checksum function nor the transport. -/
theorem execute_unknown_opcode (H : Header) (E : Collaborators) (op_code param1 param2 : Nat)
    (datalen1 : Nat) (data1 : Ptr) (datalen2 : Nat) (data2 : Ptr)
    (datalen3 : Nat) (data3 : Ptr)
    (tx_size : Nat) (tx_buffer : Ptr) (rx_size : Nat) (rx_buffer : Ptr)
    (hcheck : H.SHA204_CHECK_PARAMETERS = true)
    (hcodes : H.SHA204_BAD_PARAM ≠ H.SHA204_SUCCESS)
    (hop : op_code ∉ supported_opcodes H) :
    sha204m_execute H E op_code param1 param2 datalen1 data1 datalen2 data2
      datalen3 data3 tx_size tx_buffer rx_size rx_buffer
      = some { ret := H.SHA204_BAD_PARAM, tx := tx_buffer, rx := rx_buffer, calls := [] } := by
  unfold sha204m_execute
  simp only [check_parameters_unknown H op_code param1 param2 datalen1 data1 datalen2 data2
    datalen3 data3 tx_size tx_buffer rx_size rx_buffer hcheck hop]
  rw [if_pos hcodes]

/-- Instance of C1: op-code `0x55` on the published header, with valid buffers. -/
theorem execute_unknown_opcode_witness :
    atmel.SHA204_CHECK_PARAMETERS = true ∧ atmel.SHA204_BAD_PARAM ≠ atmel.SHA204_SUCCESS
      ∧ 0x55 ∉ supported_opcodes atmel
      ∧ sha204m_execute atmel demo 0x55 0 0 0 none 0 none 0 none
          64 (some fun _ => 0) 64 (some fun _ => 0)
        = some { ret := atmel.SHA204_BAD_PARAM, tx := some fun _ => 0, rx := some fun _ => 0,
                 calls := [] } :=
  ⟨rfl, by decide, by decide,
   execute_unknown_opcode atmel demo 0x55 0 0 0 none 0 none 0 none
     64 (some fun _ => 0) 64 (some fun _ => 0) rfl (by decide) (by decide)⟩

/-! Local validation failures -/

theorem ite_pred {α : Type} (S : α → Prop) (c : Prop) [Decidable c] (a b : α)
    (ha : S a) (hb : S b) : S (if c then a else b) := by
  split <;> assumption

theorem check_parameters_codes (H : Header) (op_code param1 param2 : Nat)
    (datalen1 : Nat) (data1 : Ptr) (datalen2 : Nat) (data2 : Ptr)
    (datalen3 : Nat) (data3 : Ptr)
    (tx_size : Nat) (tx_buffer : Ptr) (rx_size : Nat) (rx_buffer : Ptr) :
    sha204m_check_parameters H op_code param1 param2 datalen1 data1 datalen2 data2
      datalen3 data3 tx_size tx_buffer rx_size rx_buffer = H.SHA204_BAD_PARAM
    ∨ sha204m_check_parameters H op_code param1 param2 datalen1 data1 datalen2 data2
      datalen3 data3 tx_size tx_buffer rx_size rx_buffer = H.SHA204_SUCCESS := by
  generalize hr : sha204m_check_parameters H op_code param1 param2 datalen1 data1 datalen2 data2
      datalen3 data3 tx_size tx_buffer rx_size rx_buffer = r
  revert hr
  unfold sha204m_check_parameters
  intro hr
  rw [← hr]
  repeat first
    | exact Or.inl rfl
    | exact Or.inr rfl
    | refine ite_pred (fun r => r = H.SHA204_BAD_PARAM ∨ r = H.SHA204_SUCCESS) _ _ _ ?_ ?_

theorem send_and_receive_not_local (E : Collaborators) (calls : List Call) (tx : Mem)
    (n : Nat) (rx : Mem) (d t : Nat) :
    ¬ (sha204c_send_and_receive E calls tx n rx d t).returned_locally := by
  intro h
  have := h (Call.send_and_receive tx (n % 256) rx (d % 256) (t % 256))
    (by simp [sha204c_send_and_receive])
  simp [Call.is_transport] at this

theorem execute_cases (H : Header) (E : Collaborators) (op_code param1 param2 : Nat)
    (datalen1 : Nat) (data1 : Ptr) (datalen2 : Nat) (data2 : Ptr)
    (datalen3 : Nat) (data3 : Ptr)
    (tx_size : Nat) (tx_buffer : Ptr) (rx_size : Nat) (rx_buffer : Ptr) (o : Outcome)
    (h : sha204m_execute H E op_code param1 param2 datalen1 data1 datalen2 data2
      datalen3 data3 tx_size tx_buffer rx_size rx_buffer = some o) :
    o = bad_param H tx_buffer rx_buffer
    ∨ ∃ calls tx n rx d t, o = sha204c_send_and_receive E calls tx n rx d t := by
  unfold sha204m_execute at h
  simp only at h
  split_ifs at h with hne
  · left
    rcases check_parameters_codes H op_code param1 param2 datalen1 data1 datalen2 data2
      datalen3 data3 tx_size tx_buffer rx_size rx_buffer with hc | hc
    · simp only [Option.some.injEq] at h
      rw [← h, hc]; rfl
    · exact absurd hc hne
  · right
    split at h
    · simp only [Option.bind_eq_some] at h
      obtain ⟨a, _, ha⟩ := h
      simp only [Option.some.injEq] at ha
      exact ⟨_, _, _, _, _, _, ha.symm⟩
    · simp at h

theorem check_mac_cases (H : Header) (E : Collaborators) (tx_buffer rx_buffer : Ptr) (a b : Nat) (p q r : Ptr) :
    sha204m_check_mac H E tx_buffer rx_buffer a b p q r = bad_param H tx_buffer rx_buffer
    ∨ ∃ tx n rx d t, sha204m_check_mac H E tx_buffer rx_buffer a b p q r
        = sha204c_send_and_receive E [] tx n rx d t := by
  unfold sha204m_check_mac
  split
  · simp only
    repeat first
      | exact Or.inl rfl
      | exact Or.inr ⟨_, _, _, _, _, rfl⟩
      | refine ite_pred (fun o => o = bad_param H _ _
          ∨ ∃ tx n rx d t, o = sha204c_send_and_receive E [] tx n rx d t) _ _ _ ?_ ?_
  · exact Or.inl rfl

theorem derive_key_cases (H : Header) (E : Collaborators) (tx_buffer rx_buffer : Ptr) (a b : Nat) (p : Ptr) :
    sha204m_derive_key H E tx_buffer rx_buffer a b p = bad_param H tx_buffer rx_buffer
    ∨ ∃ tx n rx d t, sha204m_derive_key H E tx_buffer rx_buffer a b p
        = sha204c_send_and_receive E [] tx n rx d t := by
  unfold sha204m_derive_key
  split
  · simp only
    repeat first
      | exact Or.inl rfl
      | exact Or.inr ⟨_, _, _, _, _, rfl⟩
      | refine ite_pred (fun o => o = bad_param H _ _
          ∨ ∃ tx n rx d t, o = sha204c_send_and_receive E [] tx n rx d t) _ _ _ ?_ ?_
  · exact Or.inl rfl

theorem dev_rev_cases (H : Header) (E : Collaborators) (tx_buffer rx_buffer : Ptr)  :
    sha204m_dev_rev H E tx_buffer rx_buffer  = bad_param H tx_buffer rx_buffer
    ∨ ∃ tx n rx d t, sha204m_dev_rev H E tx_buffer rx_buffer 
        = sha204c_send_and_receive E [] tx n rx d t := by
  unfold sha204m_dev_rev
  split
  · simp only
    repeat first
      | exact Or.inl rfl
      | exact Or.inr ⟨_, _, _, _, _, rfl⟩
      | refine ite_pred (fun o => o = bad_param H _ _
          ∨ ∃ tx n rx d t, o = sha204c_send_and_receive E [] tx n rx d t) _ _ _ ?_ ?_
  · exact Or.inl rfl

theorem gen_dig_cases (H : Header) (E : Collaborators) (tx_buffer rx_buffer : Ptr) (a b : Nat) (p : Ptr) :
    sha204m_gen_dig H E tx_buffer rx_buffer a b p = bad_param H tx_buffer rx_buffer
    ∨ ∃ tx n rx d t, sha204m_gen_dig H E tx_buffer rx_buffer a b p
        = sha204c_send_and_receive E [] tx n rx d t := by
  unfold sha204m_gen_dig
  split
  · simp only
    repeat first
      | exact Or.inl rfl
      | exact Or.inr ⟨_, _, _, _, _, rfl⟩
      | refine ite_pred (fun o => o = bad_param H _ _
          ∨ ∃ tx n rx d t, o = sha204c_send_and_receive E [] tx n rx d t) _ _ _ ?_ ?_
  · exact Or.inl rfl

theorem hmac_cases (H : Header) (E : Collaborators) (tx_buffer rx_buffer : Ptr) (a b : Nat) :
    sha204m_hmac H E tx_buffer rx_buffer a b = bad_param H tx_buffer rx_buffer
    ∨ ∃ tx n rx d t, sha204m_hmac H E tx_buffer rx_buffer a b
        = sha204c_send_and_receive E [] tx n rx d t := by
  unfold sha204m_hmac
  split
  · simp only
    repeat first
      | exact Or.inl rfl
      | exact Or.inr ⟨_, _, _, _, _, rfl⟩
      | refine ite_pred (fun o => o = bad_param H _ _
          ∨ ∃ tx n rx d t, o = sha204c_send_and_receive E [] tx n rx d t) _ _ _ ?_ ?_
  · exact Or.inl rfl

theorem lock_cases (H : Header) (E : Collaborators) (tx_buffer rx_buffer : Ptr) (a b : Nat) :
    sha204m_lock H E tx_buffer rx_buffer a b = bad_param H tx_buffer rx_buffer
    ∨ ∃ tx n rx d t, sha204m_lock H E tx_buffer rx_buffer a b
        = sha204c_send_and_receive E [] tx n rx d t := by
  unfold sha204m_lock
  split
  · simp only
    repeat first
      | exact Or.inl rfl
      | exact Or.inr ⟨_, _, _, _, _, rfl⟩
      | refine ite_pred (fun o => o = bad_param H _ _
          ∨ ∃ tx n rx d t, o = sha204c_send_and_receive E [] tx n rx d t) _ _ _ ?_ ?_
  · exact Or.inl rfl

theorem mac_cases (H : Header) (E : Collaborators) (tx_buffer rx_buffer : Ptr) (a b : Nat) (p : Ptr) :
    sha204m_mac H E tx_buffer rx_buffer a b p = bad_param H tx_buffer rx_buffer
    ∨ ∃ tx n rx d t, sha204m_mac H E tx_buffer rx_buffer a b p
        = sha204c_send_and_receive E [] tx n rx d t := by
  unfold sha204m_mac
  split
  · simp only
    repeat first
      | exact Or.inl rfl
      | exact Or.inr ⟨_, _, _, _, _, rfl⟩
      | refine ite_pred (fun o => o = bad_param H _ _
          ∨ ∃ tx n rx d t, o = sha204c_send_and_receive E [] tx n rx d t) _ _ _ ?_ ?_
  · exact Or.inl rfl

theorem nonce_cases (H : Header) (E : Collaborators) (tx_buffer rx_buffer : Ptr) (a : Nat) (p : Ptr) :
    sha204m_nonce H E tx_buffer rx_buffer a p = bad_param H tx_buffer rx_buffer
    ∨ ∃ tx n rx d t, sha204m_nonce H E tx_buffer rx_buffer a p
        = sha204c_send_and_receive E [] tx n rx d t := by
  unfold sha204m_nonce
  split
  · simp only
    repeat first
      | exact Or.inl rfl
      | exact Or.inr ⟨_, _, _, _, _, rfl⟩
      | refine ite_pred (fun o => o = bad_param H _ _
          ∨ ∃ tx n rx d t, o = sha204c_send_and_receive E [] tx n rx d t) _ _ _ ?_ ?_
  · exact Or.inl rfl

theorem pause_cases (H : Header) (E : Collaborators) (tx_buffer rx_buffer : Ptr) (a : Nat) :
    sha204m_pause H E tx_buffer rx_buffer a = bad_param H tx_buffer rx_buffer
    ∨ ∃ tx n rx d t, sha204m_pause H E tx_buffer rx_buffer a
        = sha204c_send_and_receive E [] tx n rx d t := by
  unfold sha204m_pause
  split
  · simp only
    repeat first
      | exact Or.inl rfl
      | exact Or.inr ⟨_, _, _, _, _, rfl⟩
      | refine ite_pred (fun o => o = bad_param H _ _
          ∨ ∃ tx n rx d t, o = sha204c_send_and_receive E [] tx n rx d t) _ _ _ ?_ ?_
  · exact Or.inl rfl

theorem random_cases (H : Header) (E : Collaborators) (tx_buffer rx_buffer : Ptr) (a : Nat) :
    sha204m_random H E tx_buffer rx_buffer a = bad_param H tx_buffer rx_buffer
    ∨ ∃ tx n rx d t, sha204m_random H E tx_buffer rx_buffer a
        = sha204c_send_and_receive E [] tx n rx d t := by
  unfold sha204m_random
  split
  · simp only
    repeat first
      | exact Or.inl rfl
      | exact Or.inr ⟨_, _, _, _, _, rfl⟩
      | refine ite_pred (fun o => o = bad_param H _ _
          ∨ ∃ tx n rx d t, o = sha204c_send_and_receive E [] tx n rx d t) _ _ _ ?_ ?_
  · exact Or.inl rfl

theorem read_cases (H : Header) (E : Collaborators) (tx_buffer rx_buffer : Ptr) (a b : Nat) :
    sha204m_read H E tx_buffer rx_buffer a b = bad_param H tx_buffer rx_buffer
    ∨ ∃ tx n rx d t, sha204m_read H E tx_buffer rx_buffer a b
        = sha204c_send_and_receive E [] tx n rx d t := by
  unfold sha204m_read
  split
  · simp only
    repeat first
      | exact Or.inl rfl
      | exact Or.inr ⟨_, _, _, _, _, rfl⟩
      | refine ite_pred (fun o => o = bad_param H _ _
          ∨ ∃ tx n rx d t, o = sha204c_send_and_receive E [] tx n rx d t) _ _ _ ?_ ?_
  · exact Or.inl rfl

theorem update_extra_cases (H : Header) (E : Collaborators) (tx_buffer rx_buffer : Ptr) (a b : Nat) :
    sha204m_update_extra H E tx_buffer rx_buffer a b = bad_param H tx_buffer rx_buffer
    ∨ ∃ tx n rx d t, sha204m_update_extra H E tx_buffer rx_buffer a b
        = sha204c_send_and_receive E [] tx n rx d t := by
  unfold sha204m_update_extra
  split
  · simp only
    repeat first
      | exact Or.inl rfl
      | exact Or.inr ⟨_, _, _, _, _, rfl⟩
      | refine ite_pred (fun o => o = bad_param H _ _
          ∨ ∃ tx n rx d t, o = sha204c_send_and_receive E [] tx n rx d t) _ _ _ ?_ ?_
  · exact Or.inl rfl

theorem write_cases (H : Header) (E : Collaborators) (tx_buffer rx_buffer : Ptr) (a b : Nat) (p q : Ptr) :
    sha204m_write H E tx_buffer rx_buffer a b p q = bad_param H tx_buffer rx_buffer
    ∨ ∃ tx n rx d t, sha204m_write H E tx_buffer rx_buffer a b p q
        = sha204c_send_and_receive E [] tx n rx d t := by
  unfold sha204m_write
  split
  · simp only
    repeat first
      | exact Or.inl rfl
      | exact Or.inr ⟨_, _, _, _, _, rfl⟩
      | refine ite_pred (fun o => o = bad_param H _ _
          ∨ ∃ tx n rx d t, o = sha204c_send_and_receive E [] tx n rx d t) _ _ _ ?_ ?_
  · exact Or.inl rfl

theorem temp_sense_cases (H : Header) (E : Collaborators) (tx_buffer rx_buffer : Ptr)
    (temp_raw : Option Nat) :
    (sha204m_temp_sense H E tx_buffer rx_buffer temp_raw).1 = bad_param H tx_buffer rx_buffer
    ∨ ∃ tx n rx d t, (sha204m_temp_sense H E tx_buffer rx_buffer temp_raw).1
        = sha204c_send_and_receive E [] tx n rx d t := by
  unfold sha204m_temp_sense
  split
  · simp only
    split_ifs
    · exact Or.inr ⟨_, _, _, _, _, rfl⟩
    · exact Or.inr ⟨_, _, _, _, _, rfl⟩
  · exact Or.inl rfl

theorem atomic_of_cases (H : Header) (E : Collaborators) (tx_buffer rx_buffer : Ptr)
    (o : Outcome)
    (h : o = bad_param H tx_buffer rx_buffer
      ∨ ∃ calls tx n rx d t, o = sha204c_send_and_receive E calls tx n rx d t) :
    atomic_failure H tx_buffer rx_buffer o := by
  intro hl
  rcases h with h | ⟨calls, tx, n, rx, d, t, h⟩
  · subst h
    exact ⟨rfl, rfl, rfl, rfl⟩
  · subst h
    exact absurd hl (send_and_receive_not_local E calls tx n rx d t)

theorem atomic_of_cases_nil (H : Header) (E : Collaborators) (tx_buffer rx_buffer : Ptr)
    (o : Outcome)
    (h : o = bad_param H tx_buffer rx_buffer
      ∨ ∃ tx n rx d t, o = sha204c_send_and_receive E [] tx n rx d t) :
    atomic_failure H tx_buffer rx_buffer o := by
  apply atomic_of_cases H E
  rcases h with h | ⟨tx, n, rx, d, t, h⟩
  · exact Or.inl h
  · exact Or.inr ⟨[], tx, n, rx, d, t, h⟩

theorem execute_rejects (H : Header) (E : Collaborators) (op_code param1 param2 : Nat)
    (datalen1 : Nat) (data1 : Ptr) (datalen2 : Nat) (data2 : Ptr)
    (datalen3 : Nat) (data3 : Ptr)
    (tx_size : Nat) (tx_buffer : Ptr) (rx_size : Nat) (rx_buffer : Ptr)
    (h : sha204m_check_parameters H op_code param1 param2 datalen1 data1 datalen2 data2
      datalen3 data3 tx_size tx_buffer rx_size rx_buffer ≠ H.SHA204_SUCCESS) :
    sha204m_execute H E op_code param1 param2 datalen1 data1 datalen2 data2
      datalen3 data3 tx_size tx_buffer rx_size rx_buffer
      = some (bad_param H tx_buffer rx_buffer) := by
  unfold sha204m_execute
  simp only
  rw [if_pos h]
  rcases check_parameters_codes H op_code param1 param2 datalen1 data1 datalen2 data2
    datalen3 data3 tx_size tx_buffer rx_size rx_buffer with hc | hc
  · rw [hc]; rfl
  · exact absurd hc h

/-- C2. Validation failure is atomic. Whenever `sha204m_execute` or one of the
14 command functions returns through a local check (without having reached the
transport), the status is `SHA204_BAD_PARAM`, the transmit buffer and the
response buffer are unchanged, and neither the transport nor the checksum
function has been called; and `sha204m_execute` returns that way on every
request its parameter check refuses. -/
theorem validation_failure_atomic (H : Header) (E : Collaborators)
    (tx_buffer rx_buffer : Ptr) (op_code param1 param2 : Nat)
    (datalen1 : Nat) (data1 : Ptr) (datalen2 : Nat) (data2 : Ptr)
    (datalen3 : Nat) (data3 : Ptr) (tx_size rx_size : Nat)
    (a b : Nat) (p q r : Ptr) (temp_raw : Option Nat) :
    (sha204m_check_parameters H op_code param1 param2 datalen1 data1 datalen2 data2
        datalen3 data3 tx_size tx_buffer rx_size rx_buffer ≠ H.SHA204_SUCCESS →
      sha204m_execute H E op_code param1 param2 datalen1 data1 datalen2 data2
        datalen3 data3 tx_size tx_buffer rx_size rx_buffer
        = some (bad_param H tx_buffer rx_buffer))
    ∧ (∀ o, sha204m_execute H E op_code param1 param2 datalen1 data1 datalen2 data2
        datalen3 data3 tx_size tx_buffer rx_size rx_buffer = some o →
        atomic_failure H tx_buffer rx_buffer o)
    ∧ atomic_failure H tx_buffer rx_buffer (sha204m_check_mac H E tx_buffer rx_buffer a b p q r)
    ∧ atomic_failure H tx_buffer rx_buffer (sha204m_derive_key H E tx_buffer rx_buffer a b p)
    ∧ atomic_failure H tx_buffer rx_buffer (sha204m_dev_rev H E tx_buffer rx_buffer)
    ∧ atomic_failure H tx_buffer rx_buffer (sha204m_gen_dig H E tx_buffer rx_buffer a b p)
    ∧ atomic_failure H tx_buffer rx_buffer (sha204m_hmac H E tx_buffer rx_buffer a b)
    ∧ atomic_failure H tx_buffer rx_buffer (sha204m_lock H E tx_buffer rx_buffer a b)
    ∧ atomic_failure H tx_buffer rx_buffer (sha204m_mac H E tx_buffer rx_buffer a b p)
    ∧ atomic_failure H tx_buffer rx_buffer (sha204m_nonce H E tx_buffer rx_buffer a p)
    ∧ atomic_failure H tx_buffer rx_buffer (sha204m_pause H E tx_buffer rx_buffer a)
    ∧ atomic_failure H tx_buffer rx_buffer (sha204m_random H E tx_buffer rx_buffer a)
    ∧ atomic_failure H tx_buffer rx_buffer (sha204m_read H E tx_buffer rx_buffer a b)
    ∧ atomic_failure H tx_buffer rx_buffer
        (sha204m_temp_sense H E tx_buffer rx_buffer temp_raw).1
    ∧ atomic_failure H tx_buffer rx_buffer (sha204m_update_extra H E tx_buffer rx_buffer a b)
    ∧ atomic_failure H tx_buffer rx_buffer (sha204m_write H E tx_buffer rx_buffer a b p q) :=
  ⟨execute_rejects H E op_code param1 param2 datalen1 data1 datalen2 data2
      datalen3 data3 tx_size tx_buffer rx_size rx_buffer,
   fun o ho => atomic_of_cases H E tx_buffer rx_buffer o
      (execute_cases H E op_code param1 param2 datalen1 data1 datalen2 data2
        datalen3 data3 tx_size tx_buffer rx_size rx_buffer o ho),
   atomic_of_cases_nil H E _ _ _ (check_mac_cases H E tx_buffer rx_buffer a b p q r),
   atomic_of_cases_nil H E _ _ _ (derive_key_cases H E tx_buffer rx_buffer a b p),
   atomic_of_cases_nil H E _ _ _ (dev_rev_cases H E tx_buffer rx_buffer),
   atomic_of_cases_nil H E _ _ _ (gen_dig_cases H E tx_buffer rx_buffer a b p),
   atomic_of_cases_nil H E _ _ _ (hmac_cases H E tx_buffer rx_buffer a b),
   atomic_of_cases_nil H E _ _ _ (lock_cases H E tx_buffer rx_buffer a b),
   atomic_of_cases_nil H E _ _ _ (mac_cases H E tx_buffer rx_buffer a b p),
   atomic_of_cases_nil H E _ _ _ (nonce_cases H E tx_buffer rx_buffer a p),
   atomic_of_cases_nil H E _ _ _ (pause_cases H E tx_buffer rx_buffer a),
   atomic_of_cases_nil H E _ _ _ (random_cases H E tx_buffer rx_buffer a),
   atomic_of_cases_nil H E _ _ _ (read_cases H E tx_buffer rx_buffer a b),
   atomic_of_cases_nil H E _ _ _ (temp_sense_cases H E tx_buffer rx_buffer temp_raw),
   atomic_of_cases_nil H E _ _ _ (update_extra_cases H E tx_buffer rx_buffer a b),
   atomic_of_cases_nil H E _ _ _ (write_cases H E tx_buffer rx_buffer a b p q)⟩

/-- Instance of C2: a `Write` to a data-zone address that is not on a word
boundary (zone `0x02`, address `4`), and a generic `Write` request whose zone
byte `0xFF` has reserved bits set, both with valid buffers. -/
theorem validation_failure_atomic_witness :
    (sha204m_execute atmel demo atmel.SHA204_WRITE 0xFF 0 4 (some fun i => i) 0 none 0 none
        64 (some fun _ => 0xAA) 64 (some fun _ => 0xBB)
      = some (bad_param atmel (some fun _ => 0xAA) (some fun _ => 0xBB)))
    ∧ ((sha204m_write atmel demo (some fun _ => 0xAA) (some fun _ => 0xBB) 0x02 4
          (some fun i => i) none).ret = atmel.SHA204_BAD_PARAM
      ∧ (sha204m_write atmel demo (some fun _ => 0xAA) (some fun _ => 0xBB) 0x02 4
          (some fun i => i) none).tx = (some fun _ => 0xAA)
      ∧ (sha204m_write atmel demo (some fun _ => 0xAA) (some fun _ => 0xBB) 0x02 4
          (some fun i => i) none).rx = (some fun _ => 0xBB)
      ∧ (sha204m_write atmel demo (some fun _ => 0xAA) (some fun _ => 0xBB) 0x02 4
          (some fun i => i) none).calls = []) :=
  ⟨(validation_failure_atomic atmel demo (some fun _ => 0xAA) (some fun _ => 0xBB)
      atmel.SHA204_WRITE 0xFF 0 4 (some fun i => i) 0 none 0 none 64 64
      0x02 4 (some fun i => i) none none none).1 (by decide),
   (validation_failure_atomic atmel demo (some fun _ => 0xAA) (some fun _ => 0xBB)
      atmel.SHA204_WRITE 0xFF 0 4 (some fun i => i) 0 none 0 none 64 64
      0x02 4 (some fun i => i) none none none).2.2.2.2.2.2.2.2.2.2.2.2.2.2.2
      (fun c hc => by
        have : (sha204m_write atmel demo (some fun _ => 0xAA) (some fun _ => 0xBB) 0x02 4
          (some fun i => i) none).calls = [] := rfl
        rw [this] at hc
        cases hc)⟩

/-! Accepted requests -/

theorem check_parameters_general (H : Header) (op_code param1 param2 : Nat)
    (datalen1 : Nat) (data1 : Ptr) (datalen2 : Nat) (data2 : Ptr)
    (datalen3 : Nat) (data3 : Ptr)
    (tx_size : Nat) (tx_buffer : Ptr) (rx_size : Nat) (rx_buffer : Ptr)
    (hcheck : H.SHA204_CHECK_PARAMETERS = true)
    (hcodes : H.SHA204_BAD_PARAM ≠ H.SHA204_SUCCESS)
    (hacc : sha204m_check_parameters H op_code param1 param2 datalen1 data1 datalen2 data2
      datalen3 data3 tx_size tx_buffer rx_size rx_buffer = H.SHA204_SUCCESS) :
    (tx_buffer ≠ none ∧ rx_buffer ≠ none
      ∧ (datalen1 + datalen2 + datalen3 + H.SHA204_CMD_SIZE_MIN) % 256 ≤ tx_size
      ∧ H.SHA204_RSP_SIZE_MIN ≤ rx_size)
    ∧ (0 < datalen1 → data1 ≠ none) ∧ (0 < datalen2 → data2 ≠ none)
      ∧ (0 < datalen3 → data3 ≠ none) := by
  unfold sha204m_check_parameters at hacc
  rw [if_pos hcheck] at hacc
  dsimp only at hacc
  by_cases h1 : tx_buffer.isNone ∨ tx_size < (datalen1 + datalen2 + datalen3
      + H.SHA204_CMD_SIZE_MIN) % 256 ∨ rx_size < H.SHA204_RSP_SIZE_MIN ∨ rx_buffer.isNone
  · rw [if_pos h1] at hacc
    exact absurd hacc hcodes
  · rw [if_neg h1] at hacc
    by_cases h2 : (datalen1 > 0 ∧ data1.isNone) ∨ (datalen2 > 0 ∧ data2.isNone)
        ∨ (datalen3 > 0 ∧ data3.isNone)
    · rw [if_pos h2] at hacc
      exact absurd hacc hcodes
    · simp only [not_or, not_and, not_lt, Option.isNone_iff_eq_none] at h1 h2
      exact ⟨⟨h1.1, h1.2.2.2, h1.2.1, h1.2.2.1⟩, fun h => h2.1 h, fun h => h2.2.1 h,
        fun h => h2.2.2 h⟩

theorem memcpy_zero (dst : Mem) (pos : Nat) (src : Mem) : memcpy dst pos src 0 = dst := by
  funext j
  simp only [memcpy, Nat.add_zero]
  rw [if_neg]
  omega

theorem copy_block_eq (tx : Mem) (p n : Nat) (data : Ptr) (h : 0 < n → data ≠ none) :
    copy_block tx p n data = some (memcpy tx p (data.getD fun _ => 0) n) := by
  unfold copy_block
  by_cases hn : n > 0
  · rw [if_pos hn]
    cases data with
    | none => exact absurd rfl (h hn)
    | some d => rfl
  · rw [if_neg hn]
    have : n = 0 := by omega
    subst this
    rw [memcpy_zero]

theorem store_apply (m : Mem) (i v j : Nat) :
    store m i v j = if j = i then v % 256 else m j := rfl

theorem memcpy_apply (dst : Mem) (pos : Nat) (src : Mem) (n j : Nat) :
    memcpy dst pos src n j = if pos ≤ j ∧ j < pos + n then src (j - pos) else dst j := rfl

theorem memcpy_apply_lt (dst : Mem) (pos : Nat) (src : Mem) (n j : Nat) (h : j < pos) :
    memcpy dst pos src n j = dst j := by
  rw [memcpy_apply, if_neg]
  omega

theorem memcpy_apply_ge (dst : Mem) (pos : Nat) (src : Mem) (n j : Nat) (h : pos + n ≤ j) :
    memcpy dst pos src n j = dst j := by
  rw [memcpy_apply, if_neg]
  omega

theorem memcpy_apply_in (dst : Mem) (pos : Nat) (src : Mem) (n j : Nat)
    (h1 : pos ≤ j) (h2 : j < pos + n) :
    memcpy dst pos src n j = src (j - pos) := by
  rw [memcpy_apply, if_pos ⟨h1, h2⟩]

theorem calculate_crc_apply (E : Collaborators) (length : Nat) (data : Mem) (pos j : Nat) :
    sha204c_calculate_crc E length data pos j
      = if j = pos + 1 then (E.crc (bytes data length)).2
        else if j = pos then (E.crc (bytes data length)).1 else data j := rfl

theorem calculate_crc_apply_lt (E : Collaborators) (length : Nat) (data : Mem) (pos j : Nat)
    (h : j < pos) : sha204c_calculate_crc E length data pos j = data j := by
  rw [calculate_crc_apply, if_neg (by omega), if_neg (by omega)]

/-- Closed form of the assembly of `sha204m_execute` when no null data pointer
is read: the header, the three copies with the cursor positions of the source
(the cursor moves by `datalen1` after the second copy), the checksum call. -/
theorem assemble_eq (H : Header) (E : Collaborators) (op_code param1 param2 : Nat)
    (datalen1 : Nat) (data1 : Ptr) (datalen2 : Nat) (data2 : Ptr)
    (datalen3 : Nat) (data3 : Ptr) (tx0 : Mem)
    (h1 : 0 < datalen1 → data1 ≠ none) (h2 : 0 < datalen2 → data2 ≠ none)
    (h3 : 0 < datalen3 → data3 ≠ none) :
    sha204m_execute_assemble H E op_code param1 param2 datalen1 data1 datalen2 data2
      datalen3 data3 tx0
    = some
      (sha204c_calculate_crc E
        (u8 (((datalen1 + datalen2 + datalen3 + H.SHA204_CMD_SIZE_MIN) % 256 : Nat)
          - H.SHA204_CRC_SIZE))
        (memcpy (memcpy (memcpy
          (store (store (store (store (store tx0 0
            ((datalen1 + datalen2 + datalen3 + H.SHA204_CMD_SIZE_MIN) % 256))
            1 op_code) 2 param1) 3 (param2 &&& 0xFF)) 4 (param2 >>> 8))
          5 (data1.getD fun _ => 0) datalen1)
          (5 + datalen1) (data2.getD fun _ => 0) datalen2)
          (5 + datalen1 + if datalen2 > 0 then datalen1 else 0)
          (data3.getD fun _ => 0) datalen3)
        (5 + datalen1 + (if datalen2 > 0 then datalen1 else 0) + datalen3),
       Call.calculate_crc
        (u8 (((datalen1 + datalen2 + datalen3 + H.SHA204_CMD_SIZE_MIN) % 256 : Nat)
          - H.SHA204_CRC_SIZE))
        (memcpy (memcpy (memcpy
          (store (store (store (store (store tx0 0
            ((datalen1 + datalen2 + datalen3 + H.SHA204_CMD_SIZE_MIN) % 256))
            1 op_code) 2 param1) 3 (param2 &&& 0xFF)) 4 (param2 >>> 8))
          5 (data1.getD fun _ => 0) datalen1)
          (5 + datalen1) (data2.getD fun _ => 0) datalen2)
          (5 + datalen1 + if datalen2 > 0 then datalen1 else 0)
          (data3.getD fun _ => 0) datalen3)
        (5 + datalen1 + (if datalen2 > 0 then datalen1 else 0) + datalen3)) := by
  have e1 : (if datalen1 > 0 then 5 + datalen1 else 5) = 5 + datalen1 := by
    split_ifs <;> omega
  have e2 : (if datalen2 > 0 then 5 + datalen1 + datalen1 else 5 + datalen1)
      = 5 + datalen1 + if datalen2 > 0 then datalen1 else 0 := by
    split_ifs <;> omega
  have e3 : (if datalen3 > 0 then
        (5 + datalen1 + if datalen2 > 0 then datalen1 else 0) + datalen3
      else 5 + datalen1 + if datalen2 > 0 then datalen1 else 0)
      = 5 + datalen1 + (if datalen2 > 0 then datalen1 else 0) + datalen3 := by
    split_ifs <;> omega
  unfold sha204m_execute_assemble
  simp only [copy_block_eq _ _ _ _ h1, copy_block_eq _ _ _ _ h2, copy_block_eq _ _ _ _ h3,
    Option.some_bind, e1, e2, e3]

theorem u8_lt (x : Int) : u8 x < 256 := by
  unfold u8
  omega

theorem supply_lt (H : Header) (op_code param1 rx_size : Nat) :
    (sha204m_execute_supply H op_code param1 rx_size).1 < 256
    ∧ (sha204m_execute_supply H op_code param1 rx_size).2.1 < 256
    ∧ (sha204m_execute_supply H op_code param1 rx_size).2.2 < 256 := by
  unfold sha204m_execute_supply
  repeat first
    | exact ⟨Nat.mod_lt _ (by decide), u8_lt _, Nat.mod_lt _ (by decide)⟩
    | exact ⟨(by decide : 0 < 256), Nat.mod_lt _ (by decide), Nat.mod_lt _ (by decide)⟩
    | refine ite_pred (fun r : Nat × Nat × Nat => r.1 < 256 ∧ r.2.1 < 256 ∧ r.2.2 < 256)
        _ _ _ ?_ ?_

theorem execute_accepted (H : Header) (E : Collaborators) (op_code param1 param2 : Nat)
    (datalen1 : Nat) (data1 : Ptr) (datalen2 : Nat) (data2 : Ptr)
    (datalen3 : Nat) (data3 : Ptr)
    (tx_size : Nat) (tx0 : Mem) (rx_size : Nat) (rx0 : Mem) (a : Mem × Call)
    (ha : sha204m_execute_assemble H E op_code param1 param2 datalen1 data1 datalen2 data2
      datalen3 data3 tx0 = some a)
    (hacc : sha204m_check_parameters H op_code param1 param2 datalen1 data1 datalen2 data2
      datalen3 data3 tx_size (some tx0) rx_size (some rx0) = H.SHA204_SUCCESS) :
    sha204m_execute H E op_code param1 param2 datalen1 data1 datalen2 data2
      datalen3 data3 tx_size (some tx0) rx_size (some rx0)
    = some
      { ret := (E.transport a.1 (sha204m_execute_supply H op_code param1 rx_size).2.2 rx0
          (sha204m_execute_supply H op_code param1 rx_size).1
          (sha204m_execute_supply H op_code param1 rx_size).2.1).1
        tx := some a.1
        rx := some (E.transport a.1 (sha204m_execute_supply H op_code param1 rx_size).2.2 rx0
          (sha204m_execute_supply H op_code param1 rx_size).1
          (sha204m_execute_supply H op_code param1 rx_size).2.1).2
        calls := [a.2, Call.send_and_receive a.1
          (sha204m_execute_supply H op_code param1 rx_size).2.2 rx0
          (sha204m_execute_supply H op_code param1 rx_size).1
          (sha204m_execute_supply H op_code param1 rx_size).2.1] } := by
  obtain ⟨h1, h2, h3⟩ := supply_lt H op_code param1 rx_size
  unfold sha204m_execute
  simp only [hacc, ne_eq, not_true_eq_false, if_false, ha, Option.some_bind,
    sha204c_send_and_receive, Nat.mod_eq_of_lt h1, Nat.mod_eq_of_lt h2, Nat.mod_eq_of_lt h3,
    List.singleton_append]

theorem and_ff (x : Nat) : x &&& 0xFF = x % 256 := Nat.and_pow_two_sub_one_eq_mod x 8

theorem shr8 (x : Nat) : x >>> 8 = x / 256 := Nat.shiftRight_eq_div_pow x 8

/-- An accepted request runs to the transport: the outcome of `sha204m_execute`
with the assembled buffer in closed form. -/
theorem execute_closed (H : Header) (E : Collaborators) (op_code param1 param2 : Nat)
    (datalen1 : Nat) (data1 : Ptr) (datalen2 : Nat) (data2 : Ptr)
    (datalen3 : Nat) (data3 : Ptr)
    (tx_size : Nat) (tx_buffer : Ptr) (rx_size : Nat) (rx_buffer : Ptr)
    (hcheck : H.SHA204_CHECK_PARAMETERS = true)
    (hcodes : H.SHA204_BAD_PARAM ≠ H.SHA204_SUCCESS)
    (hacc : sha204m_check_parameters H op_code param1 param2 datalen1 data1 datalen2 data2
      datalen3 data3 tx_size tx_buffer rx_size rx_buffer = H.SHA204_SUCCESS) :
    ∃ tx0 rx0 body,
      tx_buffer = some tx0 ∧ rx_buffer = some rx0
      ∧ body = memcpy (memcpy (memcpy
          (store (store (store (store (store tx0 0
            ((datalen1 + datalen2 + datalen3 + H.SHA204_CMD_SIZE_MIN) % 256))
            1 op_code) 2 param1) 3 (param2 &&& 0xFF)) 4 (param2 >>> 8))
          5 (data1.getD fun _ => 0) datalen1)
          (5 + datalen1) (data2.getD fun _ => 0) datalen2)
          (5 + datalen1 + if datalen2 > 0 then datalen1 else 0)
          (data3.getD fun _ => 0) datalen3
      ∧ sha204m_execute H E op_code param1 param2 datalen1 data1 datalen2 data2
          datalen3 data3 tx_size tx_buffer rx_size rx_buffer
        = some (sha204c_send_and_receive E
            [Call.calculate_crc
              (u8 (((datalen1 + datalen2 + datalen3 + H.SHA204_CMD_SIZE_MIN) % 256 : Nat)
                - H.SHA204_CRC_SIZE))
              body (5 + datalen1 + (if datalen2 > 0 then datalen1 else 0) + datalen3)]
            (sha204c_calculate_crc E
              (u8 (((datalen1 + datalen2 + datalen3 + H.SHA204_CMD_SIZE_MIN) % 256 : Nat)
                - H.SHA204_CRC_SIZE))
              body (5 + datalen1 + (if datalen2 > 0 then datalen1 else 0) + datalen3))
            (sha204m_execute_supply H op_code param1 rx_size).2.2 rx0
            (sha204m_execute_supply H op_code param1 rx_size).1
            (sha204m_execute_supply H op_code param1 rx_size).2.1) := by
  obtain ⟨⟨htx, hrx, _, _⟩, h1, h2, h3⟩ := check_parameters_general H op_code param1 param2
    datalen1 data1 datalen2 data2 datalen3 data3 tx_size tx_buffer rx_size rx_buffer
    hcheck hcodes hacc
  obtain ⟨tx0, rfl⟩ := Option.ne_none_iff_exists'.mp htx
  obtain ⟨rx0, rfl⟩ := Option.ne_none_iff_exists'.mp hrx
  refine ⟨tx0, rx0, _, rfl, rfl, rfl, ?_⟩
  unfold sha204m_execute
  simp only [hacc, ne_eq, not_true_eq_false, if_false,
    assemble_eq H E op_code param1 param2 datalen1 data1 datalen2 data2
      datalen3 data3 tx0 h1 h2 h3, Option.some_bind]

/-- C3. With parameter checking compiled in, for every request that passes the
validation `sha204m_execute` calls the transport exactly once, after the
checksum call, with the assembled transmit buffer, the response size the
op-code switch supplies, the response buffer, and the supplied poll delay and
poll timeout; the status it returns and the response buffer it leaves are those
of the transport, whatever they are. -/
theorem execute_transport_once (H : Header) (E : Collaborators) (op_code param1 param2 : Nat)
    (datalen1 : Nat) (data1 : Ptr) (datalen2 : Nat) (data2 : Ptr)
    (datalen3 : Nat) (data3 : Ptr)
    (tx_size : Nat) (tx_buffer : Ptr) (rx_size : Nat) (rx_buffer : Ptr)
    (hcheck : H.SHA204_CHECK_PARAMETERS = true)
    (hcodes : H.SHA204_BAD_PARAM ≠ H.SHA204_SUCCESS)
    (hacc : sha204m_check_parameters H op_code param1 param2 datalen1 data1 datalen2 data2
      datalen3 data3 tx_size tx_buffer rx_size rx_buffer = H.SHA204_SUCCESS) :
    ∃ tx0 rx0 frame crc_call,
      tx_buffer = some tx0 ∧ rx_buffer = some rx0
      ∧ sha204m_execute_assemble H E op_code param1 param2 datalen1 data1 datalen2 data2
          datalen3 data3 tx0 = some (frame, crc_call)
      ∧ crc_call.is_transport = false
      ∧ sha204m_execute H E op_code param1 param2 datalen1 data1 datalen2 data2
          datalen3 data3 tx_size tx_buffer rx_size rx_buffer
        = some
          { ret := (E.transport frame (sha204m_execute_supply H op_code param1 rx_size).2.2 rx0
              (sha204m_execute_supply H op_code param1 rx_size).1
              (sha204m_execute_supply H op_code param1 rx_size).2.1).1
            tx := some frame
            rx := some (E.transport frame (sha204m_execute_supply H op_code param1 rx_size).2.2
              rx0 (sha204m_execute_supply H op_code param1 rx_size).1
              (sha204m_execute_supply H op_code param1 rx_size).2.1).2
            calls := [crc_call, Call.send_and_receive frame
              (sha204m_execute_supply H op_code param1 rx_size).2.2 rx0
              (sha204m_execute_supply H op_code param1 rx_size).1
              (sha204m_execute_supply H op_code param1 rx_size).2.1] } := by
  obtain ⟨⟨htx, hrx, _, _⟩, h1, h2, h3⟩ := check_parameters_general H op_code param1 param2
    datalen1 data1 datalen2 data2 datalen3 data3 tx_size tx_buffer rx_size rx_buffer
    hcheck hcodes hacc
  obtain ⟨tx0, rfl⟩ := Option.ne_none_iff_exists'.mp htx
  obtain ⟨rx0, rfl⟩ := Option.ne_none_iff_exists'.mp hrx
  have ha := assemble_eq H E op_code param1 param2 datalen1 data1 datalen2 data2
    datalen3 data3 tx0 h1 h2 h3
  exact ⟨tx0, rx0, _, _, rfl, rfl, ha, rfl,
    execute_accepted H E op_code param1 param2 datalen1 data1 datalen2 data2
      datalen3 data3 tx_size tx0 rx_size rx0 _ ha hacc⟩

/-- Instance of C3: a `DevRev` request without data blocks on the published header. -/
theorem execute_transport_once_witness :
    atmel.SHA204_CHECK_PARAMETERS = true ∧ atmel.SHA204_BAD_PARAM ≠ atmel.SHA204_SUCCESS
    ∧ sha204m_check_parameters atmel atmel.SHA204_DEVREV 0 0 0 none 0 none 0 none
        64 (some fun _ => 0xAA) 64 (some fun _ => 0xBB) = atmel.SHA204_SUCCESS
    ∧ ∃ tx0 rx0 frame crc_call,
      (some fun _ => 0xAA) = some tx0 ∧ (some fun _ => 0xBB) = some rx0
      ∧ sha204m_execute_assemble atmel demo atmel.SHA204_DEVREV 0 0 0 none 0 none 0 none tx0
          = some (frame, crc_call)
      ∧ crc_call.is_transport = false
      ∧ sha204m_execute atmel demo atmel.SHA204_DEVREV 0 0 0 none 0 none 0 none
          64 (some fun _ => 0xAA) 64 (some fun _ => 0xBB)
        = some
          { ret := (demo.transport frame (sha204m_execute_supply atmel atmel.SHA204_DEVREV 0 64).2.2
              rx0 (sha204m_execute_supply atmel atmel.SHA204_DEVREV 0 64).1
              (sha204m_execute_supply atmel atmel.SHA204_DEVREV 0 64).2.1).1
            tx := some frame
            rx := some (demo.transport frame
              (sha204m_execute_supply atmel atmel.SHA204_DEVREV 0 64).2.2
              rx0 (sha204m_execute_supply atmel atmel.SHA204_DEVREV 0 64).1
              (sha204m_execute_supply atmel atmel.SHA204_DEVREV 0 64).2.1).2
            calls := [crc_call, Call.send_and_receive frame
              (sha204m_execute_supply atmel atmel.SHA204_DEVREV 0 64).2.2 rx0
              (sha204m_execute_supply atmel atmel.SHA204_DEVREV 0 64).1
              (sha204m_execute_supply atmel atmel.SHA204_DEVREV 0 64).2.1] } :=
  ⟨rfl, by decide, by decide,
   execute_transport_once atmel demo atmel.SHA204_DEVREV 0 0 0 none 0 none 0 none
     64 (some fun _ => 0xAA) 64 (some fun _ => 0xBB) rfl (by decide) (by decide)⟩

/-! Layout of the assembled frame -/

/-- C4. For every request accepted by `sha204m_execute` (parameter checking
compiled in, arguments within their C types), the buffer handed to the
transport has the frame length at offset 0, `op_code` at offset 1, `param1` at
offset 2 and `param2` little-endian at offsets 3 and 4:
`tx[3] = param2 mod 256`, `tx[4] = param2 div 256`, `tx[3] + 256 * tx[4] = param2`. -/
theorem execute_header_layout (H : Header) (E : Collaborators) (op_code param1 param2 : Nat)
    (datalen1 : Nat) (data1 : Ptr) (datalen2 : Nat) (data2 : Ptr)
    (datalen3 : Nat) (data3 : Ptr)
    (tx_size : Nat) (tx_buffer : Ptr) (rx_size : Nat) (rx_buffer : Ptr)
    (hcheck : H.SHA204_CHECK_PARAMETERS = true)
    (hcodes : H.SHA204_BAD_PARAM ≠ H.SHA204_SUCCESS)
    (hop : op_code < 256) (hp1 : param1 < 256) (hp2 : param2 < 65536)
    (hacc : sha204m_check_parameters H op_code param1 param2 datalen1 data1 datalen2 data2
      datalen3 data3 tx_size tx_buffer rx_size rx_buffer = H.SHA204_SUCCESS) :
    ∃ o frame n rx d t,
      sha204m_execute H E op_code param1 param2 datalen1 data1 datalen2 data2
        datalen3 data3 tx_size tx_buffer rx_size rx_buffer = some o
      ∧ o.tx = some frame
      ∧ Call.send_and_receive frame n rx d t ∈ o.calls
      ∧ frame 0 = (datalen1 + datalen2 + datalen3 + H.SHA204_CMD_SIZE_MIN) % 256
      ∧ frame 1 = op_code
      ∧ frame 2 = param1
      ∧ frame 3 = param2 % 256
      ∧ frame 4 = param2 / 256
      ∧ frame 3 + 256 * frame 4 = param2 := by
  obtain ⟨tx0, rx0, body, _, _, hb, he⟩ := execute_closed H E op_code param1 param2
    datalen1 data1 datalen2 data2 datalen3 data3 tx_size tx_buffer rx_size rx_buffer
    hcheck hcodes hacc
  have hlow : ∀ j, j < 5 → sha204c_calculate_crc E
      (u8 (((datalen1 + datalen2 + datalen3 + H.SHA204_CMD_SIZE_MIN) % 256 : Nat)
        - H.SHA204_CRC_SIZE))
      body (5 + datalen1 + (if datalen2 > 0 then datalen1 else 0) + datalen3) j
      = store (store (store (store (store tx0 0
            ((datalen1 + datalen2 + datalen3 + H.SHA204_CMD_SIZE_MIN) % 256))
            1 op_code) 2 param1) 3 (param2 &&& 0xFF)) 4 (param2 >>> 8) j := by
    intro j hj
    rw [calculate_crc_apply_lt _ _ _ _ _ (by omega), hb,
      memcpy_apply_lt _ _ _ _ _ (by omega), memcpy_apply_lt _ _ _ _ _ (by omega),
      memcpy_apply_lt _ _ _ _ _ (by omega)]
  have h3 : (param2 &&& 0xFF) % 256 = param2 % 256 := by rw [and_ff, Nat.mod_mod]
  have h4 : (param2 >>> 8) % 256 = param2 / 256 := by
    rw [shr8]; exact Nat.mod_eq_of_lt (by omega)
  refine ⟨_, _, (sha204m_execute_supply H op_code param1 rx_size).2.2 % 256, rx0,
    (sha204m_execute_supply H op_code param1 rx_size).1 % 256,
    (sha204m_execute_supply H op_code param1 rx_size).2.1 % 256,
    he, rfl, ?_, ?_, ?_, ?_, ?_, ?_, ?_⟩
  · simp [sha204c_send_and_receive]
  · rw [hlow 0 (by decide)]; simp [store_apply]
  · rw [hlow 1 (by decide)]; simp [store_apply, Nat.mod_eq_of_lt hop]
  · rw [hlow 2 (by decide)]; simp [store_apply, Nat.mod_eq_of_lt hp1]
  · rw [hlow 3 (by decide)]; simp only [store_apply]; simpa using h3
  · rw [hlow 4 (by decide)]; simp only [store_apply]; simpa using h4
  · rw [hlow 3 (by decide), hlow 4 (by decide)]
    simp only [store_apply]
    simp only [if_true, (by decide : (3 : Nat) ≠ 4), if_false, h3, h4]
    omega

/-- Instance of C4: an `HMAC` request with `param2 = 0x1234` on the published header. -/
theorem execute_header_layout_witness :
    atmel.SHA204_CHECK_PARAMETERS = true ∧ atmel.SHA204_BAD_PARAM ≠ atmel.SHA204_SUCCESS
    ∧ atmel.SHA204_HMAC < 256 ∧ 0x04 < 256 ∧ 0x1234 < 65536
    ∧ sha204m_check_parameters atmel atmel.SHA204_HMAC 0x04 0x1234 0 none 0 none 0 none
        64 (some fun _ => 0xAA) 64 (some fun _ => 0xBB) = atmel.SHA204_SUCCESS
    ∧ ∃ o frame n rx d t,
      sha204m_execute atmel demo atmel.SHA204_HMAC 0x04 0x1234 0 none 0 none 0 none
        64 (some fun _ => 0xAA) 64 (some fun _ => 0xBB) = some o
      ∧ o.tx = some frame
      ∧ Call.send_and_receive frame n rx d t ∈ o.calls
      ∧ frame 0 = (0 + 0 + 0 + atmel.SHA204_CMD_SIZE_MIN) % 256
      ∧ frame 1 = atmel.SHA204_HMAC
      ∧ frame 2 = 0x04
      ∧ frame 3 = 0x1234 % 256
      ∧ frame 4 = 0x1234 / 256
      ∧ frame 3 + 256 * frame 4 = 0x1234 :=
  ⟨rfl, by decide, by decide, by decide, by decide, by decide,
   execute_header_layout atmel demo atmel.SHA204_HMAC 0x04 0x1234 0 none 0 none 0 none
     64 (some fun _ => 0xAA) 64 (some fun _ => 0xBB) rfl (by decide) (by decide) (by decide)
     (by decide) (by decide)⟩

/-! The write cursor after the second data block -/

/-- C5, evaluated on a failing input. A `Write` of a 4 byte value with a 32
byte MAC through `sha204m_execute` is accepted, but the 36 bytes from offset 5
are not `data1 ++ data2`: the cursor stands at `5 + 4 + 4 = 13` after the
second copy, so the two checksum bytes land on offsets 13 and 14, over
`data2[4]` and `data2[5]`. -/
theorem execute_data_region_write_mac :
    ∃ o frame,
      sha204m_execute atmel demo atmel.SHA204_WRITE 0x42 0x0008
        4 (some fun i => 0x11 + i) 32 (some fun i => 0x40 + i) 0 none
        64 (some fun _ => 0) 4 (some fun _ => 0) = some o
      ∧ o.tx = some frame
      ∧ sha204m_check_parameters atmel atmel.SHA204_WRITE 0x42 0x0008
          4 (some fun i => 0x11 + i) 32 (some fun i => 0x40 + i) 0 none
          64 (some fun _ => 0) 4 (some fun _ => 0) = atmel.SHA204_SUCCESS
      ∧ (List.range (4 + 32 + 0)).map (fun i => frame (5 + i))
          ≠ bytes (fun i => 0x11 + i) 4 ++ bytes (fun i => 0x40 + i) 32 ++ []
      ∧ frame 13 = 193 ∧ frame 14 = 10
      ∧ (demo.crc (bytes (fun j => if j = 13 ∨ j = 14 then 0x40 + (j - 9) else frame j) 41))
          = (193, 10) :=
  ⟨_, _, rfl, rfl, by decide, by decide, by decide, by decide, by decide⟩

/-- C6, evaluated on a failing input. For the accepted `Write` of a 4 byte
value with a 32 byte MAC the frame length is 43 and the checksum function is
called to cover the first 41 bytes, but with the output position 13 instead of
41: offsets 41 and 42 keep what the buffer held before. -/
theorem execute_crc_position_write_mac :
    ∃ o frame body rx,
      sha204m_execute atmel demo atmel.SHA204_WRITE 0x42 0x0008
        4 (some fun i => 0x11 + i) 32 (some fun i => 0x40 + i) 0 none
        64 (some fun _ => 0xEE) 4 (some fun _ => 0) = some o
      ∧ o.tx = some frame
      ∧ o.calls = [Call.calculate_crc 41 body 13, Call.send_and_receive frame 4 rx 3 39]
      ∧ frame 0 = 43
      ∧ 5 + 4 + 32 + 0 = 41 ∧ 43 - atmel.SHA204_CRC_SIZE = 41
      ∧ frame 41 = 0xEE ∧ frame 42 = 0xEE :=
  ⟨_, _, _, _, rfl, rfl, rfl, by decide, by decide, by decide, by decide, by decide⟩

/-! The frame length -/

/-- C7 is false as stated. A `DevRev` request without data is accepted and its
count byte is 7, not `1 + 1 + 2 + 0 + 2 = 6`: the count includes the count
byte itself. With a first block of 255 bytes the 8 bit sum wraps and the count
byte is 6, not `1 + 1 + 2 + 255 + 2`. -/
theorem execute_frame_length_counterexample :
    (∃ o frame,
      sha204m_execute atmel demo atmel.SHA204_DEVREV 0 0 0 none 0 none 0 none
        64 (some fun _ => 0) 4 (some fun _ => 0) = some o
      ∧ sha204m_check_parameters atmel atmel.SHA204_DEVREV 0 0 0 none 0 none 0 none
        64 (some fun _ => 0) 4 (some fun _ => 0) = atmel.SHA204_SUCCESS
      ∧ o.tx = some frame ∧ frame 0 = 7 ∧ frame 0 ≠ 1 + 1 + 2 + (0 + 0 + 0) + 2)
    ∧ (∃ o frame,
      sha204m_execute atmel demo atmel.SHA204_DEVREV 0 0 255 (some fun i => i) 0 none 0 none
        64 (some fun _ => 0) 4 (some fun _ => 0) = some o
      ∧ sha204m_check_parameters atmel atmel.SHA204_DEVREV 0 0 255 (some fun i => i)
        0 none 0 none 64 (some fun _ => 0) 4 (some fun _ => 0) = atmel.SHA204_SUCCESS
      ∧ o.tx = some frame ∧ frame 0 = 6 ∧ frame 0 ≠ 1 + 1 + 2 + (255 + 0 + 0) + 2) :=
  ⟨⟨_, _, rfl, by decide, rfl, by decide, by decide⟩,
   ⟨_, _, rfl, by decide, rfl, by decide, by decide⟩⟩

/-- C7, amended. For every request accepted by `sha204m_execute` whose frame
length `SHA204_CMD_SIZE_MIN + datalen1 + datalen2 + datalen3` fits a byte, the
value written to `tx_buffer[0]` is that length; with `SHA204_CMD_SIZE_MIN = 7`
it is `1` (the count byte) `+ 1` (op-code) `+ 1` (param1) `+ 2` (param2)
`+` the data block lengths `+ 2` (checksum). -/
theorem execute_frame_length (H : Header) (E : Collaborators) (op_code param1 param2 : Nat)
    (datalen1 : Nat) (data1 : Ptr) (datalen2 : Nat) (data2 : Ptr)
    (datalen3 : Nat) (data3 : Ptr)
    (tx_size : Nat) (tx_buffer : Ptr) (rx_size : Nat) (rx_buffer : Ptr)
    (hcheck : H.SHA204_CHECK_PARAMETERS = true)
    (hcodes : H.SHA204_BAD_PARAM ≠ H.SHA204_SUCCESS)
    (hfit : H.SHA204_CMD_SIZE_MIN + datalen1 + datalen2 + datalen3 ≤ 255)
    (hacc : sha204m_check_parameters H op_code param1 param2 datalen1 data1 datalen2 data2
      datalen3 data3 tx_size tx_buffer rx_size rx_buffer = H.SHA204_SUCCESS) :
    ∃ o frame,
      sha204m_execute H E op_code param1 param2 datalen1 data1 datalen2 data2
        datalen3 data3 tx_size tx_buffer rx_size rx_buffer = some o
      ∧ o.tx = some frame
      ∧ frame 0 = H.SHA204_CMD_SIZE_MIN + datalen1 + datalen2 + datalen3
      ∧ (H.SHA204_CMD_SIZE_MIN = 7 →
          frame 0 = 1 + 1 + 1 + 2 + (datalen1 + datalen2 + datalen3) + 2) := by
  obtain ⟨tx0, rx0, body, _, _, hb, he⟩ := execute_closed H E op_code param1 param2
    datalen1 data1 datalen2 data2 datalen3 data3 tx_size tx_buffer rx_size rx_buffer
    hcheck hcodes hacc
  have h0 : sha204c_calculate_crc E
      (u8 (((datalen1 + datalen2 + datalen3 + H.SHA204_CMD_SIZE_MIN) % 256 : Nat)
        - H.SHA204_CRC_SIZE))
      body (5 + datalen1 + (if datalen2 > 0 then datalen1 else 0) + datalen3) 0
      = H.SHA204_CMD_SIZE_MIN + datalen1 + datalen2 + datalen3 := by
    rw [calculate_crc_apply_lt _ _ _ _ _ (by omega), hb,
      memcpy_apply_lt _ _ _ _ _ (by omega), memcpy_apply_lt _ _ _ _ _ (by omega),
      memcpy_apply_lt _ _ _ _ _ (by omega)]
    simp only [store_apply]
    simp only [(by decide : (0 : Nat) ≠ 4), (by decide : (0 : Nat) ≠ 3),
      (by decide : (0 : Nat) ≠ 2), (by decide : (0 : Nat) ≠ 1), if_false, if_true,
      Nat.mod_mod]
    rw [Nat.mod_eq_of_lt (by omega)]
    omega
  refine ⟨_, _, he, rfl, h0, ?_⟩
  intro hmin
  rw [h0]
  omega

/-- Instance of the amended C7: the CheckMac request of 32 + 32 + 13 data bytes. -/
theorem execute_frame_length_witness :
    atmel.SHA204_CHECK_PARAMETERS = true ∧ atmel.SHA204_BAD_PARAM ≠ atmel.SHA204_SUCCESS
    ∧ atmel.SHA204_CMD_SIZE_MIN + 32 + 32 + 13 ≤ 255
    ∧ sha204m_check_parameters atmel atmel.SHA204_CHECKMAC 0 3
        32 (some fun i => i) 32 (some fun i => i) 13 (some fun i => i)
        84 (some fun _ => 0) 4 (some fun _ => 0) = atmel.SHA204_SUCCESS
    ∧ ∃ o frame,
      sha204m_execute atmel demo atmel.SHA204_CHECKMAC 0 3
        32 (some fun i => i) 32 (some fun i => i) 13 (some fun i => i)
        84 (some fun _ => 0) 4 (some fun _ => 0) = some o
      ∧ o.tx = some frame
      ∧ frame 0 = atmel.SHA204_CMD_SIZE_MIN + 32 + 32 + 13
      ∧ (atmel.SHA204_CMD_SIZE_MIN = 7 → frame 0 = 1 + 1 + 1 + 2 + (32 + 32 + 13) + 2) :=
  ⟨rfl, by decide, by decide, by decide,
   execute_frame_length atmel demo atmel.SHA204_CHECKMAC 0 3
     32 (some fun i => i) 32 (some fun i => i) 13 (some fun i => i)
     84 (some fun _ => 0) 4 (some fun _ => 0) rfl (by decide) (by decide) (by decide)⟩

/-! End-to-end CheckMac -/

theorem bytes_congr (m m2 : Mem) (n : Nat) (h : ∀ j, j < n → m j = m2 j) :
    bytes m n = bytes m2 n := by
  unfold bytes
  apply List.map_congr_left
  intro j hj
  exact h j (List.mem_range.mp hj)

/-- C8. The CheckMac request with mode 0, key index 3, a 32 byte challenge, a
32 byte response and 13 bytes of other data, a transmit buffer of at least 84
bytes and a valid response buffer is accepted by `sha204m_execute` (checking
compiled in, `SHA204_CMD_SIZE_MIN = 7`, `SHA204_CRC_SIZE = 2`, key index 3
allowed). The frame handed to the transport has `84, SHA204_CHECKMAC, 0, 3, 0`
at offsets 0 to 4, challenge, response and other data at offsets 5, 37 and 69,
and at offsets 82 and 83 the two bytes the checksum function computes from the
82 bytes before them. -/
theorem execute_check_mac_frame (H : Header) (E : Collaborators)
    (challenge response other : Mem) (tx_size : Nat) (tx0 : Mem) (rx_size : Nat) (rx0 : Mem)
    (hcheck : H.SHA204_CHECK_PARAMETERS = true)
    (hcodes : H.SHA204_BAD_PARAM ≠ H.SHA204_SUCCESS)
    (hmin : H.SHA204_CMD_SIZE_MIN = 7) (hcrc : H.SHA204_CRC_SIZE = 2)
    (hkey : 3 ≤ H.SHA204_KEY_ID_MAX) (hop : H.SHA204_CHECKMAC < 256)
    (htx : 84 ≤ tx_size) (hrx : H.SHA204_RSP_SIZE_MIN ≤ rx_size) :
    sha204m_check_parameters H H.SHA204_CHECKMAC 0 3 32 (some challenge) 32 (some response)
        13 (some other) tx_size (some tx0) rx_size (some rx0) = H.SHA204_SUCCESS
    ∧ ∃ o frame body,
      sha204m_execute H E H.SHA204_CHECKMAC 0 3 32 (some challenge) 32 (some response)
        13 (some other) tx_size (some tx0) rx_size (some rx0) = some o
      ∧ o.tx = some frame
      ∧ o.calls = [Call.calculate_crc 82 body 82,
          Call.send_and_receive frame (H.CHECKMAC_RSP_SIZE % 256) rx0
            (H.CHECKMAC_DELAY % 256) (u8 (H.CHECKMAC_EXEC_MAX - H.CHECKMAC_DELAY))]
      ∧ frame 0 = 84 ∧ frame 1 = H.SHA204_CHECKMAC ∧ frame 2 = 0 ∧ frame 3 = 3 ∧ frame 4 = 0
      ∧ (List.range 77).map (fun i => frame (5 + i))
          = bytes challenge 32 ++ bytes response 32 ++ bytes other 13
      ∧ bytes body 82 = bytes frame 82
      ∧ frame 82 = (E.crc (bytes frame 82)).1
      ∧ frame 83 = (E.crc (bytes frame 82)).2 := by
  have hacc : sha204m_check_parameters H H.SHA204_CHECKMAC 0 3 32 (some challenge) 32
      (some response) 13 (some other) tx_size (some tx0) rx_size (some rx0)
      = H.SHA204_SUCCESS := by
    unfold sha204m_check_parameters
    rw [if_pos hcheck]
    dsimp only
    rw [if_neg (by simp [hmin]; omega), if_neg (by simp), if_pos rfl, if_neg (by simp; omega)]
  refine ⟨hacc, ?_⟩
  obtain ⟨tx1, rx1, body, h1, h2, hb, he⟩ := execute_closed H E H.SHA204_CHECKMAC 0 3
    32 (some challenge) 32 (some response) 13 (some other) tx_size (some tx0) rx_size
    (some rx0) hcheck hcodes hacc
  simp only [Option.some.injEq] at h1 h2
  subst h1 h2
  have hlen : (32 + 32 + 13 + H.SHA204_CMD_SIZE_MIN) % 256 = 84 := by rw [hmin]
  have hcov : u8 (((32 + 32 + 13 + H.SHA204_CMD_SIZE_MIN) % 256 : Nat) - H.SHA204_CRC_SIZE)
      = 82 := by rw [hlen, hcrc]; decide
  have hcur : 5 + 32 + (if 32 > 0 then 32 else 0) + 13 = 82 := by decide
  rw [hcov, hcur] at he
  simp only [hlen, Option.getD_some, (by decide : (32 : Nat) > 0), if_true] at hb
  have hsup : sha204m_execute_supply H H.SHA204_CHECKMAC 0 rx_size
      = (H.CHECKMAC_DELAY % 256, u8 (H.CHECKMAC_EXEC_MAX - H.CHECKMAC_DELAY),
          H.CHECKMAC_RSP_SIZE % 256) := by
    unfold sha204m_execute_supply
    rw [if_pos rfl]
  have hbody : ∀ j, body j =
      if 69 ≤ j ∧ j < 82 then other (j - 69)
      else if 37 ≤ j ∧ j < 69 then response (j - 37)
      else if 5 ≤ j ∧ j < 37 then challenge (j - 5)
      else if j = 4 then 0 else if j = 3 then 3 else if j = 2 then 0
      else if j = 1 then H.SHA204_CHECKMAC else if j = 0 then 84 else tx0 j := by
    intro j
    rw [hb]
    simp only [memcpy_apply, store_apply, Nat.mod_eq_of_lt hop]
    rfl
  have hframe : ∀ j, j < 82 → sha204c_calculate_crc E 82 body 82 j = body j :=
    fun j hj => calculate_crc_apply_lt E 82 body 82 j hj
  have hbytes : bytes body 82 = bytes (sha204c_calculate_crc E 82 body 82) 82 :=
    bytes_congr _ _ _ (fun j hj => (hframe j hj).symm)
  refine ⟨_, _, body, he, rfl, ?_, ?_, ?_, ?_, ?_, ?_, ?_, hbytes, ?_, ?_⟩
  · simp [sha204c_send_and_receive, hsup, u8_lt, Nat.mod_eq_of_lt]
  · rw [hframe 0 (by decide), hbody]; simp
  · rw [hframe 1 (by decide), hbody]; simp
  · rw [hframe 2 (by decide), hbody]; simp
  · rw [hframe 3 (by decide), hbody]; simp
  · rw [hframe 4 (by decide), hbody]; simp
  · apply List.ext_getElem
    · simp [bytes]
    · intro i hi1 hi2
      simp only [List.length_map, List.length_range] at hi1
      simp only [List.getElem_map, List.getElem_range]
      rw [hframe (5 + i) (by omega), hbody]
      by_cases ha : i < 32
      · rw [List.getElem_append_left (by simp [bytes]; omega),
          List.getElem_append_left (by simp [bytes]; omega)]
        simp only [bytes, List.getElem_map, List.getElem_range]
        rw [if_neg (by omega), if_neg (by omega), if_pos (by omega)]
        congr 1
        omega
      · by_cases hb2 : i < 64
        · rw [List.getElem_append_left (by simp [bytes]; omega),
            List.getElem_append_right (by simp [bytes]; omega)]
          simp only [bytes, List.getElem_map, List.getElem_range, List.length_map,
            List.length_range]
          rw [if_neg (by omega), if_pos (by omega)]
          congr 1
          omega
        · rw [List.getElem_append_right (by simp [bytes]; omega)]
          simp only [bytes, List.getElem_map, List.getElem_range, List.length_map,
            List.length_range, List.length_append]
          rw [if_pos (by omega)]
          congr 1
          omega
  · rw [← hbytes, calculate_crc_apply, if_neg (by decide), if_pos rfl]
  · rw [← hbytes, calculate_crc_apply, if_pos rfl]


/-- Instance of C8 on the published header. -/
theorem execute_check_mac_frame_witness :
    atmel.SHA204_CHECK_PARAMETERS = true ∧ atmel.SHA204_BAD_PARAM ≠ atmel.SHA204_SUCCESS
    ∧ atmel.SHA204_CMD_SIZE_MIN = 7 ∧ atmel.SHA204_CRC_SIZE = 2
    ∧ 3 ≤ atmel.SHA204_KEY_ID_MAX ∧ atmel.SHA204_CHECKMAC < 256
    ∧ 84 ≤ 84 ∧ atmel.SHA204_RSP_SIZE_MIN ≤ 4
    ∧ (sha204m_check_parameters atmel atmel.SHA204_CHECKMAC 0 3
          32 (some fun i => 0x20 + i) 32 (some fun i => 0x40 + i) 13 (some fun i => 0x60 + i)
          84 (some fun _ => 0) 4 (some fun _ => 0) = atmel.SHA204_SUCCESS
      ∧ ∃ o frame body,
        sha204m_execute atmel demo atmel.SHA204_CHECKMAC 0 3
          32 (some fun i => 0x20 + i) 32 (some fun i => 0x40 + i) 13 (some fun i => 0x60 + i)
          84 (some fun _ => 0) 4 (some fun _ => 0) = some o
        ∧ o.tx = some frame
        ∧ o.calls = [Call.calculate_crc 82 body 82,
            Call.send_and_receive frame (atmel.CHECKMAC_RSP_SIZE % 256) (fun _ => 0)
              (atmel.CHECKMAC_DELAY % 256)
              (u8 (atmel.CHECKMAC_EXEC_MAX - atmel.CHECKMAC_DELAY))]
        ∧ frame 0 = 84 ∧ frame 1 = atmel.SHA204_CHECKMAC ∧ frame 2 = 0 ∧ frame 3 = 3
        ∧ frame 4 = 0
        ∧ (List.range 77).map (fun i => frame (5 + i))
            = bytes (fun i => 0x20 + i) 32 ++ bytes (fun i => 0x40 + i) 32
              ++ bytes (fun i => 0x60 + i) 13
        ∧ bytes body 82 = bytes frame 82
        ∧ frame 82 = (demo.crc (bytes frame 82)).1
        ∧ frame 83 = (demo.crc (bytes frame 82)).2) :=
  ⟨rfl, by decide, rfl, rfl, by decide, by decide, by decide, by decide,
   execute_check_mac_frame atmel demo (fun i => 0x20 + i) (fun i => 0x40 + i)
     (fun i => 0x60 + i) 84 (fun _ => 0) 4 (fun _ => 0) rfl (by decide) rfl rfl
     (by decide) (by decide) (by decide) (by decide)⟩

/-! Transmit capacity -/

/-- C9, evaluated on a failing input. With a first data block of 255 bytes the
frame needs `7 + 255 = 262` bytes, but the 8 bit length wraps to 6, so a
transmit buffer declared with 10 bytes passes the check: the request is
accepted, the transport is called, and bytes have been stored up to offset 261
(the last data byte at 259, the checksum at 260 and 261). -/
theorem execute_wrapped_length_overflow :
    10 < atmel.SHA204_CMD_SIZE_MIN + 255 + 0 + 0
    ∧ sha204m_check_parameters atmel atmel.SHA204_DEVREV 0 0
        255 (some fun i => 1 + i % 255) 0 none 0 none
        10 (some fun _ => 0) 4 (some fun _ => 0) = atmel.SHA204_SUCCESS
    ∧ ∃ o frame body rx,
      sha204m_execute atmel demo atmel.SHA204_DEVREV 0 0
        255 (some fun i => 1 + i % 255) 0 none 0 none
        10 (some fun _ => 0) 4 (some fun _ => 0) = some o
      ∧ o.tx = some frame
      ∧ o.calls = [Call.calculate_crc 4 body 260, Call.send_and_receive frame 7 rx 0 2]
      ∧ frame 0 = 6
      ∧ frame 10 = 6 ∧ frame 259 = 255 ∧ frame 260 = 54 ∧ 10 ≤ 260 :=
  ⟨by decide, by decide, _, _, _, _, rfl, rfl, rfl, by decide, by decide, by decide, by decide,
   by decide⟩

/-! General preconditions -/

theorem check_parameters_precondition (H : Header) (op_code param1 param2 : Nat)
    (datalen1 : Nat) (data1 : Ptr) (datalen2 : Nat) (data2 : Ptr)
    (datalen3 : Nat) (data3 : Ptr)
    (tx_size : Nat) (tx_buffer : Ptr) (rx_size : Nat) (rx_buffer : Ptr)
    (hcheck : H.SHA204_CHECK_PARAMETERS = true)
    (hpre : tx_buffer = none ∨ rx_buffer = none ∨ rx_size < H.SHA204_RSP_SIZE_MIN
      ∨ (0 < datalen1 ∧ data1 = none) ∨ (0 < datalen2 ∧ data2 = none)
      ∨ (0 < datalen3 ∧ data3 = none)) :
    sha204m_check_parameters H op_code param1 param2 datalen1 data1 datalen2 data2
      datalen3 data3 tx_size tx_buffer rx_size rx_buffer = H.SHA204_BAD_PARAM := by
  unfold sha204m_check_parameters
  rw [if_pos hcheck]
  dsimp only
  by_cases h1 : tx_buffer.isNone ∨ tx_size < (datalen1 + datalen2 + datalen3
      + H.SHA204_CMD_SIZE_MIN) % 256 ∨ rx_size < H.SHA204_RSP_SIZE_MIN ∨ rx_buffer.isNone
  · rw [if_pos h1]
  · rw [if_neg h1]
    have h2 : (datalen1 > 0 ∧ data1.isNone) ∨ (datalen2 > 0 ∧ data2.isNone)
        ∨ (datalen3 > 0 ∧ data3.isNone) := by
      simp only [not_or, Option.isNone_iff_eq_none] at h1
      simp only [Option.isNone_iff_eq_none]
      rcases hpre with h | h | h | h | h | h
      · exact absurd h h1.1
      · exact absurd h h1.2.2.2
      · exact absurd h h1.2.2.1
      · exact Or.inl h
      · exact Or.inr (Or.inl h)
      · exact Or.inr (Or.inr h)
    rw [if_pos h2]

/-- C10. With parameter checking compiled in, whatever the op-code (supported
or not) and the other arguments, `sha204m_execute` returns `SHA204_BAD_PARAM`
(and does nothing else) when `tx_buffer` is null, `rx_buffer` is null,
`rx_size < SHA204_RSP_SIZE_MIN`, or a data block has a non-zero length and a
null pointer. -/
theorem execute_general_precondition (H : Header) (E : Collaborators)
    (op_code param1 param2 : Nat)
    (datalen1 : Nat) (data1 : Ptr) (datalen2 : Nat) (data2 : Ptr)
    (datalen3 : Nat) (data3 : Ptr)
    (tx_size : Nat) (tx_buffer : Ptr) (rx_size : Nat) (rx_buffer : Ptr)
    (hcheck : H.SHA204_CHECK_PARAMETERS = true)
    (hcodes : H.SHA204_BAD_PARAM ≠ H.SHA204_SUCCESS)
    (hpre : tx_buffer = none ∨ rx_buffer = none ∨ rx_size < H.SHA204_RSP_SIZE_MIN
      ∨ (0 < datalen1 ∧ data1 = none) ∨ (0 < datalen2 ∧ data2 = none)
      ∨ (0 < datalen3 ∧ data3 = none)) :
    ∃ o, sha204m_execute H E op_code param1 param2 datalen1 data1 datalen2 data2
        datalen3 data3 tx_size tx_buffer rx_size rx_buffer = some o
      ∧ o.ret = H.SHA204_BAD_PARAM ∧ o.tx = tx_buffer ∧ o.rx = rx_buffer ∧ o.calls = [] := by
  have hc := check_parameters_precondition H op_code param1 param2 datalen1 data1 datalen2
    data2 datalen3 data3 tx_size tx_buffer rx_size rx_buffer hcheck hpre
  refine ⟨bad_param H tx_buffer rx_buffer, ?_, rfl, rfl, rfl, rfl⟩
  apply execute_rejects
  rw [hc]
  exact hcodes

/-- Instance of C10: a `Random` request, valid but for a second data block of
4 bytes behind a null pointer. -/
theorem execute_general_precondition_witness :
    atmel.SHA204_CHECK_PARAMETERS = true ∧ atmel.SHA204_BAD_PARAM ≠ atmel.SHA204_SUCCESS
    ∧ ((some fun _ => 0xAA : Ptr) = none ∨ (some fun _ => 0xBB : Ptr) = none
      ∨ 64 < atmel.SHA204_RSP_SIZE_MIN
      ∨ (0 < 0 ∧ (none : Ptr) = none) ∨ (0 < 4 ∧ (none : Ptr) = none)
      ∨ (0 < 0 ∧ (none : Ptr) = none))
    ∧ ∃ o, sha204m_execute atmel demo atmel.SHA204_RANDOM 0 0 0 none 4 none 0 none
        64 (some fun _ => 0xAA) 64 (some fun _ => 0xBB) = some o
      ∧ o.ret = atmel.SHA204_BAD_PARAM ∧ o.tx = (some fun _ => 0xAA)
      ∧ o.rx = (some fun _ => 0xBB) ∧ o.calls = [] :=
  ⟨rfl, by decide, Or.inr (Or.inr (Or.inr (Or.inr (Or.inl ⟨by decide, rfl⟩)))),
   execute_general_precondition atmel demo atmel.SHA204_RANDOM 0 0 0 none 4 none 0 none
     64 (some fun _ => 0xAA) 64 (some fun _ => 0xBB) rfl (by decide)
     (Or.inr (Or.inr (Or.inr (Or.inr (Or.inl ⟨by decide, rfl⟩)))))⟩

/-! Per op-code rules of the generic validator -/

theorem opcode_ne (H : Header) (hnd : (supported_opcodes H).Nodup) (i j : Nat)
    (hi : i < 14) (hj : j < 14) (hij : i ≠ j) :
    (supported_opcodes H).getD i 0 ≠ (supported_opcodes H).getD j 0 := by
  have hl : (supported_opcodes H).length = 14 := rfl
  rw [List.getD_eq_getElem _ _ (by omega), List.getD_eq_getElem _ _ (by omega)]
  exact fun h => hij (hnd.getElem_inj_iff.mp h)

theorem general_neg (H : Header) (datalen1 : Nat) (data1 : Ptr) (datalen2 : Nat) (data2 : Ptr)
    (datalen3 : Nat) (data3 : Ptr)
    (tx_size : Nat) (tx_buffer : Ptr) (rx_size : Nat) (rx_buffer : Ptr)
    (hg : general_preconditions H datalen1 data1 datalen2 data2 datalen3 data3
      tx_size tx_buffer rx_size rx_buffer) :
    ¬ (tx_buffer.isNone ∨ tx_size < (datalen1 + datalen2 + datalen3
        + H.SHA204_CMD_SIZE_MIN) % 256 ∨ rx_size < H.SHA204_RSP_SIZE_MIN ∨ rx_buffer.isNone)
    ∧ ¬ ((datalen1 > 0 ∧ data1.isNone) ∨ (datalen2 > 0 ∧ data2.isNone)
        ∨ (datalen3 > 0 ∧ data3.isNone)) := by
  obtain ⟨g1, g2, g3, g4, g5, g6, g7⟩ := hg
  simp only [not_or, not_and, not_lt, Option.isNone_iff_eq_none]
  exact ⟨⟨g1, g2, g3, g4⟩, g5, g6, g7⟩

theorem check_parameters_checkmac (H : Header) (param1 param2 : Nat)
    (datalen1 : Nat) (data1 : Ptr) (datalen2 : Nat) (data2 : Ptr)
    (datalen3 : Nat) (data3 : Ptr)
    (tx_size : Nat) (tx_buffer : Ptr) (rx_size : Nat) (rx_buffer : Ptr)
    (hcheck : H.SHA204_CHECK_PARAMETERS = true)
    (_hnd : (supported_opcodes H).Nodup)
    (hg : general_preconditions H datalen1 data1 datalen2 data2 datalen3 data3
      tx_size tx_buffer rx_size rx_buffer) :
    sha204m_check_parameters H H.SHA204_CHECKMAC param1 param2 datalen1 data1 datalen2 data2
      datalen3 data3 tx_size tx_buffer rx_size rx_buffer
      = if data1.isNone ∨ data2.isNone
          ∨ (param1 ||| H.CHECKMAC_MODE_MASK) ≠ H.CHECKMAC_MODE_MASK
          ∨ param2 > H.SHA204_KEY_ID_MAX then
          H.SHA204_BAD_PARAM
        else H.SHA204_SUCCESS := by
  obtain ⟨hn1, hn2⟩ := general_neg H datalen1 data1 datalen2 data2 datalen3 data3
    tx_size tx_buffer rx_size rx_buffer hg
  unfold sha204m_check_parameters
  rw [if_pos hcheck]
  dsimp only
  rw [if_neg hn1, if_neg hn2, if_pos rfl]

theorem check_parameters_derive_key (H : Header) (param1 param2 : Nat)
    (datalen1 : Nat) (data1 : Ptr) (datalen2 : Nat) (data2 : Ptr)
    (datalen3 : Nat) (data3 : Ptr)
    (tx_size : Nat) (tx_buffer : Ptr) (rx_size : Nat) (rx_buffer : Ptr)
    (hcheck : H.SHA204_CHECK_PARAMETERS = true)
    (hnd : (supported_opcodes H).Nodup)
    (hg : general_preconditions H datalen1 data1 datalen2 data2 datalen3 data3
      tx_size tx_buffer rx_size rx_buffer) :
    sha204m_check_parameters H H.SHA204_DERIVE_KEY param1 param2 datalen1 data1 datalen2 data2
      datalen3 data3 tx_size tx_buffer rx_size rx_buffer
      = if (param1 &&& cnot H.DERIVE_KEY_RANDOM_FLAG) ≠ 0 ∨ param2 > H.SHA204_KEY_ID_MAX then
          H.SHA204_BAD_PARAM
        else H.SHA204_SUCCESS := by
  obtain ⟨hn1, hn2⟩ := general_neg H datalen1 data1 datalen2 data2 datalen3 data3
    tx_size tx_buffer rx_size rx_buffer hg
  have e0 : H.SHA204_DERIVE_KEY ≠ H.SHA204_CHECKMAC :=
    opcode_ne H hnd 1 0 (by decide) (by decide) (by decide)
  unfold sha204m_check_parameters
  rw [if_pos hcheck]
  dsimp only
  rw [if_neg hn1, if_neg hn2, if_neg e0, if_pos rfl]

theorem check_parameters_devrev (H : Header) (param1 param2 : Nat)
    (datalen1 : Nat) (data1 : Ptr) (datalen2 : Nat) (data2 : Ptr)
    (datalen3 : Nat) (data3 : Ptr)
    (tx_size : Nat) (tx_buffer : Ptr) (rx_size : Nat) (rx_buffer : Ptr)
    (hcheck : H.SHA204_CHECK_PARAMETERS = true)
    (hnd : (supported_opcodes H).Nodup)
    (hg : general_preconditions H datalen1 data1 datalen2 data2 datalen3 data3
      tx_size tx_buffer rx_size rx_buffer) :
    sha204m_check_parameters H H.SHA204_DEVREV param1 param2 datalen1 data1 datalen2 data2
      datalen3 data3 tx_size tx_buffer rx_size rx_buffer
      = H.SHA204_SUCCESS := by
  obtain ⟨hn1, hn2⟩ := general_neg H datalen1 data1 datalen2 data2 datalen3 data3
    tx_size tx_buffer rx_size rx_buffer hg
  have e0 : H.SHA204_DEVREV ≠ H.SHA204_CHECKMAC :=
    opcode_ne H hnd 2 0 (by decide) (by decide) (by decide)
  have e1 : H.SHA204_DEVREV ≠ H.SHA204_DERIVE_KEY :=
    opcode_ne H hnd 2 1 (by decide) (by decide) (by decide)
  unfold sha204m_check_parameters
  rw [if_pos hcheck]
  dsimp only
  rw [if_neg hn1, if_neg hn2, if_neg e0, if_neg e1, if_pos rfl]

theorem check_parameters_gendig (H : Header) (param1 param2 : Nat)
    (datalen1 : Nat) (data1 : Ptr) (datalen2 : Nat) (data2 : Ptr)
    (datalen3 : Nat) (data3 : Ptr)
    (tx_size : Nat) (tx_buffer : Ptr) (rx_size : Nat) (rx_buffer : Ptr)
    (hcheck : H.SHA204_CHECK_PARAMETERS = true)
    (hnd : (supported_opcodes H).Nodup)
    (hg : general_preconditions H datalen1 data1 datalen2 data2 datalen3 data3
      tx_size tx_buffer rx_size rx_buffer) :
    sha204m_check_parameters H H.SHA204_GENDIG param1 param2 datalen1 data1 datalen2 data2
      datalen3 data3 tx_size tx_buffer rx_size rx_buffer
      = if param1 ≠ H.GENDIG_ZONE_OTP ∧ param1 ≠ H.GENDIG_ZONE_DATA then
          H.SHA204_BAD_PARAM
        else H.SHA204_SUCCESS := by
  obtain ⟨hn1, hn2⟩ := general_neg H datalen1 data1 datalen2 data2 datalen3 data3
    tx_size tx_buffer rx_size rx_buffer hg
  have e0 : H.SHA204_GENDIG ≠ H.SHA204_CHECKMAC :=
    opcode_ne H hnd 3 0 (by decide) (by decide) (by decide)
  have e1 : H.SHA204_GENDIG ≠ H.SHA204_DERIVE_KEY :=
    opcode_ne H hnd 3 1 (by decide) (by decide) (by decide)
  have e2 : H.SHA204_GENDIG ≠ H.SHA204_DEVREV :=
    opcode_ne H hnd 3 2 (by decide) (by decide) (by decide)
  unfold sha204m_check_parameters
  rw [if_pos hcheck]
  dsimp only
  rw [if_neg hn1, if_neg hn2, if_neg e0, if_neg e1, if_neg e2, if_pos rfl]

theorem check_parameters_hmac (H : Header) (param1 param2 : Nat)
    (datalen1 : Nat) (data1 : Ptr) (datalen2 : Nat) (data2 : Ptr)
    (datalen3 : Nat) (data3 : Ptr)
    (tx_size : Nat) (tx_buffer : Ptr) (rx_size : Nat) (rx_buffer : Ptr)
    (hcheck : H.SHA204_CHECK_PARAMETERS = true)
    (hnd : (supported_opcodes H).Nodup)
    (hg : general_preconditions H datalen1 data1 datalen2 data2 datalen3 data3
      tx_size tx_buffer rx_size rx_buffer) :
    sha204m_check_parameters H H.SHA204_HMAC param1 param2 datalen1 data1 datalen2 data2
      datalen3 data3 tx_size tx_buffer rx_size rx_buffer
      = if (param1 &&& cnot H.HMAC_MODE_MASK) ≠ 0 then
          H.SHA204_BAD_PARAM
        else H.SHA204_SUCCESS := by
  obtain ⟨hn1, hn2⟩ := general_neg H datalen1 data1 datalen2 data2 datalen3 data3
    tx_size tx_buffer rx_size rx_buffer hg
  have e0 : H.SHA204_HMAC ≠ H.SHA204_CHECKMAC :=
    opcode_ne H hnd 4 0 (by decide) (by decide) (by decide)
  have e1 : H.SHA204_HMAC ≠ H.SHA204_DERIVE_KEY :=
    opcode_ne H hnd 4 1 (by decide) (by decide) (by decide)
  have e2 : H.SHA204_HMAC ≠ H.SHA204_DEVREV :=
    opcode_ne H hnd 4 2 (by decide) (by decide) (by decide)
  have e3 : H.SHA204_HMAC ≠ H.SHA204_GENDIG :=
    opcode_ne H hnd 4 3 (by decide) (by decide) (by decide)
  unfold sha204m_check_parameters
  rw [if_pos hcheck]
  dsimp only
  rw [if_neg hn1, if_neg hn2, if_neg e0, if_neg e1, if_neg e2, if_neg e3, if_pos rfl]

theorem check_parameters_lock (H : Header) (param1 param2 : Nat)
    (datalen1 : Nat) (data1 : Ptr) (datalen2 : Nat) (data2 : Ptr)
    (datalen3 : Nat) (data3 : Ptr)
    (tx_size : Nat) (tx_buffer : Ptr) (rx_size : Nat) (rx_buffer : Ptr)
    (hcheck : H.SHA204_CHECK_PARAMETERS = true)
    (hnd : (supported_opcodes H).Nodup)
    (hg : general_preconditions H datalen1 data1 datalen2 data2 datalen3 data3
      tx_size tx_buffer rx_size rx_buffer) :
    sha204m_check_parameters H H.SHA204_LOCK param1 param2 datalen1 data1 datalen2 data2
      datalen3 data3 tx_size tx_buffer rx_size rx_buffer
      = if (param1 &&& cnot H.LOCK_ZONE_MASK) ≠ 0
          ∨ ((param1 &&& H.LOCK_ZONE_NO_CRC) ≠ 0 ∧ param2 ≠ 0) then
          H.SHA204_BAD_PARAM
        else H.SHA204_SUCCESS := by
  obtain ⟨hn1, hn2⟩ := general_neg H datalen1 data1 datalen2 data2 datalen3 data3
    tx_size tx_buffer rx_size rx_buffer hg
  have e0 : H.SHA204_LOCK ≠ H.SHA204_CHECKMAC :=
    opcode_ne H hnd 5 0 (by decide) (by decide) (by decide)
  have e1 : H.SHA204_LOCK ≠ H.SHA204_DERIVE_KEY :=
    opcode_ne H hnd 5 1 (by decide) (by decide) (by decide)
  have e2 : H.SHA204_LOCK ≠ H.SHA204_DEVREV :=
    opcode_ne H hnd 5 2 (by decide) (by decide) (by decide)
  have e3 : H.SHA204_LOCK ≠ H.SHA204_GENDIG :=
    opcode_ne H hnd 5 3 (by decide) (by decide) (by decide)
  have e4 : H.SHA204_LOCK ≠ H.SHA204_HMAC :=
    opcode_ne H hnd 5 4 (by decide) (by decide) (by decide)
  unfold sha204m_check_parameters
  rw [if_pos hcheck]
  dsimp only
  rw [if_neg hn1, if_neg hn2, if_neg e0, if_neg e1, if_neg e2, if_neg e3, if_neg e4, if_pos rfl]

theorem check_parameters_mac (H : Header) (param1 param2 : Nat)
    (datalen1 : Nat) (data1 : Ptr) (datalen2 : Nat) (data2 : Ptr)
    (datalen3 : Nat) (data3 : Ptr)
    (tx_size : Nat) (tx_buffer : Ptr) (rx_size : Nat) (rx_buffer : Ptr)
    (hcheck : H.SHA204_CHECK_PARAMETERS = true)
    (hnd : (supported_opcodes H).Nodup)
    (hg : general_preconditions H datalen1 data1 datalen2 data2 datalen3 data3
      tx_size tx_buffer rx_size rx_buffer) :
    sha204m_check_parameters H H.SHA204_MAC param1 param2 datalen1 data1 datalen2 data2
      datalen3 data3 tx_size tx_buffer rx_size rx_buffer
      = if (param1 &&& cnot H.MAC_MODE_MASK) ≠ 0
          ∨ ((param1 &&& H.MAC_MODE_BLOCK2_TEMPKEY) = 0 ∧ data1.isNone) then
          H.SHA204_BAD_PARAM
        else H.SHA204_SUCCESS := by
  obtain ⟨hn1, hn2⟩ := general_neg H datalen1 data1 datalen2 data2 datalen3 data3
    tx_size tx_buffer rx_size rx_buffer hg
  have e0 : H.SHA204_MAC ≠ H.SHA204_CHECKMAC :=
    opcode_ne H hnd 6 0 (by decide) (by decide) (by decide)
  have e1 : H.SHA204_MAC ≠ H.SHA204_DERIVE_KEY :=
    opcode_ne H hnd 6 1 (by decide) (by decide) (by decide)
  have e2 : H.SHA204_MAC ≠ H.SHA204_DEVREV :=
    opcode_ne H hnd 6 2 (by decide) (by decide) (by decide)
  have e3 : H.SHA204_MAC ≠ H.SHA204_GENDIG :=
    opcode_ne H hnd 6 3 (by decide) (by decide) (by decide)
  have e4 : H.SHA204_MAC ≠ H.SHA204_HMAC :=
    opcode_ne H hnd 6 4 (by decide) (by decide) (by decide)
  have e5 : H.SHA204_MAC ≠ H.SHA204_LOCK :=
    opcode_ne H hnd 6 5 (by decide) (by decide) (by decide)
  unfold sha204m_check_parameters
  rw [if_pos hcheck]
  dsimp only
  rw [if_neg hn1, if_neg hn2, if_neg e0, if_neg e1, if_neg e2, if_neg e3, if_neg e4, if_neg e5, if_pos rfl]

theorem check_parameters_nonce (H : Header) (param1 param2 : Nat)
    (datalen1 : Nat) (data1 : Ptr) (datalen2 : Nat) (data2 : Ptr)
    (datalen3 : Nat) (data3 : Ptr)
    (tx_size : Nat) (tx_buffer : Ptr) (rx_size : Nat) (rx_buffer : Ptr)
    (hcheck : H.SHA204_CHECK_PARAMETERS = true)
    (hnd : (supported_opcodes H).Nodup)
    (hg : general_preconditions H datalen1 data1 datalen2 data2 datalen3 data3
      tx_size tx_buffer rx_size rx_buffer) :
    sha204m_check_parameters H H.SHA204_NONCE param1 param2 datalen1 data1 datalen2 data2
      datalen3 data3 tx_size tx_buffer rx_size rx_buffer
      = if data1.isNone ∨ param1 > H.NONCE_MODE_PASSTHROUGH ∨ param1 = H.NONCE_MODE_INVALID then
          H.SHA204_BAD_PARAM
        else H.SHA204_SUCCESS := by
  obtain ⟨hn1, hn2⟩ := general_neg H datalen1 data1 datalen2 data2 datalen3 data3
    tx_size tx_buffer rx_size rx_buffer hg
  have e0 : H.SHA204_NONCE ≠ H.SHA204_CHECKMAC :=
    opcode_ne H hnd 7 0 (by decide) (by decide) (by decide)
  have e1 : H.SHA204_NONCE ≠ H.SHA204_DERIVE_KEY :=
    opcode_ne H hnd 7 1 (by decide) (by decide) (by decide)
  have e2 : H.SHA204_NONCE ≠ H.SHA204_DEVREV :=
    opcode_ne H hnd 7 2 (by decide) (by decide) (by decide)
  have e3 : H.SHA204_NONCE ≠ H.SHA204_GENDIG :=
    opcode_ne H hnd 7 3 (by decide) (by decide) (by decide)
  have e4 : H.SHA204_NONCE ≠ H.SHA204_HMAC :=
    opcode_ne H hnd 7 4 (by decide) (by decide) (by decide)
  have e5 : H.SHA204_NONCE ≠ H.SHA204_LOCK :=
    opcode_ne H hnd 7 5 (by decide) (by decide) (by decide)
  have e6 : H.SHA204_NONCE ≠ H.SHA204_MAC :=
    opcode_ne H hnd 7 6 (by decide) (by decide) (by decide)
  unfold sha204m_check_parameters
  rw [if_pos hcheck]
  dsimp only
  rw [if_neg hn1, if_neg hn2, if_neg e0, if_neg e1, if_neg e2, if_neg e3, if_neg e4, if_neg e5, if_neg e6, if_pos rfl]

theorem check_parameters_pause (H : Header) (param1 param2 : Nat)
    (datalen1 : Nat) (data1 : Ptr) (datalen2 : Nat) (data2 : Ptr)
    (datalen3 : Nat) (data3 : Ptr)
    (tx_size : Nat) (tx_buffer : Ptr) (rx_size : Nat) (rx_buffer : Ptr)
    (hcheck : H.SHA204_CHECK_PARAMETERS = true)
    (hnd : (supported_opcodes H).Nodup)
    (hg : general_preconditions H datalen1 data1 datalen2 data2 datalen3 data3
      tx_size tx_buffer rx_size rx_buffer) :
    sha204m_check_parameters H H.SHA204_PAUSE param1 param2 datalen1 data1 datalen2 data2
      datalen3 data3 tx_size tx_buffer rx_size rx_buffer
      = H.SHA204_SUCCESS := by
  obtain ⟨hn1, hn2⟩ := general_neg H datalen1 data1 datalen2 data2 datalen3 data3
    tx_size tx_buffer rx_size rx_buffer hg
  have e0 : H.SHA204_PAUSE ≠ H.SHA204_CHECKMAC :=
    opcode_ne H hnd 8 0 (by decide) (by decide) (by decide)
  have e1 : H.SHA204_PAUSE ≠ H.SHA204_DERIVE_KEY :=
    opcode_ne H hnd 8 1 (by decide) (by decide) (by decide)
  have e2 : H.SHA204_PAUSE ≠ H.SHA204_DEVREV :=
    opcode_ne H hnd 8 2 (by decide) (by decide) (by decide)
  have e3 : H.SHA204_PAUSE ≠ H.SHA204_GENDIG :=
    opcode_ne H hnd 8 3 (by decide) (by decide) (by decide)
  have e4 : H.SHA204_PAUSE ≠ H.SHA204_HMAC :=
    opcode_ne H hnd 8 4 (by decide) (by decide) (by decide)
  have e5 : H.SHA204_PAUSE ≠ H.SHA204_LOCK :=
    opcode_ne H hnd 8 5 (by decide) (by decide) (by decide)
  have e6 : H.SHA204_PAUSE ≠ H.SHA204_MAC :=
    opcode_ne H hnd 8 6 (by decide) (by decide) (by decide)
  have e7 : H.SHA204_PAUSE ≠ H.SHA204_NONCE :=
    opcode_ne H hnd 8 7 (by decide) (by decide) (by decide)
  unfold sha204m_check_parameters
  rw [if_pos hcheck]
  dsimp only
  rw [if_neg hn1, if_neg hn2, if_neg e0, if_neg e1, if_neg e2, if_neg e3, if_neg e4, if_neg e5, if_neg e6, if_neg e7, if_pos rfl]

theorem check_parameters_random (H : Header) (param1 param2 : Nat)
    (datalen1 : Nat) (data1 : Ptr) (datalen2 : Nat) (data2 : Ptr)
    (datalen3 : Nat) (data3 : Ptr)
    (tx_size : Nat) (tx_buffer : Ptr) (rx_size : Nat) (rx_buffer : Ptr)
    (hcheck : H.SHA204_CHECK_PARAMETERS = true)
    (hnd : (supported_opcodes H).Nodup)
    (hg : general_preconditions H datalen1 data1 datalen2 data2 datalen3 data3
      tx_size tx_buffer rx_size rx_buffer) :
    sha204m_check_parameters H H.SHA204_RANDOM param1 param2 datalen1 data1 datalen2 data2
      datalen3 data3 tx_size tx_buffer rx_size rx_buffer
      = if param1 > H.RANDOM_NO_SEED_UPDATE then
          H.SHA204_BAD_PARAM
        else H.SHA204_SUCCESS := by
  obtain ⟨hn1, hn2⟩ := general_neg H datalen1 data1 datalen2 data2 datalen3 data3
    tx_size tx_buffer rx_size rx_buffer hg
  have e0 : H.SHA204_RANDOM ≠ H.SHA204_CHECKMAC :=
    opcode_ne H hnd 9 0 (by decide) (by decide) (by decide)
  have e1 : H.SHA204_RANDOM ≠ H.SHA204_DERIVE_KEY :=
    opcode_ne H hnd 9 1 (by decide) (by decide) (by decide)
  have e2 : H.SHA204_RANDOM ≠ H.SHA204_DEVREV :=
    opcode_ne H hnd 9 2 (by decide) (by decide) (by decide)
  have e3 : H.SHA204_RANDOM ≠ H.SHA204_GENDIG :=
    opcode_ne H hnd 9 3 (by decide) (by decide) (by decide)
  have e4 : H.SHA204_RANDOM ≠ H.SHA204_HMAC :=
    opcode_ne H hnd 9 4 (by decide) (by decide) (by decide)
  have e5 : H.SHA204_RANDOM ≠ H.SHA204_LOCK :=
    opcode_ne H hnd 9 5 (by decide) (by decide) (by decide)
  have e6 : H.SHA204_RANDOM ≠ H.SHA204_MAC :=
    opcode_ne H hnd 9 6 (by decide) (by decide) (by decide)
  have e7 : H.SHA204_RANDOM ≠ H.SHA204_NONCE :=
    opcode_ne H hnd 9 7 (by decide) (by decide) (by decide)
  have e8 : H.SHA204_RANDOM ≠ H.SHA204_PAUSE :=
    opcode_ne H hnd 9 8 (by decide) (by decide) (by decide)
  unfold sha204m_check_parameters
  rw [if_pos hcheck]
  dsimp only
  rw [if_neg hn1, if_neg hn2, if_neg e0, if_neg e1, if_neg e2, if_neg e3, if_neg e4, if_neg e5, if_neg e6, if_neg e7, if_neg e8, if_pos rfl]

theorem check_parameters_read (H : Header) (param1 param2 : Nat)
    (datalen1 : Nat) (data1 : Ptr) (datalen2 : Nat) (data2 : Ptr)
    (datalen3 : Nat) (data3 : Ptr)
    (tx_size : Nat) (tx_buffer : Ptr) (rx_size : Nat) (rx_buffer : Ptr)
    (hcheck : H.SHA204_CHECK_PARAMETERS = true)
    (hnd : (supported_opcodes H).Nodup)
    (hg : general_preconditions H datalen1 data1 datalen2 data2 datalen3 data3
      tx_size tx_buffer rx_size rx_buffer) :
    sha204m_check_parameters H H.SHA204_READ param1 param2 datalen1 data1 datalen2 data2
      datalen3 data3 tx_size tx_buffer rx_size rx_buffer
      = if (param1 &&& cnot H.READ_ZONE_MASK) ≠ 0
          ∨ ((param1 &&& H.READ_ZONE_MODE_32_BYTES) ≠ 0 ∧ param1 = H.SHA204_ZONE_OTP) then
          H.SHA204_BAD_PARAM
        else H.SHA204_SUCCESS := by
  obtain ⟨hn1, hn2⟩ := general_neg H datalen1 data1 datalen2 data2 datalen3 data3
    tx_size tx_buffer rx_size rx_buffer hg
  have e0 : H.SHA204_READ ≠ H.SHA204_CHECKMAC :=
    opcode_ne H hnd 10 0 (by decide) (by decide) (by decide)
  have e1 : H.SHA204_READ ≠ H.SHA204_DERIVE_KEY :=
    opcode_ne H hnd 10 1 (by decide) (by decide) (by decide)
  have e2 : H.SHA204_READ ≠ H.SHA204_DEVREV :=
    opcode_ne H hnd 10 2 (by decide) (by decide) (by decide)
  have e3 : H.SHA204_READ ≠ H.SHA204_GENDIG :=
    opcode_ne H hnd 10 3 (by decide) (by decide) (by decide)
  have e4 : H.SHA204_READ ≠ H.SHA204_HMAC :=
    opcode_ne H hnd 10 4 (by decide) (by decide) (by decide)
  have e5 : H.SHA204_READ ≠ H.SHA204_LOCK :=
    opcode_ne H hnd 10 5 (by decide) (by decide) (by decide)
  have e6 : H.SHA204_READ ≠ H.SHA204_MAC :=
    opcode_ne H hnd 10 6 (by decide) (by decide) (by decide)
  have e7 : H.SHA204_READ ≠ H.SHA204_NONCE :=
    opcode_ne H hnd 10 7 (by decide) (by decide) (by decide)
  have e8 : H.SHA204_READ ≠ H.SHA204_PAUSE :=
    opcode_ne H hnd 10 8 (by decide) (by decide) (by decide)
  have e9 : H.SHA204_READ ≠ H.SHA204_RANDOM :=
    opcode_ne H hnd 10 9 (by decide) (by decide) (by decide)
  unfold sha204m_check_parameters
  rw [if_pos hcheck]
  dsimp only
  rw [if_neg hn1, if_neg hn2, if_neg e0, if_neg e1, if_neg e2, if_neg e3, if_neg e4, if_neg e5, if_neg e6, if_neg e7, if_neg e8, if_neg e9, if_pos rfl]

theorem check_parameters_tempsense (H : Header) (param1 param2 : Nat)
    (datalen1 : Nat) (data1 : Ptr) (datalen2 : Nat) (data2 : Ptr)
    (datalen3 : Nat) (data3 : Ptr)
    (tx_size : Nat) (tx_buffer : Ptr) (rx_size : Nat) (rx_buffer : Ptr)
    (hcheck : H.SHA204_CHECK_PARAMETERS = true)
    (hnd : (supported_opcodes H).Nodup)
    (hg : general_preconditions H datalen1 data1 datalen2 data2 datalen3 data3
      tx_size tx_buffer rx_size rx_buffer) :
    sha204m_check_parameters H H.SHA204_TEMPSENSE param1 param2 datalen1 data1 datalen2 data2
      datalen3 data3 tx_size tx_buffer rx_size rx_buffer
      = H.SHA204_SUCCESS := by
  obtain ⟨hn1, hn2⟩ := general_neg H datalen1 data1 datalen2 data2 datalen3 data3
    tx_size tx_buffer rx_size rx_buffer hg
  have e0 : H.SHA204_TEMPSENSE ≠ H.SHA204_CHECKMAC :=
    opcode_ne H hnd 11 0 (by decide) (by decide) (by decide)
  have e1 : H.SHA204_TEMPSENSE ≠ H.SHA204_DERIVE_KEY :=
    opcode_ne H hnd 11 1 (by decide) (by decide) (by decide)
  have e2 : H.SHA204_TEMPSENSE ≠ H.SHA204_DEVREV :=
    opcode_ne H hnd 11 2 (by decide) (by decide) (by decide)
  have e3 : H.SHA204_TEMPSENSE ≠ H.SHA204_GENDIG :=
    opcode_ne H hnd 11 3 (by decide) (by decide) (by decide)
  have e4 : H.SHA204_TEMPSENSE ≠ H.SHA204_HMAC :=
    opcode_ne H hnd 11 4 (by decide) (by decide) (by decide)
  have e5 : H.SHA204_TEMPSENSE ≠ H.SHA204_LOCK :=
    opcode_ne H hnd 11 5 (by decide) (by decide) (by decide)
  have e6 : H.SHA204_TEMPSENSE ≠ H.SHA204_MAC :=
    opcode_ne H hnd 11 6 (by decide) (by decide) (by decide)
  have e7 : H.SHA204_TEMPSENSE ≠ H.SHA204_NONCE :=
    opcode_ne H hnd 11 7 (by decide) (by decide) (by decide)
  have e8 : H.SHA204_TEMPSENSE ≠ H.SHA204_PAUSE :=
    opcode_ne H hnd 11 8 (by decide) (by decide) (by decide)
  have e9 : H.SHA204_TEMPSENSE ≠ H.SHA204_RANDOM :=
    opcode_ne H hnd 11 9 (by decide) (by decide) (by decide)
  have e10 : H.SHA204_TEMPSENSE ≠ H.SHA204_READ :=
    opcode_ne H hnd 11 10 (by decide) (by decide) (by decide)
  unfold sha204m_check_parameters
  rw [if_pos hcheck]
  dsimp only
  rw [if_neg hn1, if_neg hn2, if_neg e0, if_neg e1, if_neg e2, if_neg e3, if_neg e4, if_neg e5, if_neg e6, if_neg e7, if_neg e8, if_neg e9, if_neg e10, if_pos rfl]

theorem check_parameters_update_extra (H : Header) (param1 param2 : Nat)
    (datalen1 : Nat) (data1 : Ptr) (datalen2 : Nat) (data2 : Ptr)
    (datalen3 : Nat) (data3 : Ptr)
    (tx_size : Nat) (tx_buffer : Ptr) (rx_size : Nat) (rx_buffer : Ptr)
    (hcheck : H.SHA204_CHECK_PARAMETERS = true)
    (hnd : (supported_opcodes H).Nodup)
    (hg : general_preconditions H datalen1 data1 datalen2 data2 datalen3 data3
      tx_size tx_buffer rx_size rx_buffer) :
    sha204m_check_parameters H H.SHA204_UPDATE_EXTRA param1 param2 datalen1 data1 datalen2 data2
      datalen3 data3 tx_size tx_buffer rx_size rx_buffer
      = if param1 > H.UPDATE_CONFIG_BYTE_86 then
          H.SHA204_BAD_PARAM
        else H.SHA204_SUCCESS := by
  obtain ⟨hn1, hn2⟩ := general_neg H datalen1 data1 datalen2 data2 datalen3 data3
    tx_size tx_buffer rx_size rx_buffer hg
  have e0 : H.SHA204_UPDATE_EXTRA ≠ H.SHA204_CHECKMAC :=
    opcode_ne H hnd 12 0 (by decide) (by decide) (by decide)
  have e1 : H.SHA204_UPDATE_EXTRA ≠ H.SHA204_DERIVE_KEY :=
    opcode_ne H hnd 12 1 (by decide) (by decide) (by decide)
  have e2 : H.SHA204_UPDATE_EXTRA ≠ H.SHA204_DEVREV :=
    opcode_ne H hnd 12 2 (by decide) (by decide) (by decide)
  have e3 : H.SHA204_UPDATE_EXTRA ≠ H.SHA204_GENDIG :=
    opcode_ne H hnd 12 3 (by decide) (by decide) (by decide)
  have e4 : H.SHA204_UPDATE_EXTRA ≠ H.SHA204_HMAC :=
    opcode_ne H hnd 12 4 (by decide) (by decide) (by decide)
  have e5 : H.SHA204_UPDATE_EXTRA ≠ H.SHA204_LOCK :=
    opcode_ne H hnd 12 5 (by decide) (by decide) (by decide)
  have e6 : H.SHA204_UPDATE_EXTRA ≠ H.SHA204_MAC :=
    opcode_ne H hnd 12 6 (by decide) (by decide) (by decide)
  have e7 : H.SHA204_UPDATE_EXTRA ≠ H.SHA204_NONCE :=
    opcode_ne H hnd 12 7 (by decide) (by decide) (by decide)
  have e8 : H.SHA204_UPDATE_EXTRA ≠ H.SHA204_PAUSE :=
    opcode_ne H hnd 12 8 (by decide) (by decide) (by decide)
  have e9 : H.SHA204_UPDATE_EXTRA ≠ H.SHA204_RANDOM :=
    opcode_ne H hnd 12 9 (by decide) (by decide) (by decide)
  have e10 : H.SHA204_UPDATE_EXTRA ≠ H.SHA204_READ :=
    opcode_ne H hnd 12 10 (by decide) (by decide) (by decide)
  have e11 : H.SHA204_UPDATE_EXTRA ≠ H.SHA204_TEMPSENSE :=
    opcode_ne H hnd 12 11 (by decide) (by decide) (by decide)
  unfold sha204m_check_parameters
  rw [if_pos hcheck]
  dsimp only
  rw [if_neg hn1, if_neg hn2, if_neg e0, if_neg e1, if_neg e2, if_neg e3, if_neg e4, if_neg e5, if_neg e6, if_neg e7, if_neg e8, if_neg e9, if_neg e10, if_neg e11, if_pos rfl]

theorem check_parameters_write (H : Header) (param1 param2 : Nat)
    (datalen1 : Nat) (data1 : Ptr) (datalen2 : Nat) (data2 : Ptr)
    (datalen3 : Nat) (data3 : Ptr)
    (tx_size : Nat) (tx_buffer : Ptr) (rx_size : Nat) (rx_buffer : Ptr)
    (hcheck : H.SHA204_CHECK_PARAMETERS = true)
    (hnd : (supported_opcodes H).Nodup)
    (hg : general_preconditions H datalen1 data1 datalen2 data2 datalen3 data3
      tx_size tx_buffer rx_size rx_buffer) :
    sha204m_check_parameters H H.SHA204_WRITE param1 param2 datalen1 data1 datalen2 data2
      datalen3 data3 tx_size tx_buffer rx_size rx_buffer
      = if data1.isNone ∨ (param1 &&& cnot H.WRITE_ZONE_MASK) ≠ 0 then
          H.SHA204_BAD_PARAM
        else H.SHA204_SUCCESS := by
  obtain ⟨hn1, hn2⟩ := general_neg H datalen1 data1 datalen2 data2 datalen3 data3
    tx_size tx_buffer rx_size rx_buffer hg
  have e0 : H.SHA204_WRITE ≠ H.SHA204_CHECKMAC :=
    opcode_ne H hnd 13 0 (by decide) (by decide) (by decide)
  have e1 : H.SHA204_WRITE ≠ H.SHA204_DERIVE_KEY :=
    opcode_ne H hnd 13 1 (by decide) (by decide) (by decide)
  have e2 : H.SHA204_WRITE ≠ H.SHA204_DEVREV :=
    opcode_ne H hnd 13 2 (by decide) (by decide) (by decide)
  have e3 : H.SHA204_WRITE ≠ H.SHA204_GENDIG :=
    opcode_ne H hnd 13 3 (by decide) (by decide) (by decide)
  have e4 : H.SHA204_WRITE ≠ H.SHA204_HMAC :=
    opcode_ne H hnd 13 4 (by decide) (by decide) (by decide)
  have e5 : H.SHA204_WRITE ≠ H.SHA204_LOCK :=
    opcode_ne H hnd 13 5 (by decide) (by decide) (by decide)
  have e6 : H.SHA204_WRITE ≠ H.SHA204_MAC :=
    opcode_ne H hnd 13 6 (by decide) (by decide) (by decide)
  have e7 : H.SHA204_WRITE ≠ H.SHA204_NONCE :=
    opcode_ne H hnd 13 7 (by decide) (by decide) (by decide)
  have e8 : H.SHA204_WRITE ≠ H.SHA204_PAUSE :=
    opcode_ne H hnd 13 8 (by decide) (by decide) (by decide)
  have e9 : H.SHA204_WRITE ≠ H.SHA204_RANDOM :=
    opcode_ne H hnd 13 9 (by decide) (by decide) (by decide)
  have e10 : H.SHA204_WRITE ≠ H.SHA204_READ :=
    opcode_ne H hnd 13 10 (by decide) (by decide) (by decide)
  have e11 : H.SHA204_WRITE ≠ H.SHA204_TEMPSENSE :=
    opcode_ne H hnd 13 11 (by decide) (by decide) (by decide)
  have e12 : H.SHA204_WRITE ≠ H.SHA204_UPDATE_EXTRA :=
    opcode_ne H hnd 13 12 (by decide) (by decide) (by decide)
  unfold sha204m_check_parameters
  rw [if_pos hcheck]
  dsimp only
  rw [if_neg hn1, if_neg hn2, if_neg e0, if_neg e1, if_neg e2, if_neg e3, if_neg e4, if_neg e5, if_neg e6, if_neg e7, if_neg e8, if_neg e9, if_neg e10, if_neg e11, if_neg e12, if_pos rfl]

/-! Key index boundary -/

theorem or_mask_iff (a m : Nat) :
    a ||| m = m ↔ ∀ i, a.testBit i = true → m.testBit i = true := by
  constructor
  · intro h i hi
    rw [← h, Nat.testBit_or, hi]; rfl
  · intro h
    apply Nat.eq_of_testBit_eq
    intro i
    rw [Nat.testBit_or]
    cases ha : a.testBit i
    · simp
    · simp [h i ha]

/-- C11. Key index boundary of CheckMac and DeriveKey (parameter checking
compiled in, `SHA204_KEY_ID_MAX = 15`, distinct op-codes). A CheckMac request
meeting the general preconditions is accepted by the generic validator if and
only if `data1` and `data2` are non-null, `param1` has no bit outside
`CHECKMAC_MODE_MASK` and `param2 <= 15`; a DeriveKey request with a valid
`param1` is accepted if and only if `param2 <= 15`; `sha204m_execute` returns
`SHA204_BAD_PARAM` for every key index of 16 or more. `sha204m_check_mac` and
`sha204m_derive_key`, given everything else valid, reach the transport for
every key index up to 15 and return `SHA204_BAD_PARAM` for every key index of
16 or more. -/
theorem key_index_boundary (H : Header) (E : Collaborators) (param1 param2 : Nat)
    (datalen1 : Nat) (data1 : Ptr) (datalen2 : Nat) (data2 : Ptr)
    (datalen3 : Nat) (data3 : Ptr)
    (tx_size : Nat) (tx_buffer : Ptr) (rx_size : Nat) (rx_buffer : Ptr)
    (tx rx response other : Mem) (challenge mac : Ptr) (mode key_id : Nat)
    (hcheck : H.SHA204_CHECK_PARAMETERS = true)
    (hcodes : H.SHA204_BAD_PARAM ≠ H.SHA204_SUCCESS)
    (hnd : (supported_opcodes H).Nodup)
    (hmax : H.SHA204_KEY_ID_MAX = 15)
    (hg : general_preconditions H datalen1 data1 datalen2 data2 datalen3 data3
      tx_size tx_buffer rx_size rx_buffer) :
    -- generic path, CheckMac
    (sha204m_check_parameters H H.SHA204_CHECKMAC param1 param2 datalen1 data1 datalen2 data2
        datalen3 data3 tx_size tx_buffer rx_size rx_buffer = H.SHA204_SUCCESS
      ↔ data1 ≠ none ∧ data2 ≠ none
        ∧ (∀ i, param1.testBit i = true → H.CHECKMAC_MODE_MASK.testBit i = true)
        ∧ param2 ≤ 15)
    ∧ (16 ≤ param2 →
        sha204m_execute H E H.SHA204_CHECKMAC param1 param2 datalen1 data1 datalen2 data2
          datalen3 data3 tx_size tx_buffer rx_size rx_buffer
        = some (bad_param H tx_buffer rx_buffer))
    -- generic path, DeriveKey
    ∧ ((param1 &&& cnot H.DERIVE_KEY_RANDOM_FLAG) = 0 →
        (sha204m_check_parameters H H.SHA204_DERIVE_KEY param1 param2 datalen1 data1 datalen2
          data2 datalen3 data3 tx_size tx_buffer rx_size rx_buffer = H.SHA204_SUCCESS
        ↔ param2 ≤ 15))
    ∧ (16 ≤ param2 →
        sha204m_execute H E H.SHA204_DERIVE_KEY param1 param2 datalen1 data1 datalen2 data2
          datalen3 data3 tx_size tx_buffer rx_size rx_buffer
        = some (bad_param H tx_buffer rx_buffer))
    -- command functions
    ∧ ((mode ||| H.CHECKMAC_MODE_MASK) = H.CHECKMAC_MODE_MASK →
        (key_id ≤ 15 →
          ¬ (sha204m_check_mac H E (some tx) (some rx) mode key_id challenge
              (some response) (some other)).returned_locally)
        ∧ (16 ≤ key_id →
          sha204m_check_mac H E (some tx) (some rx) mode key_id challenge
              (some response) (some other) = bad_param H (some tx) (some rx)))
    ∧ ((mode &&& cnot H.DERIVE_KEY_RANDOM_FLAG) = 0 →
        (key_id ≤ 15 →
          ¬ (sha204m_derive_key H E (some tx) (some rx) mode key_id mac).returned_locally)
        ∧ (16 ≤ key_id →
          sha204m_derive_key H E (some tx) (some rx) mode key_id mac
            = bad_param H (some tx) (some rx))) := by
  have hcm := check_parameters_checkmac H param1 param2 datalen1 data1 datalen2 data2
    datalen3 data3 tx_size tx_buffer rx_size rx_buffer hcheck hnd hg
  have hdk := check_parameters_derive_key H param1 param2 datalen1 data1 datalen2 data2
    datalen3 data3 tx_size tx_buffer rx_size rx_buffer hcheck hnd hg
  refine ⟨?_, ?_, ?_, ?_, ?_, ?_⟩
  · rw [hcm, hmax]
    constructor
    · intro h
      split_ifs at h with hc
      · exact absurd h hcodes
      · simp only [not_or, Option.isNone_iff_eq_none, not_not, not_lt, gt_iff_lt] at hc
        exact ⟨hc.1, hc.2.1, (or_mask_iff _ _).mp hc.2.2.1, hc.2.2.2⟩
    · rintro ⟨h1, h2, h3, h4⟩
      rw [if_neg]
      simp only [not_or, Option.isNone_iff_eq_none, not_not, not_lt, gt_iff_lt]
      exact ⟨h1, h2, (or_mask_iff _ _).mpr h3, h4⟩
  · intro h16
    apply execute_rejects
    rw [hcm, hmax, if_pos (Or.inr (Or.inr (Or.inr (by omega))))]
    exact hcodes
  · intro hp
    rw [hdk, hmax]
    constructor
    · intro h
      split_ifs at h with hc
      · exact absurd h hcodes
      · simp only [not_or, not_lt, gt_iff_lt] at hc
        exact hc.2
    · intro h4
      rw [if_neg]
      simp only [not_or, not_lt, gt_iff_lt, ne_eq, not_not]
      exact ⟨hp, h4⟩
  · intro h16
    apply execute_rejects
    rw [hdk, hmax, if_pos (Or.inr (by omega))]
    exact hcodes
  · intro hm
    constructor
    · intro hk
      unfold sha204m_check_mac
      simp only
      rw [if_neg (by simp only [not_or, not_not, not_lt, gt_iff_lt, ne_eq]; exact ⟨hm, by omega⟩)]
      exact send_and_receive_not_local _ _ _ _ _ _ _
    · intro hk
      unfold sha204m_check_mac
      simp only
      rw [if_pos (Or.inr (by omega))]
  · intro hm
    constructor
    · intro hk
      unfold sha204m_derive_key
      simp only
      rw [if_neg (by simp only [not_or, not_not, not_lt, gt_iff_lt, ne_eq]; exact ⟨hm, by omega⟩)]
      exact send_and_receive_not_local _ _ _ _ _ _ _
    · intro hk
      unfold sha204m_derive_key
      simp only
      rw [if_pos (Or.inr (by omega))]

theorem atmel_general (datalen1 : Nat) (data1 : Mem) (datalen2 : Nat) (data2 : Mem)
    (datalen3 : Nat) (data3 : Mem) (tx_size : Nat) (tx rx : Mem) (rx_size : Nat)
    (h1 : (datalen1 + datalen2 + datalen3 + 7) % 256 ≤ tx_size) (h2 : 4 ≤ rx_size) :
    general_preconditions atmel datalen1 (some data1) datalen2 (some data2) datalen3
      (some data3) tx_size (some tx) rx_size (some rx) :=
  ⟨by simp, h1, h2, by simp, by simp, by simp, by simp⟩

/-- Instance of C11 on the published header: key index 15 is accepted and key
index 16 is refused, on the generic path and by the two command functions. -/
theorem key_index_boundary_witness :
    atmel.SHA204_CHECK_PARAMETERS = true ∧ atmel.SHA204_BAD_PARAM ≠ atmel.SHA204_SUCCESS
    ∧ (supported_opcodes atmel).Nodup ∧ atmel.SHA204_KEY_ID_MAX = 15
    ∧ general_preconditions atmel 32 (some fun i => i) 32 (some fun i => i) 13
        (some fun i => i) 84 (some fun _ => 0) 4 (some fun _ => 0)
    ∧ sha204m_check_parameters atmel atmel.SHA204_CHECKMAC 0 15 32 (some fun i => i)
        32 (some fun i => i) 13 (some fun i => i) 84 (some fun _ => 0) 4 (some fun _ => 0)
        = atmel.SHA204_SUCCESS
    ∧ sha204m_execute atmel demo atmel.SHA204_CHECKMAC 0 16 32 (some fun i => i)
        32 (some fun i => i) 13 (some fun i => i) 84 (some fun _ => 0) 4 (some fun _ => 0)
        = some (bad_param atmel (some fun _ => 0) (some fun _ => 0))
    ∧ sha204m_check_parameters atmel atmel.SHA204_DERIVE_KEY 0 15 32 (some fun i => i)
        32 (some fun i => i) 13 (some fun i => i) 84 (some fun _ => 0) 4 (some fun _ => 0)
        = atmel.SHA204_SUCCESS
    ∧ ¬ (sha204m_check_mac atmel demo (some fun _ => 0) (some fun _ => 0) 0 15 none
          (some fun i => i) (some fun i => i)).returned_locally
    ∧ sha204m_check_mac atmel demo (some fun _ => 0) (some fun _ => 0) 0 16 none
          (some fun i => i) (some fun i => i)
        = bad_param atmel (some fun _ => 0) (some fun _ => 0)
    ∧ ¬ (sha204m_derive_key atmel demo (some fun _ => 0) (some fun _ => 0) 0 15
          none).returned_locally
    ∧ sha204m_derive_key atmel demo (some fun _ => 0) (some fun _ => 0) 0 16 none
        = bad_param atmel (some fun _ => 0) (some fun _ => 0) :=
  ⟨rfl, by decide, by decide, rfl,
   atmel_general 32 _ 32 _ 13 _ 84 _ _ 4 (by decide) (by decide),
   (key_index_boundary atmel demo 0 15 32 (some fun i => i) 32 (some fun i => i) 13
      (some fun i => i) 84 (some fun _ => 0) 4 (some fun _ => 0)
      (fun _ => 0) (fun _ => 0) (fun i => i) (fun i => i) none none 0 15
      rfl (by decide) (by decide) rfl
      (atmel_general 32 _ 32 _ 13 _ 84 _ _ 4 (by decide) (by decide))).1.mpr
      ⟨by simp, by simp, fun i h => by simp at h, by decide⟩,
   (key_index_boundary atmel demo 0 16 32 (some fun i => i) 32 (some fun i => i) 13
      (some fun i => i) 84 (some fun _ => 0) 4 (some fun _ => 0)
      (fun _ => 0) (fun _ => 0) (fun i => i) (fun i => i) none none 0 16
      rfl (by decide) (by decide) rfl
      (atmel_general 32 _ 32 _ 13 _ 84 _ _ 4 (by decide) (by decide))).2.1 (by decide),
   ((key_index_boundary atmel demo 0 15 32 (some fun i => i) 32 (some fun i => i) 13
      (some fun i => i) 84 (some fun _ => 0) 4 (some fun _ => 0)
      (fun _ => 0) (fun _ => 0) (fun i => i) (fun i => i) none none 0 15
      rfl (by decide) (by decide) rfl
      (atmel_general 32 _ 32 _ 13 _ 84 _ _ 4 (by decide) (by decide))).2.2.1
      (by decide)).mpr (by decide),
   ((key_index_boundary atmel demo 0 15 32 (some fun i => i) 32 (some fun i => i) 13
      (some fun i => i) 84 (some fun _ => 0) 4 (some fun _ => 0)
      (fun _ => 0) (fun _ => 0) (fun i => i) (fun i => i) none none 0 15
      rfl (by decide) (by decide) rfl
      (atmel_general 32 _ 32 _ 13 _ 84 _ _ 4 (by decide) (by decide))).2.2.2.2.1
      (by decide)).1 (by decide),
   ((key_index_boundary atmel demo 0 16 32 (some fun i => i) 32 (some fun i => i) 13
      (some fun i => i) 84 (some fun _ => 0) 4 (some fun _ => 0)
      (fun _ => 0) (fun _ => 0) (fun i => i) (fun i => i) none none 0 16
      rfl (by decide) (by decide) rfl
      (atmel_general 32 _ 32 _ 13 _ 84 _ _ 4 (by decide) (by decide))).2.2.2.2.1
      (by decide)).2 (by decide),
   ((key_index_boundary atmel demo 0 15 32 (some fun i => i) 32 (some fun i => i) 13
      (some fun i => i) 84 (some fun _ => 0) 4 (some fun _ => 0)
      (fun _ => 0) (fun _ => 0) (fun i => i) (fun i => i) none none 0 15
      rfl (by decide) (by decide) rfl
      (atmel_general 32 _ 32 _ 13 _ 84 _ _ 4 (by decide) (by decide))).2.2.2.2.2
      (by decide)).1 (by decide),
   ((key_index_boundary atmel demo 0 16 32 (some fun i => i) 32 (some fun i => i) 13
      (some fun i => i) 84 (some fun _ => 0) 4 (some fun _ => 0)
      (fun _ => 0) (fun _ => 0) (fun i => i) (fun i => i) none none 0 16
      rfl (by decide) (by decide) rfl
      (atmel_general 32 _ 32 _ 13 _ 84 _ _ 4 (by decide) (by decide))).2.2.2.2.2
      (by decide)).2 (by decide)⟩

/-! Read of the OTP zone with the 32 byte flag -/

/-- C12, evaluated on the failing inputs. With `param1 = READ_ZONE_MODE_32_BYTES |
SHA204_ZONE_OTP = 0x81` the test `(param1 & READ_ZONE_MODE_32_BYTES) && (param1 ==
SHA204_ZONE_OTP)` is false (`0x81` is not `0x01`), so for every address the
generic validator accepts the Read request and `sha204m_read` reaches the
transport, asking for a 32 byte response. -/
theorem read_otp_32_accepted (address : Nat) :
    atmel.READ_ZONE_MODE_32_BYTES ||| atmel.SHA204_ZONE_OTP = 0x81
    ∧ sha204m_check_parameters atmel atmel.SHA204_READ 0x81 address 0 none 0 none 0 none
        64 (some fun _ => 0) 64 (some fun _ => 0) = atmel.SHA204_SUCCESS
    ∧ (∃ o, sha204m_execute atmel demo atmel.SHA204_READ 0x81 address 0 none 0 none 0 none
        64 (some fun _ => 0) 64 (some fun _ => 0) = some o ∧ ¬ o.returned_locally)
    ∧ ¬ (sha204m_read atmel demo (some fun _ => 0) (some fun _ => 0) 0x81
          address).returned_locally
    ∧ ∃ frame rx, (sha204m_read atmel demo (some fun _ => 0) (some fun _ => 0) 0x81
          address).calls
        = [Call.send_and_receive frame atmel.READ_32_RSP_SIZE rx 0 4] := by
  have hacc : sha204m_check_parameters atmel atmel.SHA204_READ 0x81 address 0 none 0 none
      0 none 64 (some fun _ => 0) 64 (some fun _ => 0) = atmel.SHA204_SUCCESS := by
    rw [check_parameters_read atmel 0x81 address 0 none 0 none 0 none 64 (some fun _ => 0) 64
      (some fun _ => 0) rfl (by decide)
      ⟨by simp, by decide, by decide, by simp, by simp, by simp, by simp⟩]
    decide
  have hread : sha204m_read atmel demo (some fun _ => 0) (some fun _ => 0) 0x81 address
      = sha204c_send_and_receive demo []
          (store (store (store (store (store (fun _ => 0) atmel.SHA204_COUNT_IDX
            atmel.READ_COUNT) atmel.SHA204_OPCODE_IDX atmel.SHA204_READ) atmel.READ_ZONE_IDX
            0x81) atmel.READ_ADDR_IDX (address &&& atmel.SHA204_ADDRESS_MASK))
            (atmel.READ_ADDR_IDX + 1) 0)
          atmel.READ_32_RSP_SIZE (fun _ => 0) atmel.READ_DELAY
          (u8 (atmel.READ_EXEC_MAX - atmel.READ_DELAY)) := by
    unfold sha204m_read
    simp only
    rw [if_neg (by decide), if_neg (fun h => absurd h.1 (by decide))]
    rfl
  refine ⟨by decide, hacc, ?_, ?_, ?_⟩
  · obtain ⟨tx0, rx0, body, _, _, _, he⟩ := execute_closed atmel demo atmel.SHA204_READ 0x81
      address 0 none 0 none 0 none 64 (some fun _ => 0) 64 (some fun _ => 0) rfl (by decide)
      hacc
    exact ⟨_, he, send_and_receive_not_local _ _ _ _ _ _ _⟩
  · rw [hread]
    exact send_and_receive_not_local _ _ _ _ _ _ _
  · rw [hread]
    exact ⟨_, _, rfl⟩

/-! Data zone addresses of the command functions -/

/-- C13. For every zone byte with the data-zone bit `SHA204_ZONE_DATA` set and
every address whose word-shifted value `address >> 2` has its low bit set,
`sha204m_read` and `sha204m_write` return `SHA204_BAD_PARAM` without a store
into the buffers and without calling the transport (whether the zone byte
passes the mask check or not, and whatever the pointers are). -/
theorem data_zone_misaligned_rejected (H : Header) (E : Collaborators)
    (tx_buffer rx_buffer : Ptr) (zone address : Nat) (new_value mac : Ptr)
    (hdata : (zone &&& H.SHA204_ZONE_DATA) ≠ 0)
    (hodd : (address >>> 2) &&& 1 = 1) :
    (sha204m_read H E tx_buffer rx_buffer zone address = bad_param H tx_buffer rx_buffer
      ∧ (sha204m_read H E tx_buffer rx_buffer zone address).ret = H.SHA204_BAD_PARAM
      ∧ (sha204m_read H E tx_buffer rx_buffer zone address).calls = [])
    ∧ (sha204m_write H E tx_buffer rx_buffer zone address new_value mac
        = bad_param H tx_buffer rx_buffer
      ∧ (sha204m_write H E tx_buffer rx_buffer zone address new_value mac).ret
        = H.SHA204_BAD_PARAM
      ∧ (sha204m_write H E tx_buffer rx_buffer zone address new_value mac).calls = []) := by
  have hr : sha204m_read H E tx_buffer rx_buffer zone address
      = bad_param H tx_buffer rx_buffer := by
    unfold sha204m_read
    split
    · simp only
      by_cases h1 : (zone &&& cnot H.READ_ZONE_MASK) ≠ 0
          ∨ ((zone &&& H.READ_ZONE_MODE_32_BYTES) ≠ 0 ∧ zone = H.SHA204_ZONE_OTP)
      · rw [if_pos h1]
      · rw [if_neg h1, if_pos ⟨hdata, by rw [if_pos hdata, hodd]; decide⟩]
    · rfl
  have hw : sha204m_write H E tx_buffer rx_buffer zone address new_value mac
      = bad_param H tx_buffer rx_buffer := by
    unfold sha204m_write
    split
    · simp only
      by_cases h1 : (zone &&& cnot H.WRITE_ZONE_MASK) ≠ 0
      · rw [if_pos h1]
      · rw [if_neg h1, if_pos ⟨hdata, by rw [if_pos hdata, hodd]; decide⟩]
    · rfl
  exact ⟨⟨hr, by rw [hr]; rfl, by rw [hr]; rfl⟩, ⟨hw, by rw [hw]; rfl, by rw [hw]; rfl⟩⟩

/-- Instance of C13: data zone `0x02`, byte address 4 (word address 1). -/
theorem data_zone_misaligned_rejected_witness :
    (0x02 &&& atmel.SHA204_ZONE_DATA) ≠ 0 ∧ (4 >>> 2) &&& 1 = 1
    ∧ (sha204m_read atmel demo (some fun _ => 0xAA) (some fun _ => 0xBB) 0x02 4
          = bad_param atmel (some fun _ => 0xAA) (some fun _ => 0xBB)
        ∧ (sha204m_read atmel demo (some fun _ => 0xAA) (some fun _ => 0xBB) 0x02 4).ret
          = atmel.SHA204_BAD_PARAM
        ∧ (sha204m_read atmel demo (some fun _ => 0xAA) (some fun _ => 0xBB) 0x02 4).calls = [])
    ∧ (sha204m_write atmel demo (some fun _ => 0xAA) (some fun _ => 0xBB) 0x02 4
          (some fun i => i) none = bad_param atmel (some fun _ => 0xAA) (some fun _ => 0xBB)
        ∧ (sha204m_write atmel demo (some fun _ => 0xAA) (some fun _ => 0xBB) 0x02 4
          (some fun i => i) none).ret = atmel.SHA204_BAD_PARAM
        ∧ (sha204m_write atmel demo (some fun _ => 0xAA) (some fun _ => 0xBB) 0x02 4
          (some fun i => i) none).calls = []) :=
  ⟨by decide, by decide,
   data_zone_misaligned_rejected atmel demo (some fun _ => 0xAA) (some fun _ => 0xBB) 0x02 4
     (some fun i => i) none (by decide) (by decide)⟩

/-- C14 is false as stated. For the data zone `0x02` and the 16 bit address
`0x0400` the word-shifted value 256 is even, `sha204m_read` and `sha204m_write`
accept, but the address field of the frame is `256 & 0x7F = 0`, not 256. -/
theorem data_zone_address_counterexample :
    (0x0400 >>> 2) &&& 1 = 0 ∧ 0x0400 >>> 2 = 256 ∧ 0x0400 < 65536
    ∧ (∃ frame rx,
        (sha204m_read atmel demo (some fun _ => 0xAA) (some fun _ => 0xBB) 0x02 0x0400).calls
          = [Call.send_and_receive frame 7 rx 0 4]
        ∧ frame 3 + 256 * frame 4 = 0)
    ∧ (∃ frame rx,
        (sha204m_write atmel demo (some fun _ => 0xAA) (some fun _ => 0xBB) 0x02 0x0400
          (some fun i => i) none).calls = [Call.send_and_receive frame 4 rx 3 39]
        ∧ frame 3 + 256 * frame 4 = 0) :=
  ⟨by decide, by decide, by decide, ⟨_, _, rfl, by decide⟩, ⟨_, _, rfl, by decide⟩⟩

theorem and_7f (x : Nat) : x &&& 0x7F = x % 128 := Nat.and_pow_two_sub_one_eq_mod x 7

/-- C14, amended. For every zone byte that passes the zone checks and has the
data-zone bit set, and every address whose word-shifted value `address >> 2`
is even, `sha204m_read` and `sha204m_write` (non-null buffers and value) reach
the transport, and the address field of the frame, `tx[3] + 256 * tx[4]`, is
`(address >> 2) & SHA204_ADDRESS_MASK`; with the mask `0x7F` that is
`(address >> 2) mod 128`, equal to `address >> 2` whenever `address >> 2 <= 0x7F`. -/
theorem data_zone_address_serialized (H : Header) (E : Collaborators) (tx rx value : Mem)
    (mac : Ptr) (zone address : Nat)
    (hcount : H.SHA204_COUNT_IDX = 0) (hopidx : H.SHA204_OPCODE_IDX = 1)
    (haddr : H.READ_ADDR_IDX = 3) (hmask : H.SHA204_ADDRESS_MASK = 0x7F)
    (hread : ¬ ((zone &&& cnot H.READ_ZONE_MASK) ≠ 0
      ∨ ((zone &&& H.READ_ZONE_MODE_32_BYTES) ≠ 0 ∧ zone = H.SHA204_ZONE_OTP)))
    (hwrite : (zone &&& cnot H.WRITE_ZONE_MASK) = 0)
    (hdata : (zone &&& H.SHA204_ZONE_DATA) ≠ 0)
    (heven : (address >>> 2) &&& 1 = 0) :
    (∃ frame,
      (sha204m_read H E (some tx) (some rx) zone address).tx = some frame
      ∧ ¬ (sha204m_read H E (some tx) (some rx) zone address).returned_locally
      ∧ frame 3 + 256 * frame 4 = (address >>> 2) &&& H.SHA204_ADDRESS_MASK
      ∧ frame 3 + 256 * frame 4 = (address >>> 2) % 128
      ∧ (address >>> 2 ≤ 0x7F → frame 3 + 256 * frame 4 = address >>> 2))
    ∧ (∃ frame,
      (sha204m_write H E (some tx) (some rx) zone address (some value) mac).tx = some frame
      ∧ ¬ (sha204m_write H E (some tx) (some rx) zone address (some value)
            mac).returned_locally
      ∧ frame 3 + 256 * frame 4 = (address >>> 2) &&& H.SHA204_ADDRESS_MASK
      ∧ frame 3 + 256 * frame 4 = (address >>> 2) % 128
      ∧ (address >>> 2 ≤ 0x7F → frame 3 + 256 * frame 4 = address >>> 2)) := by
  have hal : ¬ ((zone &&& H.SHA204_ZONE_DATA) ≠ 0
      ∧ ((if (zone &&& H.SHA204_ZONE_DATA) ≠ 0 then address >>> 2 else address) &&& 1) ≠ 0) := by
    rw [if_pos hdata, heven]
    simp
  have hm : ((address >>> 2) &&& H.SHA204_ADDRESS_MASK) % 256
      = (address >>> 2) &&& H.SHA204_ADDRESS_MASK := by
    rw [hmask, and_7f]
    omega
  have hfin : ∀ f3 f4 : Nat, f3 = ((address >>> 2) &&& H.SHA204_ADDRESS_MASK) % 256 → f4 = 0 →
      f3 + 256 * f4 = (address >>> 2) &&& H.SHA204_ADDRESS_MASK
      ∧ f3 + 256 * f4 = (address >>> 2) % 128
      ∧ (address >>> 2 ≤ 0x7F → f3 + 256 * f4 = address >>> 2) := by
    intro f3 f4 h3 h4
    rw [h3, h4, hm, hmask, and_7f]
    refine ⟨by omega, by omega, fun h => ?_⟩
    omega
  constructor
  · have hr : sha204m_read H E (some tx) (some rx) zone address
        = sha204c_send_and_receive E []
          (store (store (store (store (store tx H.SHA204_COUNT_IDX H.READ_COUNT)
            H.SHA204_OPCODE_IDX H.SHA204_READ) H.READ_ZONE_IDX zone) H.READ_ADDR_IDX
            ((address >>> 2) &&& H.SHA204_ADDRESS_MASK)) (H.READ_ADDR_IDX + 1) 0)
          ((if (zone &&& H.SHA204_ZONE_COUNT_FLAG) ≠ 0 then H.READ_32_RSP_SIZE
            else H.READ_4_RSP_SIZE) % 256) rx H.READ_DELAY
          (u8 (H.READ_EXEC_MAX - H.READ_DELAY)) := by
      unfold sha204m_read
      simp only
      rw [if_neg hread, if_neg hal, if_pos hdata]
    rw [hr]
    refine ⟨_, rfl, send_and_receive_not_local _ _ _ _ _ _ _, ?_⟩
    apply hfin
    · simp [store_apply, haddr]
    · simp [store_apply, haddr]
  · have hw : ∃ (count : Nat) (body : Mem → Mem), sha204m_write H E (some tx) (some rx) zone address (some value) mac
        = sha204c_send_and_receive E []
          (store (body (memcpy (store (store (store (store tx H.SHA204_OPCODE_IDX H.SHA204_WRITE)
            (H.SHA204_OPCODE_IDX + 1) zone) (H.SHA204_OPCODE_IDX + 2)
            ((address >>> 2) &&& H.SHA204_ADDRESS_MASK)) (H.SHA204_OPCODE_IDX + 3) 0)
            (H.SHA204_OPCODE_IDX + 4) value
            (if (zone &&& H.SHA204_ZONE_COUNT_FLAG) ≠ 0 then H.SHA204_ZONE_ACCESS_32
              else H.SHA204_ZONE_ACCESS_4)))
            H.SHA204_COUNT_IDX count)
          H.WRITE_RSP_SIZE rx H.WRITE_DELAY (u8 (H.WRITE_EXEC_MAX - H.WRITE_DELAY))
        ∧ ∀ (m : Mem) (j : Nat), j < H.SHA204_OPCODE_IDX + 4 → body m j = m j := by
      unfold sha204m_write
      simp only
      rw [if_neg (not_not.mpr hwrite), if_neg hal, if_pos hdata]
      cases mac with
      | none => exact ⟨_, fun m => m, rfl, fun _ _ _ => rfl⟩
      | some m0 =>
        exact ⟨_, fun m => memcpy m _ m0 H.WRITE_MAC_SIZE, rfl,
          fun m j hj => memcpy_apply_lt _ _ _ _ _ (by omega)⟩
    obtain ⟨count, body, hw, hbody⟩ := hw
    rw [hw]
    refine ⟨_, rfl, send_and_receive_not_local _ _ _ _ _ _ _, ?_⟩
    apply hfin
    · rw [store_apply, if_neg (by omega), hbody _ _ (by omega),
        memcpy_apply_lt _ _ _ _ _ (by omega)]
      simp [store_apply, hopidx]
    · rw [store_apply, if_neg (by omega), hbody _ _ (by omega),
        memcpy_apply_lt _ _ _ _ _ (by omega)]
      simp [store_apply, hopidx]

/-- Instance of the amended C14: data zone `0x02`, byte address 16 (word address 4). -/
theorem data_zone_address_serialized_witness :
    atmel.SHA204_COUNT_IDX = 0 ∧ atmel.SHA204_OPCODE_IDX = 1 ∧ atmel.READ_ADDR_IDX = 3
    ∧ atmel.SHA204_ADDRESS_MASK = 0x7F
    ∧ ¬ ((0x02 &&& cnot atmel.READ_ZONE_MASK) ≠ 0
      ∨ ((0x02 &&& atmel.READ_ZONE_MODE_32_BYTES) ≠ 0 ∧ 0x02 = atmel.SHA204_ZONE_OTP))
    ∧ (0x02 &&& cnot atmel.WRITE_ZONE_MASK) = 0
    ∧ (0x02 &&& atmel.SHA204_ZONE_DATA) ≠ 0
    ∧ (16 >>> 2) &&& 1 = 0
    ∧ ((∃ frame,
        (sha204m_read atmel demo (some fun _ => 0) (some fun _ => 0) 0x02 16).tx = some frame
        ∧ ¬ (sha204m_read atmel demo (some fun _ => 0) (some fun _ => 0) 0x02
              16).returned_locally
        ∧ frame 3 + 256 * frame 4 = (16 >>> 2) &&& atmel.SHA204_ADDRESS_MASK
        ∧ frame 3 + 256 * frame 4 = (16 >>> 2) % 128
        ∧ (16 >>> 2 ≤ 0x7F → frame 3 + 256 * frame 4 = 16 >>> 2))
      ∧ (∃ frame,
        (sha204m_write atmel demo (some fun _ => 0) (some fun _ => 0) 0x02 16
          (some fun i => i) none).tx = some frame
        ∧ ¬ (sha204m_write atmel demo (some fun _ => 0) (some fun _ => 0) 0x02 16
              (some fun i => i) none).returned_locally
        ∧ frame 3 + 256 * frame 4 = (16 >>> 2) &&& atmel.SHA204_ADDRESS_MASK
        ∧ frame 3 + 256 * frame 4 = (16 >>> 2) % 128
        ∧ (16 >>> 2 ≤ 0x7F → frame 3 + 256 * frame 4 = 16 >>> 2))) :=
  ⟨rfl, rfl, rfl, rfl, by decide, by decide, by decide, by decide,
   data_zone_address_serialized atmel demo (fun _ => 0) (fun _ => 0) (fun i => i) none 0x02 16
     rfl rfl rfl rfl (by decide) (by decide) (by decide) (by decide)⟩

/-! Addresses on the generic path -/

/-- C15 is false as stated. With the data-zone bit set in `param1 = 0x02` and
`param2 = 4`, whose value shifted right by 2 has its low bit set, the generic
validator accepts the Read and the Write request and `sha204m_execute` reaches
the transport, while `sha204m_read` refuses the address 4. -/
theorem generic_address_rule_counterexample :
    (0x02 &&& atmel.SHA204_ZONE_DATA) ≠ 0 ∧ (4 >>> 2) &&& 1 = 1
    ∧ sha204m_check_parameters atmel atmel.SHA204_READ 0x02 4 0 none 0 none 0 none
        64 (some fun _ => 0) 64 (some fun _ => 0) = atmel.SHA204_SUCCESS
    ∧ (∃ o frame rx body, sha204m_execute atmel demo atmel.SHA204_READ 0x02 4 0 none 0 none
          0 none 64 (some fun _ => 0) 64 (some fun _ => 0) = some o
        ∧ o.calls = [Call.calculate_crc 5 body 5, Call.send_and_receive frame 7 rx 0 4]
        ∧ frame 3 + 256 * frame 4 = 4)
    ∧ sha204m_check_parameters atmel atmel.SHA204_WRITE 0x02 4 4 (some fun i => i) 0 none
        0 none 64 (some fun _ => 0) 64 (some fun _ => 0) = atmel.SHA204_SUCCESS
    ∧ (∃ o frame rx body, sha204m_execute atmel demo atmel.SHA204_WRITE 0x02 4
          4 (some fun i => i) 0 none 0 none 64 (some fun _ => 0) 64 (some fun _ => 0) = some o
        ∧ o.calls = [Call.calculate_crc 9 body 9, Call.send_and_receive frame 4 rx 3 39]
        ∧ frame 3 + 256 * frame 4 = 4)
    ∧ sha204m_read atmel demo (some fun _ => 0) (some fun _ => 0) 0x02 4
        = bad_param atmel (some fun _ => 0) (some fun _ => 0) :=
  ⟨by decide, by decide, by decide, ⟨_, _, _, _, rfl, rfl, by decide⟩, by decide,
   ⟨_, _, _, _, rfl, rfl, by decide⟩, rfl⟩

/-- C15, amended. The generic validator applies no address rule (parameter
checking compiled in, distinct op-codes): a Read request meeting the general
preconditions is accepted exactly when `param1` passes the two zone checks, a
Write request exactly when `data1` is non-null and `param1` has no bit outside
`WRITE_ZONE_MASK`, for every `param2`. -/
theorem generic_read_write_any_address (H : Header) (param1 param2 : Nat)
    (datalen1 : Nat) (data1 : Ptr) (datalen2 : Nat) (data2 : Ptr)
    (datalen3 : Nat) (data3 : Ptr)
    (tx_size : Nat) (tx_buffer : Ptr) (rx_size : Nat) (rx_buffer : Ptr)
    (hcheck : H.SHA204_CHECK_PARAMETERS = true)
    (hcodes : H.SHA204_BAD_PARAM ≠ H.SHA204_SUCCESS)
    (hnd : (supported_opcodes H).Nodup)
    (hg : general_preconditions H datalen1 data1 datalen2 data2 datalen3 data3
      tx_size tx_buffer rx_size rx_buffer) :
    (sha204m_check_parameters H H.SHA204_READ param1 param2 datalen1 data1 datalen2 data2
        datalen3 data3 tx_size tx_buffer rx_size rx_buffer = H.SHA204_SUCCESS
      ↔ (param1 &&& cnot H.READ_ZONE_MASK) = 0
        ∧ ¬ ((param1 &&& H.READ_ZONE_MODE_32_BYTES) ≠ 0 ∧ param1 = H.SHA204_ZONE_OTP))
    ∧ (sha204m_check_parameters H H.SHA204_WRITE param1 param2 datalen1 data1 datalen2 data2
        datalen3 data3 tx_size tx_buffer rx_size rx_buffer = H.SHA204_SUCCESS
      ↔ data1 ≠ none ∧ (param1 &&& cnot H.WRITE_ZONE_MASK) = 0) := by
  rw [check_parameters_read H param1 param2 datalen1 data1 datalen2 data2
      datalen3 data3 tx_size tx_buffer rx_size rx_buffer hcheck hnd hg,
    check_parameters_write H param1 param2 datalen1 data1 datalen2 data2
      datalen3 data3 tx_size tx_buffer rx_size rx_buffer hcheck hnd hg]
  constructor
  · constructor
    · intro h
      split_ifs at h with hc
      · exact absurd h hcodes
      · simp only [not_or, ne_eq, not_not] at hc
        exact ⟨hc.1, hc.2⟩
    · rintro ⟨h1, h2⟩
      rw [if_neg]
      simp only [not_or, ne_eq, not_not]
      exact ⟨h1, h2⟩
  · constructor
    · intro h
      split_ifs at h with hc
      · exact absurd h hcodes
      · simp only [not_or, ne_eq, not_not, Option.isNone_iff_eq_none] at hc
        exact ⟨hc.1, hc.2⟩
    · rintro ⟨h1, h2⟩
      rw [if_neg]
      simp only [not_or, ne_eq, not_not, Option.isNone_iff_eq_none]
      exact ⟨h1, h2⟩

/-- Instance of the amended C15: Read and Write of the data zone with
`param2 = 4` are accepted. -/
theorem generic_read_write_any_address_witness :
    atmel.SHA204_CHECK_PARAMETERS = true ∧ atmel.SHA204_BAD_PARAM ≠ atmel.SHA204_SUCCESS
    ∧ (supported_opcodes atmel).Nodup
    ∧ general_preconditions atmel 4 (some fun i => i) 0 (some fun i => i) 0 (some fun i => i)
        64 (some fun _ => 0) 64 (some fun _ => 0)
    ∧ sha204m_check_parameters atmel atmel.SHA204_READ 0x02 4 4 (some fun i => i)
        0 (some fun i => i) 0 (some fun i => i) 64 (some fun _ => 0) 64 (some fun _ => 0)
        = atmel.SHA204_SUCCESS
    ∧ sha204m_check_parameters atmel atmel.SHA204_WRITE 0x02 4 4 (some fun i => i)
        0 (some fun i => i) 0 (some fun i => i) 64 (some fun _ => 0) 64 (some fun _ => 0)
        = atmel.SHA204_SUCCESS :=
  ⟨rfl, by decide, by decide, atmel_general 4 _ 0 _ 0 _ 64 _ _ 64 (by decide) (by decide),
   (generic_read_write_any_address atmel 0x02 4 4 (some fun i => i) 0 (some fun i => i) 0
      (some fun i => i) 64 (some fun _ => 0) 64 (some fun _ => 0) rfl (by decide) (by decide)
      (atmel_general 4 _ 0 _ 0 _ 64 _ _ 64 (by decide) (by decide))).1.mpr
      ⟨by decide, by decide⟩,
   (generic_read_write_any_address atmel 0x02 4 4 (some fun i => i) 0 (some fun i => i) 0
      (some fun i => i) 64 (some fun _ => 0) 64 (some fun _ => 0) rfl (by decide) (by decide)
      (atmel_general 4 _ 0 _ 0 _ 64 _ _ 64 (by decide) (by decide))).2.mpr
      ⟨by simp, by decide⟩⟩

/-! GenDig index range -/

/-- C16, evaluated on failing inputs. `sha204m_gen_dig` refuses key index 16
in the data zone and OTP block 2 in the OTP zone, but the generic validator
has no range check in its GenDig case: `sha204m_execute` accepts both requests
and transmits the index. -/
theorem gendig_generic_index_unchecked :
    atmel.SHA204_KEY_ID_MAX < 16 ∧ atmel.SHA204_OTP_BLOCK_MAX < 2
    ∧ sha204m_gen_dig atmel demo (some fun _ => 0) (some fun _ => 0) atmel.GENDIG_ZONE_DATA 16
        none = bad_param atmel (some fun _ => 0) (some fun _ => 0)
    ∧ sha204m_gen_dig atmel demo (some fun _ => 0) (some fun _ => 0) atmel.GENDIG_ZONE_OTP 2
        none = bad_param atmel (some fun _ => 0) (some fun _ => 0)
    ∧ sha204m_check_parameters atmel atmel.SHA204_GENDIG atmel.GENDIG_ZONE_DATA 16
        0 none 0 none 0 none 64 (some fun _ => 0) 64 (some fun _ => 0) = atmel.SHA204_SUCCESS
    ∧ (∃ o frame rx body, sha204m_execute atmel demo atmel.SHA204_GENDIG
          atmel.GENDIG_ZONE_DATA 16 0 none 0 none 0 none
          64 (some fun _ => 0) 64 (some fun _ => 0) = some o
        ∧ o.calls = [Call.calculate_crc 5 body 5, Call.send_and_receive frame 4 rx 10 33]
        ∧ frame 2 = atmel.GENDIG_ZONE_DATA ∧ frame 3 + 256 * frame 4 = 16)
    ∧ sha204m_check_parameters atmel atmel.SHA204_GENDIG atmel.GENDIG_ZONE_OTP 2
        0 none 0 none 0 none 64 (some fun _ => 0) 64 (some fun _ => 0) = atmel.SHA204_SUCCESS
    ∧ (∃ o frame rx body, sha204m_execute atmel demo atmel.SHA204_GENDIG
          atmel.GENDIG_ZONE_OTP 2 0 none 0 none 0 none
          64 (some fun _ => 0) 64 (some fun _ => 0) = some o
        ∧ o.calls = [Call.calculate_crc 5 body 5, Call.send_and_receive frame 4 rx 10 33]
        ∧ frame 2 = atmel.GENDIG_ZONE_OTP ∧ frame 3 + 256 * frame 4 = 2) :=
  ⟨by decide, by decide, rfl, rfl, by decide, ⟨_, _, _, _, rfl, rfl, by decide, by decide⟩,
   by decide, ⟨_, _, _, _, rfl, rfl, by decide, by decide⟩⟩

/-! Rows of the op-code switch that supplies delays and response size -/

theorem supply_checkmac (H : Header) (param1 rx_size : Nat)
    (_hnd : (supported_opcodes H).Nodup) :
    sha204m_execute_supply H H.SHA204_CHECKMAC param1 rx_size
      = (H.CHECKMAC_DELAY % 256, u8 (H.CHECKMAC_EXEC_MAX - H.CHECKMAC_DELAY),
        H.CHECKMAC_RSP_SIZE % 256) := by
  unfold sha204m_execute_supply
  rw [if_pos rfl]

theorem supply_derive_key (H : Header) (param1 rx_size : Nat)
    (hnd : (supported_opcodes H).Nodup) :
    sha204m_execute_supply H H.SHA204_DERIVE_KEY param1 rx_size
      = (H.DERIVE_KEY_DELAY % 256, u8 (H.DERIVE_KEY_EXEC_MAX - H.DERIVE_KEY_DELAY),
        H.DERIVE_KEY_RSP_SIZE % 256) := by
  have e0 : H.SHA204_DERIVE_KEY ≠ H.SHA204_CHECKMAC :=
    opcode_ne H hnd 1 0 (by decide) (by decide) (by decide)
  unfold sha204m_execute_supply
  rw [if_neg e0, if_pos rfl]

theorem supply_devrev (H : Header) (param1 rx_size : Nat)
    (hnd : (supported_opcodes H).Nodup) :
    sha204m_execute_supply H H.SHA204_DEVREV param1 rx_size
      = (H.DEVREV_DELAY % 256, u8 (H.DEVREV_EXEC_MAX - H.DEVREV_DELAY),
        H.DEVREV_RSP_SIZE % 256) := by
  have e0 : H.SHA204_DEVREV ≠ H.SHA204_CHECKMAC :=
    opcode_ne H hnd 2 0 (by decide) (by decide) (by decide)
  have e1 : H.SHA204_DEVREV ≠ H.SHA204_DERIVE_KEY :=
    opcode_ne H hnd 2 1 (by decide) (by decide) (by decide)
  unfold sha204m_execute_supply
  rw [if_neg e0, if_neg e1, if_pos rfl]

theorem supply_gendig (H : Header) (param1 rx_size : Nat)
    (hnd : (supported_opcodes H).Nodup) :
    sha204m_execute_supply H H.SHA204_GENDIG param1 rx_size
      = (H.GENDIG_DELAY % 256, u8 (H.GENDIG_EXEC_MAX - H.GENDIG_DELAY),
        H.GENDIG_RSP_SIZE % 256) := by
  have e0 : H.SHA204_GENDIG ≠ H.SHA204_CHECKMAC :=
    opcode_ne H hnd 3 0 (by decide) (by decide) (by decide)
  have e1 : H.SHA204_GENDIG ≠ H.SHA204_DERIVE_KEY :=
    opcode_ne H hnd 3 1 (by decide) (by decide) (by decide)
  have e2 : H.SHA204_GENDIG ≠ H.SHA204_DEVREV :=
    opcode_ne H hnd 3 2 (by decide) (by decide) (by decide)
  unfold sha204m_execute_supply
  rw [if_neg e0, if_neg e1, if_neg e2, if_pos rfl]

theorem supply_hmac (H : Header) (param1 rx_size : Nat)
    (hnd : (supported_opcodes H).Nodup) :
    sha204m_execute_supply H H.SHA204_HMAC param1 rx_size
      = (H.HMAC_DELAY % 256, u8 (H.HMAC_EXEC_MAX - H.HMAC_DELAY),
        H.HMAC_RSP_SIZE % 256) := by
  have e0 : H.SHA204_HMAC ≠ H.SHA204_CHECKMAC :=
    opcode_ne H hnd 4 0 (by decide) (by decide) (by decide)
  have e1 : H.SHA204_HMAC ≠ H.SHA204_DERIVE_KEY :=
    opcode_ne H hnd 4 1 (by decide) (by decide) (by decide)
  have e2 : H.SHA204_HMAC ≠ H.SHA204_DEVREV :=
    opcode_ne H hnd 4 2 (by decide) (by decide) (by decide)
  have e3 : H.SHA204_HMAC ≠ H.SHA204_GENDIG :=
    opcode_ne H hnd 4 3 (by decide) (by decide) (by decide)
  unfold sha204m_execute_supply
  rw [if_neg e0, if_neg e1, if_neg e2, if_neg e3, if_pos rfl]

theorem supply_lock (H : Header) (param1 rx_size : Nat)
    (hnd : (supported_opcodes H).Nodup) :
    sha204m_execute_supply H H.SHA204_LOCK param1 rx_size
      = (H.LOCK_DELAY % 256, u8 (H.LOCK_EXEC_MAX - H.LOCK_DELAY),
        H.LOCK_RSP_SIZE % 256) := by
  have e0 : H.SHA204_LOCK ≠ H.SHA204_CHECKMAC :=
    opcode_ne H hnd 5 0 (by decide) (by decide) (by decide)
  have e1 : H.SHA204_LOCK ≠ H.SHA204_DERIVE_KEY :=
    opcode_ne H hnd 5 1 (by decide) (by decide) (by decide)
  have e2 : H.SHA204_LOCK ≠ H.SHA204_DEVREV :=
    opcode_ne H hnd 5 2 (by decide) (by decide) (by decide)
  have e3 : H.SHA204_LOCK ≠ H.SHA204_GENDIG :=
    opcode_ne H hnd 5 3 (by decide) (by decide) (by decide)
  have e4 : H.SHA204_LOCK ≠ H.SHA204_HMAC :=
    opcode_ne H hnd 5 4 (by decide) (by decide) (by decide)
  unfold sha204m_execute_supply
  rw [if_neg e0, if_neg e1, if_neg e2, if_neg e3, if_neg e4, if_pos rfl]

theorem supply_mac (H : Header) (param1 rx_size : Nat)
    (hnd : (supported_opcodes H).Nodup) :
    sha204m_execute_supply H H.SHA204_MAC param1 rx_size
      = (H.MAC_DELAY % 256, u8 (H.MAC_EXEC_MAX - H.MAC_DELAY),
        H.MAC_RSP_SIZE % 256) := by
  have e0 : H.SHA204_MAC ≠ H.SHA204_CHECKMAC :=
    opcode_ne H hnd 6 0 (by decide) (by decide) (by decide)
  have e1 : H.SHA204_MAC ≠ H.SHA204_DERIVE_KEY :=
    opcode_ne H hnd 6 1 (by decide) (by decide) (by decide)
  have e2 : H.SHA204_MAC ≠ H.SHA204_DEVREV :=
    opcode_ne H hnd 6 2 (by decide) (by decide) (by decide)
  have e3 : H.SHA204_MAC ≠ H.SHA204_GENDIG :=
    opcode_ne H hnd 6 3 (by decide) (by decide) (by decide)
  have e4 : H.SHA204_MAC ≠ H.SHA204_HMAC :=
    opcode_ne H hnd 6 4 (by decide) (by decide) (by decide)
  have e5 : H.SHA204_MAC ≠ H.SHA204_LOCK :=
    opcode_ne H hnd 6 5 (by decide) (by decide) (by decide)
  unfold sha204m_execute_supply
  rw [if_neg e0, if_neg e1, if_neg e2, if_neg e3, if_neg e4, if_neg e5, if_pos rfl]

theorem supply_nonce (H : Header) (param1 rx_size : Nat)
    (hnd : (supported_opcodes H).Nodup) :
    sha204m_execute_supply H H.SHA204_NONCE param1 rx_size
      = (H.NONCE_DELAY % 256, u8 (H.NONCE_EXEC_MAX - H.NONCE_DELAY),
        (if param1 = H.NONCE_MODE_PASSTHROUGH then H.NONCE_RSP_SIZE_SHORT
          else H.NONCE_RSP_SIZE_LONG) % 256) := by
  have e0 : H.SHA204_NONCE ≠ H.SHA204_CHECKMAC :=
    opcode_ne H hnd 7 0 (by decide) (by decide) (by decide)
  have e1 : H.SHA204_NONCE ≠ H.SHA204_DERIVE_KEY :=
    opcode_ne H hnd 7 1 (by decide) (by decide) (by decide)
  have e2 : H.SHA204_NONCE ≠ H.SHA204_DEVREV :=
    opcode_ne H hnd 7 2 (by decide) (by decide) (by decide)
  have e3 : H.SHA204_NONCE ≠ H.SHA204_GENDIG :=
    opcode_ne H hnd 7 3 (by decide) (by decide) (by decide)
  have e4 : H.SHA204_NONCE ≠ H.SHA204_HMAC :=
    opcode_ne H hnd 7 4 (by decide) (by decide) (by decide)
  have e5 : H.SHA204_NONCE ≠ H.SHA204_LOCK :=
    opcode_ne H hnd 7 5 (by decide) (by decide) (by decide)
  have e6 : H.SHA204_NONCE ≠ H.SHA204_MAC :=
    opcode_ne H hnd 7 6 (by decide) (by decide) (by decide)
  unfold sha204m_execute_supply
  rw [if_neg e0, if_neg e1, if_neg e2, if_neg e3, if_neg e4, if_neg e5, if_neg e6, if_pos rfl]

theorem supply_pause (H : Header) (param1 rx_size : Nat)
    (hnd : (supported_opcodes H).Nodup) :
    sha204m_execute_supply H H.SHA204_PAUSE param1 rx_size
      = (H.PAUSE_DELAY % 256, u8 (H.PAUSE_EXEC_MAX - H.PAUSE_DELAY),
        H.PAUSE_RSP_SIZE % 256) := by
  have e0 : H.SHA204_PAUSE ≠ H.SHA204_CHECKMAC :=
    opcode_ne H hnd 8 0 (by decide) (by decide) (by decide)
  have e1 : H.SHA204_PAUSE ≠ H.SHA204_DERIVE_KEY :=
    opcode_ne H hnd 8 1 (by decide) (by decide) (by decide)
  have e2 : H.SHA204_PAUSE ≠ H.SHA204_DEVREV :=
    opcode_ne H hnd 8 2 (by decide) (by decide) (by decide)
  have e3 : H.SHA204_PAUSE ≠ H.SHA204_GENDIG :=
    opcode_ne H hnd 8 3 (by decide) (by decide) (by decide)
  have e4 : H.SHA204_PAUSE ≠ H.SHA204_HMAC :=
    opcode_ne H hnd 8 4 (by decide) (by decide) (by decide)
  have e5 : H.SHA204_PAUSE ≠ H.SHA204_LOCK :=
    opcode_ne H hnd 8 5 (by decide) (by decide) (by decide)
  have e6 : H.SHA204_PAUSE ≠ H.SHA204_MAC :=
    opcode_ne H hnd 8 6 (by decide) (by decide) (by decide)
  have e7 : H.SHA204_PAUSE ≠ H.SHA204_NONCE :=
    opcode_ne H hnd 8 7 (by decide) (by decide) (by decide)
  unfold sha204m_execute_supply
  rw [if_neg e0, if_neg e1, if_neg e2, if_neg e3, if_neg e4, if_neg e5, if_neg e6, if_neg e7, if_pos rfl]

theorem supply_random (H : Header) (param1 rx_size : Nat)
    (hnd : (supported_opcodes H).Nodup) :
    sha204m_execute_supply H H.SHA204_RANDOM param1 rx_size
      = (H.RANDOM_DELAY % 256, u8 (H.RANDOM_EXEC_MAX - H.RANDOM_DELAY),
        H.RANDOM_RSP_SIZE % 256) := by
  have e0 : H.SHA204_RANDOM ≠ H.SHA204_CHECKMAC :=
    opcode_ne H hnd 9 0 (by decide) (by decide) (by decide)
  have e1 : H.SHA204_RANDOM ≠ H.SHA204_DERIVE_KEY :=
    opcode_ne H hnd 9 1 (by decide) (by decide) (by decide)
  have e2 : H.SHA204_RANDOM ≠ H.SHA204_DEVREV :=
    opcode_ne H hnd 9 2 (by decide) (by decide) (by decide)
  have e3 : H.SHA204_RANDOM ≠ H.SHA204_GENDIG :=
    opcode_ne H hnd 9 3 (by decide) (by decide) (by decide)
  have e4 : H.SHA204_RANDOM ≠ H.SHA204_HMAC :=
    opcode_ne H hnd 9 4 (by decide) (by decide) (by decide)
  have e5 : H.SHA204_RANDOM ≠ H.SHA204_LOCK :=
    opcode_ne H hnd 9 5 (by decide) (by decide) (by decide)
  have e6 : H.SHA204_RANDOM ≠ H.SHA204_MAC :=
    opcode_ne H hnd 9 6 (by decide) (by decide) (by decide)
  have e7 : H.SHA204_RANDOM ≠ H.SHA204_NONCE :=
    opcode_ne H hnd 9 7 (by decide) (by decide) (by decide)
  have e8 : H.SHA204_RANDOM ≠ H.SHA204_PAUSE :=
    opcode_ne H hnd 9 8 (by decide) (by decide) (by decide)
  unfold sha204m_execute_supply
  rw [if_neg e0, if_neg e1, if_neg e2, if_neg e3, if_neg e4, if_neg e5, if_neg e6, if_neg e7, if_neg e8, if_pos rfl]

theorem supply_read (H : Header) (param1 rx_size : Nat)
    (hnd : (supported_opcodes H).Nodup) :
    sha204m_execute_supply H H.SHA204_READ param1 rx_size
      = (H.READ_DELAY % 256, u8 (H.READ_EXEC_MAX - H.READ_DELAY),
        (if (param1 &&& H.SHA204_ZONE_COUNT_FLAG) ≠ 0 then H.READ_32_RSP_SIZE
          else H.READ_4_RSP_SIZE) % 256) := by
  have e0 : H.SHA204_READ ≠ H.SHA204_CHECKMAC :=
    opcode_ne H hnd 10 0 (by decide) (by decide) (by decide)
  have e1 : H.SHA204_READ ≠ H.SHA204_DERIVE_KEY :=
    opcode_ne H hnd 10 1 (by decide) (by decide) (by decide)
  have e2 : H.SHA204_READ ≠ H.SHA204_DEVREV :=
    opcode_ne H hnd 10 2 (by decide) (by decide) (by decide)
  have e3 : H.SHA204_READ ≠ H.SHA204_GENDIG :=
    opcode_ne H hnd 10 3 (by decide) (by decide) (by decide)
  have e4 : H.SHA204_READ ≠ H.SHA204_HMAC :=
    opcode_ne H hnd 10 4 (by decide) (by decide) (by decide)
  have e5 : H.SHA204_READ ≠ H.SHA204_LOCK :=
    opcode_ne H hnd 10 5 (by decide) (by decide) (by decide)
  have e6 : H.SHA204_READ ≠ H.SHA204_MAC :=
    opcode_ne H hnd 10 6 (by decide) (by decide) (by decide)
  have e7 : H.SHA204_READ ≠ H.SHA204_NONCE :=
    opcode_ne H hnd 10 7 (by decide) (by decide) (by decide)
  have e8 : H.SHA204_READ ≠ H.SHA204_PAUSE :=
    opcode_ne H hnd 10 8 (by decide) (by decide) (by decide)
  have e9 : H.SHA204_READ ≠ H.SHA204_RANDOM :=
    opcode_ne H hnd 10 9 (by decide) (by decide) (by decide)
  unfold sha204m_execute_supply
  rw [if_neg e0, if_neg e1, if_neg e2, if_neg e3, if_neg e4, if_neg e5, if_neg e6, if_neg e7, if_neg e8, if_neg e9, if_pos rfl]

theorem supply_tempsense (H : Header) (param1 rx_size : Nat)
    (hnd : (supported_opcodes H).Nodup) :
    sha204m_execute_supply H H.SHA204_TEMPSENSE param1 rx_size
      = (H.TEMP_SENSE_DELAY % 256, u8 (H.TEMP_SENSE_EXEC_MAX - H.TEMP_SENSE_DELAY),
        H.TEMP_SENSE_RSP_SIZE % 256) := by
  have e0 : H.SHA204_TEMPSENSE ≠ H.SHA204_CHECKMAC :=
    opcode_ne H hnd 11 0 (by decide) (by decide) (by decide)
  have e1 : H.SHA204_TEMPSENSE ≠ H.SHA204_DERIVE_KEY :=
    opcode_ne H hnd 11 1 (by decide) (by decide) (by decide)
  have e2 : H.SHA204_TEMPSENSE ≠ H.SHA204_DEVREV :=
    opcode_ne H hnd 11 2 (by decide) (by decide) (by decide)
  have e3 : H.SHA204_TEMPSENSE ≠ H.SHA204_GENDIG :=
    opcode_ne H hnd 11 3 (by decide) (by decide) (by decide)
  have e4 : H.SHA204_TEMPSENSE ≠ H.SHA204_HMAC :=
    opcode_ne H hnd 11 4 (by decide) (by decide) (by decide)
  have e5 : H.SHA204_TEMPSENSE ≠ H.SHA204_LOCK :=
    opcode_ne H hnd 11 5 (by decide) (by decide) (by decide)
  have e6 : H.SHA204_TEMPSENSE ≠ H.SHA204_MAC :=
    opcode_ne H hnd 11 6 (by decide) (by decide) (by decide)
  have e7 : H.SHA204_TEMPSENSE ≠ H.SHA204_NONCE :=
    opcode_ne H hnd 11 7 (by decide) (by decide) (by decide)
  have e8 : H.SHA204_TEMPSENSE ≠ H.SHA204_PAUSE :=
    opcode_ne H hnd 11 8 (by decide) (by decide) (by decide)
  have e9 : H.SHA204_TEMPSENSE ≠ H.SHA204_RANDOM :=
    opcode_ne H hnd 11 9 (by decide) (by decide) (by decide)
  have e10 : H.SHA204_TEMPSENSE ≠ H.SHA204_READ :=
    opcode_ne H hnd 11 10 (by decide) (by decide) (by decide)
  unfold sha204m_execute_supply
  rw [if_neg e0, if_neg e1, if_neg e2, if_neg e3, if_neg e4, if_neg e5, if_neg e6, if_neg e7, if_neg e8, if_neg e9, if_neg e10, if_pos rfl]

theorem supply_update_extra (H : Header) (param1 rx_size : Nat)
    (hnd : (supported_opcodes H).Nodup) :
    sha204m_execute_supply H H.SHA204_UPDATE_EXTRA param1 rx_size
      = (H.UPDATE_DELAY % 256, u8 (H.UPDATE_EXEC_MAX - H.UPDATE_DELAY),
        H.UPDATE_RSP_SIZE % 256) := by
  have e0 : H.SHA204_UPDATE_EXTRA ≠ H.SHA204_CHECKMAC :=
    opcode_ne H hnd 12 0 (by decide) (by decide) (by decide)
  have e1 : H.SHA204_UPDATE_EXTRA ≠ H.SHA204_DERIVE_KEY :=
    opcode_ne H hnd 12 1 (by decide) (by decide) (by decide)
  have e2 : H.SHA204_UPDATE_EXTRA ≠ H.SHA204_DEVREV :=
    opcode_ne H hnd 12 2 (by decide) (by decide) (by decide)
  have e3 : H.SHA204_UPDATE_EXTRA ≠ H.SHA204_GENDIG :=
    opcode_ne H hnd 12 3 (by decide) (by decide) (by decide)
  have e4 : H.SHA204_UPDATE_EXTRA ≠ H.SHA204_HMAC :=
    opcode_ne H hnd 12 4 (by decide) (by decide) (by decide)
  have e5 : H.SHA204_UPDATE_EXTRA ≠ H.SHA204_LOCK :=
    opcode_ne H hnd 12 5 (by decide) (by decide) (by decide)
  have e6 : H.SHA204_UPDATE_EXTRA ≠ H.SHA204_MAC :=
    opcode_ne H hnd 12 6 (by decide) (by decide) (by decide)
  have e7 : H.SHA204_UPDATE_EXTRA ≠ H.SHA204_NONCE :=
    opcode_ne H hnd 12 7 (by decide) (by decide) (by decide)
  have e8 : H.SHA204_UPDATE_EXTRA ≠ H.SHA204_PAUSE :=
    opcode_ne H hnd 12 8 (by decide) (by decide) (by decide)
  have e9 : H.SHA204_UPDATE_EXTRA ≠ H.SHA204_RANDOM :=
    opcode_ne H hnd 12 9 (by decide) (by decide) (by decide)
  have e10 : H.SHA204_UPDATE_EXTRA ≠ H.SHA204_READ :=
    opcode_ne H hnd 12 10 (by decide) (by decide) (by decide)
  have e11 : H.SHA204_UPDATE_EXTRA ≠ H.SHA204_TEMPSENSE :=
    opcode_ne H hnd 12 11 (by decide) (by decide) (by decide)
  unfold sha204m_execute_supply
  rw [if_neg e0, if_neg e1, if_neg e2, if_neg e3, if_neg e4, if_neg e5, if_neg e6, if_neg e7, if_neg e8, if_neg e9, if_neg e10, if_neg e11, if_pos rfl]

theorem supply_write (H : Header) (param1 rx_size : Nat)
    (hnd : (supported_opcodes H).Nodup) :
    sha204m_execute_supply H H.SHA204_WRITE param1 rx_size
      = (H.WRITE_DELAY % 256, u8 (H.WRITE_EXEC_MAX - H.WRITE_DELAY),
        H.WRITE_RSP_SIZE % 256) := by
  have e0 : H.SHA204_WRITE ≠ H.SHA204_CHECKMAC :=
    opcode_ne H hnd 13 0 (by decide) (by decide) (by decide)
  have e1 : H.SHA204_WRITE ≠ H.SHA204_DERIVE_KEY :=
    opcode_ne H hnd 13 1 (by decide) (by decide) (by decide)
  have e2 : H.SHA204_WRITE ≠ H.SHA204_DEVREV :=
    opcode_ne H hnd 13 2 (by decide) (by decide) (by decide)
  have e3 : H.SHA204_WRITE ≠ H.SHA204_GENDIG :=
    opcode_ne H hnd 13 3 (by decide) (by decide) (by decide)
  have e4 : H.SHA204_WRITE ≠ H.SHA204_HMAC :=
    opcode_ne H hnd 13 4 (by decide) (by decide) (by decide)
  have e5 : H.SHA204_WRITE ≠ H.SHA204_LOCK :=
    opcode_ne H hnd 13 5 (by decide) (by decide) (by decide)
  have e6 : H.SHA204_WRITE ≠ H.SHA204_MAC :=
    opcode_ne H hnd 13 6 (by decide) (by decide) (by decide)
  have e7 : H.SHA204_WRITE ≠ H.SHA204_NONCE :=
    opcode_ne H hnd 13 7 (by decide) (by decide) (by decide)
  have e8 : H.SHA204_WRITE ≠ H.SHA204_PAUSE :=
    opcode_ne H hnd 13 8 (by decide) (by decide) (by decide)
  have e9 : H.SHA204_WRITE ≠ H.SHA204_RANDOM :=
    opcode_ne H hnd 13 9 (by decide) (by decide) (by decide)
  have e10 : H.SHA204_WRITE ≠ H.SHA204_READ :=
    opcode_ne H hnd 13 10 (by decide) (by decide) (by decide)
  have e11 : H.SHA204_WRITE ≠ H.SHA204_TEMPSENSE :=
    opcode_ne H hnd 13 11 (by decide) (by decide) (by decide)
  have e12 : H.SHA204_WRITE ≠ H.SHA204_UPDATE_EXTRA :=
    opcode_ne H hnd 13 12 (by decide) (by decide) (by decide)
  unfold sha204m_execute_supply
  rw [if_neg e0, if_neg e1, if_neg e2, if_neg e3, if_neg e4, if_neg e5, if_neg e6, if_neg e7, if_neg e8, if_neg e9, if_neg e10, if_neg e11, if_neg e12, if_pos rfl]

/-! Nonce -/

theorem u8_mod (x : Int) : u8 x % 256 = u8 x := Nat.mod_eq_of_lt (u8_lt x)

/-- C17. Nonce (parameter checking compiled in, distinct op-codes, the input
block at offset 5, the count byte at offset 0, sizes and counts fitting a
byte). A request is accepted, by the generic validator (given the general
preconditions) and by `sha204m_nonce` (given non-null buffers), if and only if
the input pointer is non-null, the mode is at most `NONCE_MODE_PASSTHROUGH` and
is not `NONCE_MODE_INVALID`. For the pass-through mode `sha204m_nonce` asks the
transport for `NONCE_RSP_SIZE_SHORT` bytes, copies `NONCE_NUMIN_SIZE_PASSTHROUGH`
input bytes to offset 5 and writes the count `NONCE_COUNT_LONG`; for every
other accepted mode it asks for `NONCE_RSP_SIZE_LONG` bytes, copies
`NONCE_NUMIN_SIZE` bytes and writes `NONCE_COUNT_SHORT`. `sha204m_execute` asks
for the same response size for the same mode. -/
theorem nonce_mode_sizes (H : Header) (E : Collaborators) (mode param2 : Nat)
    (datalen1 : Nat) (data1 : Ptr) (datalen2 : Nat) (data2 : Ptr)
    (datalen3 : Nat) (data3 : Ptr)
    (tx_size : Nat) (tx_buffer : Ptr) (rx_size : Nat) (rx_buffer : Ptr)
    (tx rx : Mem) (numin : Ptr)
    (hcheck : H.SHA204_CHECK_PARAMETERS = true)
    (hcodes : H.SHA204_BAD_PARAM ≠ H.SHA204_SUCCESS)
    (hnd : (supported_opcodes H).Nodup)
    (hcount : H.SHA204_COUNT_IDX = 0) (hinput : H.NONCE_INPUT_IDX = 5)
    (hshort : H.NONCE_RSP_SIZE_SHORT < 256) (hlong : H.NONCE_RSP_SIZE_LONG < 256)
    (hcs : H.NONCE_COUNT_SHORT < 256) (hcl : H.NONCE_COUNT_LONG < 256)
    (hg : general_preconditions H datalen1 data1 datalen2 data2 datalen3 data3
      tx_size tx_buffer rx_size rx_buffer) :
    -- acceptance
    (sha204m_check_parameters H H.SHA204_NONCE mode param2 datalen1 data1 datalen2 data2
        datalen3 data3 tx_size tx_buffer rx_size rx_buffer = H.SHA204_SUCCESS
      ↔ data1 ≠ none ∧ mode ≤ H.NONCE_MODE_PASSTHROUGH ∧ mode ≠ H.NONCE_MODE_INVALID)
    ∧ (¬ (sha204m_nonce H E (some tx) (some rx) mode numin).returned_locally
      ↔ numin ≠ none ∧ mode ≤ H.NONCE_MODE_PASSTHROUGH ∧ mode ≠ H.NONCE_MODE_INVALID)
    -- sizes chosen by sha204m_nonce
    ∧ (∀ input, numin = some input → mode ≤ H.NONCE_MODE_PASSTHROUGH →
        mode ≠ H.NONCE_MODE_INVALID →
        ∃ frame,
          (sha204m_nonce H E (some tx) (some rx) mode numin).calls
            = [Call.send_and_receive frame
                (if mode = H.NONCE_MODE_PASSTHROUGH then H.NONCE_RSP_SIZE_SHORT
                  else H.NONCE_RSP_SIZE_LONG) rx
                (H.NONCE_DELAY % 256) (u8 (H.NONCE_EXEC_MAX - H.NONCE_DELAY))]
          ∧ frame 0 = (if mode = H.NONCE_MODE_PASSTHROUGH then H.NONCE_COUNT_LONG
              else H.NONCE_COUNT_SHORT)
          ∧ ∀ i, i < (if mode = H.NONCE_MODE_PASSTHROUGH then H.NONCE_NUMIN_SIZE_PASSTHROUGH
              else H.NONCE_NUMIN_SIZE) → frame (5 + i) = input i)
    -- response size chosen by sha204m_execute
    ∧ (sha204m_check_parameters H H.SHA204_NONCE mode param2 datalen1 data1 datalen2 data2
        datalen3 data3 tx_size tx_buffer rx_size rx_buffer = H.SHA204_SUCCESS →
        ∃ o frame crc_call rx0,
          sha204m_execute H E H.SHA204_NONCE mode param2 datalen1 data1 datalen2 data2
            datalen3 data3 tx_size tx_buffer rx_size rx_buffer = some o
          ∧ o.calls = [crc_call, Call.send_and_receive frame
                (if mode = H.NONCE_MODE_PASSTHROUGH then H.NONCE_RSP_SIZE_SHORT
                  else H.NONCE_RSP_SIZE_LONG) rx0
                (H.NONCE_DELAY % 256) (u8 (H.NONCE_EXEC_MAX - H.NONCE_DELAY))]) := by
  have hsize : (if mode = H.NONCE_MODE_PASSTHROUGH then H.NONCE_RSP_SIZE_SHORT
      else H.NONCE_RSP_SIZE_LONG) % 256
      = if mode = H.NONCE_MODE_PASSTHROUGH then H.NONCE_RSP_SIZE_SHORT
        else H.NONCE_RSP_SIZE_LONG := by
    split_ifs
    · exact Nat.mod_eq_of_lt hshort
    · exact Nat.mod_eq_of_lt hlong
  refine ⟨?_, ?_, ?_, ?_⟩
  · rw [check_parameters_nonce H mode param2 datalen1 data1 datalen2 data2
      datalen3 data3 tx_size tx_buffer rx_size rx_buffer hcheck hnd hg]
    constructor
    · intro h
      split_ifs at h with hc
      · exact absurd h hcodes
      · simp only [not_or, not_lt, gt_iff_lt, Option.isNone_iff_eq_none] at hc
        exact hc
    · intro h
      rw [if_neg]
      simp only [not_or, not_lt, gt_iff_lt, Option.isNone_iff_eq_none]
      exact h
  · unfold sha204m_nonce
    cases numin with
    | none =>
      simp only [ne_eq, not_true_eq_false, false_and, iff_false, not_not]
      intro c hc
      simp [bad_param] at hc
    | some input =>
      simp only
      by_cases hc : mode > H.NONCE_MODE_PASSTHROUGH ∨ mode = H.NONCE_MODE_INVALID
      · rw [if_pos hc]
        constructor
        · intro h
          exfalso
          apply h
          intro c hcm
          simp [bad_param] at hcm
        · rintro ⟨_, h1, h2⟩
          rcases hc with hc | hc
          · omega
          · exact absurd hc h2
      · rw [if_neg hc]
        simp only [not_or, not_lt, gt_iff_lt] at hc
        constructor
        · intro _
          exact ⟨by simp, hc.1, hc.2⟩
        · intro _
          split_ifs <;> exact send_and_receive_not_local _ _ _ _ _ _ _
  · intro input hin h1 h2
    subst hin
    unfold sha204m_nonce
    simp only
    rw [if_neg (by simp only [not_or, not_lt, gt_iff_lt]; exact ⟨h1, h2⟩)]
    by_cases hp : mode = H.NONCE_MODE_PASSTHROUGH
    · rw [if_neg (not_not.mpr hp)]
      simp only [if_pos hp]
      refine ⟨store (memcpy (store (store (store (store tx H.SHA204_OPCODE_IDX H.SHA204_NONCE) H.NONCE_MODE_IDX mode)
          (H.NONCE_PARAM2_IDX + 1) 0) H.NONCE_PARAM2_IDX 0)
          H.NONCE_INPUT_IDX input H.NONCE_NUMIN_SIZE_PASSTHROUGH)
          H.SHA204_COUNT_IDX H.NONCE_COUNT_LONG, ?_, ?_, ?_⟩
      · simp only [sha204c_send_and_receive, List.nil_append, Nat.mod_eq_of_lt hshort, u8_mod]
      · rw [store_apply, hcount, if_pos rfl, Nat.mod_eq_of_lt hcl]
      · intro i hi
        rw [store_apply, hcount, if_neg (by omega), hinput,
          memcpy_apply_in _ _ _ _ _ (by omega) (by omega)]
        congr 1
        omega
    · rw [if_pos hp]
      simp only [if_neg hp]
      refine ⟨store (memcpy (store (store (store (store tx H.SHA204_OPCODE_IDX H.SHA204_NONCE) H.NONCE_MODE_IDX mode)
          (H.NONCE_PARAM2_IDX + 1) 0) H.NONCE_PARAM2_IDX 0)
          H.NONCE_INPUT_IDX input H.NONCE_NUMIN_SIZE)
          H.SHA204_COUNT_IDX H.NONCE_COUNT_SHORT, ?_, ?_, ?_⟩
      · simp only [sha204c_send_and_receive, List.nil_append, Nat.mod_eq_of_lt hlong, u8_mod]
      · rw [store_apply, hcount, if_pos rfl, Nat.mod_eq_of_lt hcs]
      · intro i hi
        rw [store_apply, hcount, if_neg (by omega), hinput,
          memcpy_apply_in _ _ _ _ _ (by omega) (by omega)]
        congr 1
        omega
  · intro hacc
    obtain ⟨tx0, rx0, body, _, _, _, he⟩ := execute_closed H E H.SHA204_NONCE mode param2
      datalen1 data1 datalen2 data2 datalen3 data3 tx_size tx_buffer rx_size rx_buffer
      hcheck hcodes hacc
    rw [supply_nonce H mode rx_size hnd] at he
    refine ⟨_, sha204c_calculate_crc E
        (u8 (((datalen1 + datalen2 + datalen3 + H.SHA204_CMD_SIZE_MIN) % 256 : Nat)
          - H.SHA204_CRC_SIZE))
        body (5 + datalen1 + (if datalen2 > 0 then datalen1 else 0) + datalen3),
      Call.calculate_crc
        (u8 (((datalen1 + datalen2 + datalen3 + H.SHA204_CMD_SIZE_MIN) % 256 : Nat)
          - H.SHA204_CRC_SIZE))
        body (5 + datalen1 + (if datalen2 > 0 then datalen1 else 0) + datalen3),
      rx0, he, ?_⟩
    simp only [sha204c_send_and_receive, List.singleton_append, Nat.mod_mod, hsize, u8_mod]


/-- Instance of C17: the pass-through mode 3 on the published header. -/
theorem nonce_mode_sizes_witness :
    atmel.SHA204_CHECK_PARAMETERS = true ∧ atmel.SHA204_BAD_PARAM ≠ atmel.SHA204_SUCCESS
    ∧ (supported_opcodes atmel).Nodup
    ∧ atmel.SHA204_COUNT_IDX = 0 ∧ atmel.NONCE_INPUT_IDX = 5
    ∧ atmel.NONCE_RSP_SIZE_SHORT < 256 ∧ atmel.NONCE_RSP_SIZE_LONG < 256
    ∧ atmel.NONCE_COUNT_SHORT < 256 ∧ atmel.NONCE_COUNT_LONG < 256
    ∧ general_preconditions atmel 32 (some fun i => i) 0 (some fun i => i) 0 (some fun i => i)
        64 (some fun _ => 0) 64 (some fun _ => 0)
    ∧ (
    (sha204m_check_parameters atmel atmel.SHA204_NONCE 3 0 32 (some fun i => i) 0 (some fun i => i)
        0 (some fun i => i) 64 (some fun _ => 0) 64 (some fun _ => 0) = atmel.SHA204_SUCCESS
      ↔ (some fun i => i : Ptr) ≠ none ∧ 3 ≤ atmel.NONCE_MODE_PASSTHROUGH ∧ 3 ≠ atmel.NONCE_MODE_INVALID)
    ∧ (¬ (sha204m_nonce atmel demo (some fun _ => 0) (some fun _ => 0) 3 (some fun i => i)).returned_locally
      ↔ (some fun i => i : Ptr) ≠ none ∧ 3 ≤ atmel.NONCE_MODE_PASSTHROUGH ∧ 3 ≠ atmel.NONCE_MODE_INVALID)
    ∧ (∀ input, (some fun i => i : Ptr) = some input → 3 ≤ atmel.NONCE_MODE_PASSTHROUGH →
        3 ≠ atmel.NONCE_MODE_INVALID →
        ∃ frame,
          (sha204m_nonce atmel demo (some fun _ => 0) (some fun _ => 0) 3 (some fun i => i)).calls
            = [Call.send_and_receive frame
                (if 3 = atmel.NONCE_MODE_PASSTHROUGH then atmel.NONCE_RSP_SIZE_SHORT
                  else atmel.NONCE_RSP_SIZE_LONG) (fun _ => 0)
                (atmel.NONCE_DELAY % 256) (u8 (atmel.NONCE_EXEC_MAX - atmel.NONCE_DELAY))]
          ∧ frame 0 = (if 3 = atmel.NONCE_MODE_PASSTHROUGH then atmel.NONCE_COUNT_LONG
              else atmel.NONCE_COUNT_SHORT)
          ∧ ∀ i, i < (if 3 = atmel.NONCE_MODE_PASSTHROUGH then atmel.NONCE_NUMIN_SIZE_PASSTHROUGH
              else atmel.NONCE_NUMIN_SIZE) → frame (5 + i) = input i)
    ∧ (sha204m_check_parameters atmel atmel.SHA204_NONCE 3 0 32 (some fun i => i) 0 (some fun i => i)
        0 (some fun i => i) 64 (some fun _ => 0) 64 (some fun _ => 0) = atmel.SHA204_SUCCESS →
        ∃ o frame crc_call rx0,
          sha204m_execute atmel demo atmel.SHA204_NONCE 3 0 32 (some fun i => i) 0 (some fun i => i)
            0 (some fun i => i) 64 (some fun _ => 0) 64 (some fun _ => 0) = some o
          ∧ o.calls = [crc_call, Call.send_and_receive frame
                (if 3 = atmel.NONCE_MODE_PASSTHROUGH then atmel.NONCE_RSP_SIZE_SHORT
                  else atmel.NONCE_RSP_SIZE_LONG) rx0
                (atmel.NONCE_DELAY % 256) (u8 (atmel.NONCE_EXEC_MAX - atmel.NONCE_DELAY))])) :=
  ⟨rfl, by decide, by decide, rfl, rfl, by decide, by decide, by decide, by decide,
   atmel_general 32 _ 0 _ 0 _ 64 _ _ 64 (by decide) (by decide),
   nonce_mode_sizes atmel demo 3 0 32 (some fun i => i) 0 (some fun i => i) 0
     (some fun i => i) 64 (some fun _ => 0) 64 (some fun _ => 0) (fun _ => 0) (fun _ => 0)
     (some fun i => i) rfl (by decide) (by decide) rfl rfl (by decide) (by decide)
     (by decide) (by decide) (atmel_general 32 _ 0 _ 0 _ 64 _ _ 64 (by decide) (by decide))⟩

/-! Temperature decode -/

/-- C18. Whenever `sha204m_temp_sense` (non-null pointers, payload at offset
`SHA204_BUFFER_POS_DATA = 1`) comes back with the success status, which is the
status of its single transport call, the value stored behind `temp_raw` is
`(temp_high - temp_low) mod 2^16` with `temp_high = 256 * rx[1] + rx[2]` and
`temp_low = 256 * rx[3] + rx[4]` read from the response the transport left;
`temp_high = 0x1234` and `temp_low = 0x0010` give `0x1224`. -/
theorem temp_sense_decode (H : Header) (E : Collaborators) (tx rx resp : Mem) (raw : Nat)
    (hpos : H.SHA204_BUFFER_POS_DATA = 1)
    (hret : (sha204m_temp_sense H E (some tx) (some rx) (some raw)).1.ret = H.SHA204_SUCCESS)
    (hrx : (sha204m_temp_sense H E (some tx) (some rx) (some raw)).1.rx = some resp)
    (hbytes : ∀ j, j < 5 → resp j < 256) :
    (∃ frame n d t,
      (sha204m_temp_sense H E (some tx) (some rx) (some raw)).1.calls
        = [Call.send_and_receive frame n rx d t]
      ∧ E.transport frame n rx d t = (H.SHA204_SUCCESS, resp))
    ∧ (sha204m_temp_sense H E (some tx) (some rx) (some raw)).2
        = some ((256 * resp 1 + resp 2 + 65536 - (256 * resp 3 + resp 4)) % 65536)
    ∧ (resp 1 = 0x12 → resp 2 = 0x34 → resp 3 = 0x00 → resp 4 = 0x10 →
        (sha204m_temp_sense H E (some tx) (some rx) (some raw)).2 = some 0x1224) := by
  have hval : (sha204m_temp_sense H E (some tx) (some rx) (some raw)).2
      = some ((256 * resp 1 + resp 2 + 65536 - (256 * resp 3 + resp 4)) % 65536) := by
    unfold sha204m_temp_sense at hret hrx ⊢
    simp only at hret hrx ⊢
    split_ifs at hret hrx ⊢ with hc
    · exact absurd hret hc
    · simp only [sha204c_send_and_receive, Option.some.injEq] at hrx
      simp only [sha204c_send_and_receive, Option.getD_some, hrx, hpos, Option.some.injEq,
        Nat.shiftLeft_eq]
      have h1 := hbytes 1 (by decide)
      have h2 := hbytes 2 (by decide)
      have h3 := hbytes 3 (by decide)
      have h4 := hbytes 4 (by decide)
      norm_num
      omega
  refine ⟨?_, hval, ?_⟩
  · unfold sha204m_temp_sense at hret hrx ⊢
    simp only at hret hrx ⊢
    split_ifs at hret hrx ⊢ with hc
    · exact absurd hret hc
    · simp only [sha204c_send_and_receive, Option.some.injEq] at hrx hret
      refine ⟨_, _, _, _, rfl, ?_⟩
      exact Prod.ext hret hrx
  · intro h1 h2 h3 h4
    rw [hval, h1, h2, h3, h4]

/-- Instance of C18: the response `07 12 34 00 10` decodes to `0x1224`. -/
theorem temp_sense_decode_witness :
    atmel.SHA204_BUFFER_POS_DATA = 1
    ∧ (sha204m_temp_sense atmel thermo (some fun _ => 0) (some fun _ => 0) (some 0)).1.ret
        = atmel.SHA204_SUCCESS
    ∧ (sha204m_temp_sense atmel thermo (some fun _ => 0) (some fun _ => 0) (some 0)).1.rx
        = some (store (store (store (store (store (fun _ => 0) 0 7) 1 0x12) 2 0x34) 3 0x00)
            4 0x10)
    ∧ (∀ j, j < 5 →
        store (store (store (store (store (fun _ => 0) 0 7) 1 0x12) 2 0x34) 3 0x00) 4 0x10 j
          < 256)
    ∧ (sha204m_temp_sense atmel thermo (some fun _ => 0) (some fun _ => 0) (some 0)).2
        = some 0x1224 :=
  ⟨rfl, rfl, rfl, fun j hj => by interval_cases j <;> decide,
   (temp_sense_decode atmel thermo (fun _ => 0) (fun _ => 0)
      (store (store (store (store (store (fun _ => 0) 0 7) 1 0x12) 2 0x34) 3 0x00) 4 0x10) 0
      rfl rfl rfl (fun j hj => by interval_cases j <;> decide)).2.2
      (by decide) (by decide) (by decide) (by decide)⟩

/-! Determinism of the assembly -/

/-- C19, evaluated on a failing input. Two runs of `sha204m_execute` on the
same accepted request, a `Write` of a 4 byte value with a 32 byte MAC, from
transmit buffers filled with `0x00` and with `0xEE`: both frames have the
length byte 43 and agree on the 41 bytes the checksum covers, but offsets 41
and 42, inside the frame, keep the prior contents of each buffer, because the
checksum has been written at offsets 13 and 14. -/
theorem execute_frame_depends_on_prior_contents :
    ∃ o1 o2 frame1 frame2,
      sha204m_execute atmel demo atmel.SHA204_WRITE 0x42 0x0008
        4 (some fun i => 0x11 + i) 32 (some fun i => 0x40 + i) 0 none
        64 (some fun _ => 0x00) 4 (some fun _ => 0) = some o1
      ∧ sha204m_execute atmel demo atmel.SHA204_WRITE 0x42 0x0008
        4 (some fun i => 0x11 + i) 32 (some fun i => 0x40 + i) 0 none
        64 (some fun _ => 0xEE) 4 (some fun _ => 0) = some o2
      ∧ o1.tx = some frame1 ∧ o2.tx = some frame2
      ∧ frame1 0 = 43 ∧ frame2 0 = 43
      ∧ bytes frame1 41 = bytes frame2 41
      ∧ frame1 41 = 0x00 ∧ frame2 41 = 0xEE
      ∧ frame1 42 = 0x00 ∧ frame2 42 = 0xEE
      ∧ bytes frame1 43 ≠ bytes frame2 43 :=
  ⟨_, _, _, _, rfl, rfl, rfl, rfl, by decide, by decide, by decide, by decide, by decide,
   by decide, by decide, by decide⟩

/-! Metadata handed to the transport -/

theorem bad_param_local (H : Header) (tx_buffer rx_buffer : Ptr) :
    (bad_param H tx_buffer rx_buffer).returned_locally := by
  intro c hc
  simp [bad_param] at hc

theorem send_metadata (E : Collaborators) (tx : Mem) (n : Nat) (rx : Mem) (d t : Nat) :
    (sha204c_send_and_receive E [] tx n rx d t).metadata = [(n % 256, d % 256, t % 256)] := by
  simp [Outcome.metadata, sha204c_send_and_receive, Call.metadata]

theorem check_mac_row (H : Header) (E : Collaborators) (tx_buffer rx_buffer : Ptr) (a b : Nat) (p q r : Ptr)
    (hnd : (supported_opcodes H).Nodup) :
    uses_row H H.SHA204_CHECKMAC a (sha204m_check_mac H E tx_buffer rx_buffer a b p q r) := by
  unfold sha204m_check_mac
  split
  · simp only
    repeat first
      | exact fun h => absurd (bad_param_local H _ _) h
      | exact fun _ rx_size => by
          rw [send_metadata, supply_checkmac H _ rx_size hnd]
          simp only [Nat.mod_mod, u8_mod]
      | refine ite_pred (fun o => uses_row H H.SHA204_CHECKMAC a o) _ _ _ ?_ ?_
  · exact fun h => absurd (bad_param_local H _ _) h

theorem derive_key_row (H : Header) (E : Collaborators) (tx_buffer rx_buffer : Ptr) (a b : Nat) (p : Ptr)
    (hnd : (supported_opcodes H).Nodup) :
    uses_row H H.SHA204_DERIVE_KEY a (sha204m_derive_key H E tx_buffer rx_buffer a b p) := by
  unfold sha204m_derive_key
  split
  · simp only
    repeat first
      | exact fun h => absurd (bad_param_local H _ _) h
      | exact fun _ rx_size => by
          rw [send_metadata, supply_derive_key H _ rx_size hnd]
          simp only [Nat.mod_mod, u8_mod]
      | refine ite_pred (fun o => uses_row H H.SHA204_DERIVE_KEY a o) _ _ _ ?_ ?_
  · exact fun h => absurd (bad_param_local H _ _) h

theorem dev_rev_row (H : Header) (E : Collaborators) (tx_buffer rx_buffer : Ptr) 
    (hnd : (supported_opcodes H).Nodup) :
    uses_row H H.SHA204_DEVREV 0 (sha204m_dev_rev H E tx_buffer rx_buffer ) := by
  unfold sha204m_dev_rev
  split
  · simp only
    repeat first
      | exact fun h => absurd (bad_param_local H _ _) h
      | exact fun _ rx_size => by
          rw [send_metadata, supply_devrev H _ rx_size hnd]
          simp only [Nat.mod_mod, u8_mod]
      | refine ite_pred (fun o => uses_row H H.SHA204_DEVREV 0 o) _ _ _ ?_ ?_
  · exact fun h => absurd (bad_param_local H _ _) h

theorem gen_dig_row (H : Header) (E : Collaborators) (tx_buffer rx_buffer : Ptr) (a b : Nat) (p : Ptr)
    (hnd : (supported_opcodes H).Nodup) :
    uses_row H H.SHA204_GENDIG a (sha204m_gen_dig H E tx_buffer rx_buffer a b p) := by
  unfold sha204m_gen_dig
  split
  · simp only
    repeat first
      | exact fun h => absurd (bad_param_local H _ _) h
      | exact fun _ rx_size => by
          rw [send_metadata, supply_gendig H _ rx_size hnd]
          simp only [Nat.mod_mod, u8_mod]
      | refine ite_pred (fun o => uses_row H H.SHA204_GENDIG a o) _ _ _ ?_ ?_
  · exact fun h => absurd (bad_param_local H _ _) h

theorem hmac_row (H : Header) (E : Collaborators) (tx_buffer rx_buffer : Ptr) (a b : Nat)
    (hnd : (supported_opcodes H).Nodup) :
    uses_row H H.SHA204_HMAC a (sha204m_hmac H E tx_buffer rx_buffer a b) := by
  unfold sha204m_hmac
  split
  · simp only
    repeat first
      | exact fun h => absurd (bad_param_local H _ _) h
      | exact fun _ rx_size => by
          rw [send_metadata, supply_hmac H _ rx_size hnd]
          simp only [Nat.mod_mod, u8_mod]
      | refine ite_pred (fun o => uses_row H H.SHA204_HMAC a o) _ _ _ ?_ ?_
  · exact fun h => absurd (bad_param_local H _ _) h

theorem lock_row (H : Header) (E : Collaborators) (tx_buffer rx_buffer : Ptr) (a b : Nat)
    (hnd : (supported_opcodes H).Nodup) :
    uses_row H H.SHA204_LOCK a (sha204m_lock H E tx_buffer rx_buffer a b) := by
  unfold sha204m_lock
  split
  · simp only
    repeat first
      | exact fun h => absurd (bad_param_local H _ _) h
      | exact fun _ rx_size => by
          rw [send_metadata, supply_lock H _ rx_size hnd]
          simp only [Nat.mod_mod, u8_mod]
      | refine ite_pred (fun o => uses_row H H.SHA204_LOCK a o) _ _ _ ?_ ?_
  · exact fun h => absurd (bad_param_local H _ _) h

theorem mac_row (H : Header) (E : Collaborators) (tx_buffer rx_buffer : Ptr) (a b : Nat) (p : Ptr)
    (hnd : (supported_opcodes H).Nodup) :
    uses_row H H.SHA204_MAC a (sha204m_mac H E tx_buffer rx_buffer a b p) := by
  unfold sha204m_mac
  split
  · simp only
    repeat first
      | exact fun h => absurd (bad_param_local H _ _) h
      | exact fun _ rx_size => by
          rw [send_metadata, supply_mac H _ rx_size hnd]
          simp only [Nat.mod_mod, u8_mod]
      | refine ite_pred (fun o => uses_row H H.SHA204_MAC a o) _ _ _ ?_ ?_
  · exact fun h => absurd (bad_param_local H _ _) h

theorem pause_row (H : Header) (E : Collaborators) (tx_buffer rx_buffer : Ptr) (a : Nat)
    (hnd : (supported_opcodes H).Nodup) :
    uses_row H H.SHA204_PAUSE a (sha204m_pause H E tx_buffer rx_buffer a) := by
  unfold sha204m_pause
  split
  · simp only
    repeat first
      | exact fun h => absurd (bad_param_local H _ _) h
      | exact fun _ rx_size => by
          rw [send_metadata, supply_pause H _ rx_size hnd]
          simp only [Nat.mod_mod, u8_mod]
      | refine ite_pred (fun o => uses_row H H.SHA204_PAUSE a o) _ _ _ ?_ ?_
  · exact fun h => absurd (bad_param_local H _ _) h

theorem random_row (H : Header) (E : Collaborators) (tx_buffer rx_buffer : Ptr) (a : Nat)
    (hnd : (supported_opcodes H).Nodup) :
    uses_row H H.SHA204_RANDOM a (sha204m_random H E tx_buffer rx_buffer a) := by
  unfold sha204m_random
  split
  · simp only
    repeat first
      | exact fun h => absurd (bad_param_local H _ _) h
      | exact fun _ rx_size => by
          rw [send_metadata, supply_random H _ rx_size hnd]
          simp only [Nat.mod_mod, u8_mod]
      | refine ite_pred (fun o => uses_row H H.SHA204_RANDOM a o) _ _ _ ?_ ?_
  · exact fun h => absurd (bad_param_local H _ _) h

theorem read_row (H : Header) (E : Collaborators) (tx_buffer rx_buffer : Ptr) (a b : Nat)
    (hnd : (supported_opcodes H).Nodup) :
    uses_row H H.SHA204_READ a (sha204m_read H E tx_buffer rx_buffer a b) := by
  unfold sha204m_read
  split
  · simp only
    repeat first
      | exact fun h => absurd (bad_param_local H _ _) h
      | exact fun _ rx_size => by
          rw [send_metadata, supply_read H _ rx_size hnd]
          simp only [Nat.mod_mod, u8_mod]
      | refine ite_pred (fun o => uses_row H H.SHA204_READ a o) _ _ _ ?_ ?_
  · exact fun h => absurd (bad_param_local H _ _) h

theorem update_extra_row (H : Header) (E : Collaborators) (tx_buffer rx_buffer : Ptr) (a b : Nat)
    (hnd : (supported_opcodes H).Nodup) :
    uses_row H H.SHA204_UPDATE_EXTRA a (sha204m_update_extra H E tx_buffer rx_buffer a b) := by
  unfold sha204m_update_extra
  split
  · simp only
    repeat first
      | exact fun h => absurd (bad_param_local H _ _) h
      | exact fun _ rx_size => by
          rw [send_metadata, supply_update_extra H _ rx_size hnd]
          simp only [Nat.mod_mod, u8_mod]
      | refine ite_pred (fun o => uses_row H H.SHA204_UPDATE_EXTRA a o) _ _ _ ?_ ?_
  · exact fun h => absurd (bad_param_local H _ _) h

theorem write_row (H : Header) (E : Collaborators) (tx_buffer rx_buffer : Ptr) (a b : Nat) (p q : Ptr)
    (hnd : (supported_opcodes H).Nodup) :
    uses_row H H.SHA204_WRITE a (sha204m_write H E tx_buffer rx_buffer a b p q) := by
  unfold sha204m_write
  split
  · simp only
    repeat first
      | exact fun h => absurd (bad_param_local H _ _) h
      | exact fun _ rx_size => by
          rw [send_metadata, supply_write H _ rx_size hnd]
          simp only [Nat.mod_mod, u8_mod]
      | refine ite_pred (fun o => uses_row H H.SHA204_WRITE a o) _ _ _ ?_ ?_
  · exact fun h => absurd (bad_param_local H _ _) h

theorem nonce_row (H : Header) (E : Collaborators) (tx_buffer rx_buffer : Ptr) (a : Nat)
    (p : Ptr) (hnd : (supported_opcodes H).Nodup) :
    uses_row H H.SHA204_NONCE a (sha204m_nonce H E tx_buffer rx_buffer a p) := by
  unfold sha204m_nonce
  split
  · simp only
    by_cases hc : a > H.NONCE_MODE_PASSTHROUGH ∨ a = H.NONCE_MODE_INVALID
    · rw [if_pos hc]
      exact fun h => absurd (bad_param_local H _ _) h
    · rw [if_neg hc]
      by_cases hp : a = H.NONCE_MODE_PASSTHROUGH
      · rw [if_neg (not_not.mpr hp)]
        intro _ rx_size
        rw [send_metadata, supply_nonce H _ rx_size hnd]
        simp only [Nat.mod_mod, u8_mod, if_pos hp]
      · rw [if_pos hp]
        intro _ rx_size
        rw [send_metadata, supply_nonce H _ rx_size hnd]
        simp only [Nat.mod_mod, u8_mod, if_neg hp]
  · exact fun h => absurd (bad_param_local H _ _) h

theorem temp_sense_row (H : Header) (E : Collaborators) (tx_buffer rx_buffer : Ptr)
    (temp_raw : Option Nat) (hnd : (supported_opcodes H).Nodup) :
    uses_row H H.SHA204_TEMPSENSE 0
      (sha204m_temp_sense H E tx_buffer rx_buffer temp_raw).1 := by
  unfold sha204m_temp_sense
  split
  · simp only
    split_ifs
    · intro _ rx_size
      rw [send_metadata, supply_tempsense H _ rx_size hnd]
      simp only [Nat.mod_mod, u8_mod]
    · intro _ rx_size
      rw [send_metadata, supply_tempsense H _ rx_size hnd]
      simp only [Nat.mod_mod, u8_mod]
  · exact fun h => absurd (bad_param_local H _ _) h

theorem assemble_call (H : Header) (E : Collaborators) (op_code param1 param2 : Nat)
    (datalen1 : Nat) (data1 : Ptr) (datalen2 : Nat) (data2 : Ptr)
    (datalen3 : Nat) (data3 : Ptr) (tx0 : Mem) (a : Mem × Call)
    (h : sha204m_execute_assemble H E op_code param1 param2 datalen1 data1 datalen2 data2
      datalen3 data3 tx0 = some a) : a.2.metadata = none := by
  unfold sha204m_execute_assemble at h
  simp only [Option.bind_eq_some] at h
  obtain ⟨_, _, _, _, _, _, h⟩ := h
  simp only [Option.some.injEq] at h
  rw [← h]
  rfl

/-- The triple `sha204m_execute` hands to the transport is the row of its switch. -/
theorem execute_row (H : Header) (E : Collaborators) (op_code param1 param2 : Nat)
    (datalen1 : Nat) (data1 : Ptr) (datalen2 : Nat) (data2 : Ptr)
    (datalen3 : Nat) (data3 : Ptr)
    (tx_size : Nat) (tx_buffer : Ptr) (rx_size : Nat) (rx_buffer : Ptr) (g : Outcome)
    (h : sha204m_execute H E op_code param1 param2 datalen1 data1 datalen2 data2
      datalen3 data3 tx_size tx_buffer rx_size rx_buffer = some g)
    (hl : ¬ g.returned_locally) :
    g.metadata = [((sha204m_execute_supply H op_code param1 rx_size).2.2,
      (sha204m_execute_supply H op_code param1 rx_size).1,
      (sha204m_execute_supply H op_code param1 rx_size).2.1)] := by
  obtain ⟨h1, h2, h3⟩ := supply_lt H op_code param1 rx_size
  unfold sha204m_execute at h
  simp only at h
  split_ifs at h with hne
  · simp only [Option.some.injEq] at h
    exfalso
    apply hl
    rw [← h]
    intro c hc
    simp at hc
  · split at h
    · simp only [Option.bind_eq_some] at h
      obtain ⟨a, ha, hg⟩ := h
      simp only [Option.some.injEq] at hg
      have hc := assemble_call H E op_code param1 param2 datalen1 data1 datalen2 data2
        datalen3 data3 _ a ha
      rw [← hg]
      simp only [Outcome.metadata, sha204c_send_and_receive, List.singleton_append,
        Nat.mod_eq_of_lt h1, Nat.mod_eq_of_lt h2, Nat.mod_eq_of_lt h3]
      rw [List.filterMap_cons_none hc, List.filterMap_cons_some (by rfl)]
      rfl
    · simp at h

theorem agree_of_row (H : Header) (E : Collaborators) (op_code param1 param2 : Nat)
    (datalen1 : Nat) (data1 : Ptr) (datalen2 : Nat) (data2 : Ptr)
    (datalen3 : Nat) (data3 : Ptr)
    (tx_size : Nat) (tx_buffer : Ptr) (rx_size : Nat) (rx_buffer : Ptr) (o : Outcome)
    (h : uses_row H op_code param1 o) :
    metadata_agree (sha204m_execute H E op_code param1 param2 datalen1 data1 datalen2 data2
      datalen3 data3 tx_size tx_buffer rx_size rx_buffer) o := by
  intro g hg hgl hol
  rw [execute_row H E op_code param1 param2 datalen1 data1 datalen2 data2
    datalen3 data3 tx_size tx_buffer rx_size rx_buffer g hg hgl, h hol rx_size]
  exact ⟨rfl, _, rfl⟩

/-- C20. The generic and the command path use the same op-code metadata
(distinct op-codes). For each of the 14 op-codes and every choice of the
arguments on both sides: whenever `sha204m_execute` with that op-code and
`param1` reaches the transport and the command function of the op-code called
with the same first parameter reaches the transport, both hand it the same
triple (response size, poll delay, poll timeout). For Read the response size is
`READ_32_RSP_SIZE` if `SHA204_ZONE_COUNT_FLAG` is set in the zone byte and
`READ_4_RSP_SIZE` otherwise, for Nonce it is `NONCE_RSP_SIZE_SHORT` in the
pass-through mode and `NONCE_RSP_SIZE_LONG` otherwise (as `uint8_t`). -/
theorem metadata_shared (H : Header) (E : Collaborators) (param2 : Nat)
    (datalen1 : Nat) (data1 : Ptr) (datalen2 : Nat) (data2 : Ptr)
    (datalen3 : Nat) (data3 : Ptr)
    (tx_size : Nat) (gtx : Ptr) (rx_size : Nat) (grx : Ptr)
    (tx_buffer rx_buffer : Ptr) (a b : Nat) (p q r : Ptr) (temp_raw : Option Nat)
    (hnd : (supported_opcodes H).Nodup) :
    metadata_agree
        (sha204m_execute H E H.SHA204_CHECKMAC a param2 datalen1 data1 datalen2 data2
          datalen3 data3 tx_size gtx rx_size grx)
        (sha204m_check_mac H E tx_buffer rx_buffer a b p q r)
    ∧ metadata_agree
        (sha204m_execute H E H.SHA204_DERIVE_KEY a param2 datalen1 data1 datalen2 data2
          datalen3 data3 tx_size gtx rx_size grx)
        (sha204m_derive_key H E tx_buffer rx_buffer a b p)
    ∧ metadata_agree
        (sha204m_execute H E H.SHA204_DEVREV 0 param2 datalen1 data1 datalen2 data2
          datalen3 data3 tx_size gtx rx_size grx)
        (sha204m_dev_rev H E tx_buffer rx_buffer)
    ∧ metadata_agree
        (sha204m_execute H E H.SHA204_GENDIG a param2 datalen1 data1 datalen2 data2
          datalen3 data3 tx_size gtx rx_size grx)
        (sha204m_gen_dig H E tx_buffer rx_buffer a b p)
    ∧ metadata_agree
        (sha204m_execute H E H.SHA204_HMAC a param2 datalen1 data1 datalen2 data2
          datalen3 data3 tx_size gtx rx_size grx)
        (sha204m_hmac H E tx_buffer rx_buffer a b)
    ∧ metadata_agree
        (sha204m_execute H E H.SHA204_LOCK a param2 datalen1 data1 datalen2 data2
          datalen3 data3 tx_size gtx rx_size grx)
        (sha204m_lock H E tx_buffer rx_buffer a b)
    ∧ metadata_agree
        (sha204m_execute H E H.SHA204_MAC a param2 datalen1 data1 datalen2 data2
          datalen3 data3 tx_size gtx rx_size grx)
        (sha204m_mac H E tx_buffer rx_buffer a b p)
    ∧ metadata_agree
        (sha204m_execute H E H.SHA204_NONCE a param2 datalen1 data1 datalen2 data2
          datalen3 data3 tx_size gtx rx_size grx)
        (sha204m_nonce H E tx_buffer rx_buffer a p)
    ∧ metadata_agree
        (sha204m_execute H E H.SHA204_PAUSE a param2 datalen1 data1 datalen2 data2
          datalen3 data3 tx_size gtx rx_size grx)
        (sha204m_pause H E tx_buffer rx_buffer a)
    ∧ metadata_agree
        (sha204m_execute H E H.SHA204_RANDOM a param2 datalen1 data1 datalen2 data2
          datalen3 data3 tx_size gtx rx_size grx)
        (sha204m_random H E tx_buffer rx_buffer a)
    ∧ metadata_agree
        (sha204m_execute H E H.SHA204_READ a param2 datalen1 data1 datalen2 data2
          datalen3 data3 tx_size gtx rx_size grx)
        (sha204m_read H E tx_buffer rx_buffer a b)
    ∧ metadata_agree
        (sha204m_execute H E H.SHA204_TEMPSENSE 0 param2 datalen1 data1 datalen2 data2
          datalen3 data3 tx_size gtx rx_size grx)
        (sha204m_temp_sense H E tx_buffer rx_buffer temp_raw).1
    ∧ metadata_agree
        (sha204m_execute H E H.SHA204_UPDATE_EXTRA a param2 datalen1 data1 datalen2 data2
          datalen3 data3 tx_size gtx rx_size grx)
        (sha204m_update_extra H E tx_buffer rx_buffer a b)
    ∧ metadata_agree
        (sha204m_execute H E H.SHA204_WRITE a param2 datalen1 data1 datalen2 data2
          datalen3 data3 tx_size gtx rx_size grx)
        (sha204m_write H E tx_buffer rx_buffer a b p q)
    ∧ (¬ (sha204m_read H E tx_buffer rx_buffer a b).returned_locally →
        (sha204m_read H E tx_buffer rx_buffer a b).metadata
          = [((if (a &&& H.SHA204_ZONE_COUNT_FLAG) ≠ 0 then H.READ_32_RSP_SIZE
                else H.READ_4_RSP_SIZE) % 256,
              H.READ_DELAY % 256, u8 (H.READ_EXEC_MAX - H.READ_DELAY))])
    ∧ (¬ (sha204m_nonce H E tx_buffer rx_buffer a p).returned_locally →
        (sha204m_nonce H E tx_buffer rx_buffer a p).metadata
          = [((if a = H.NONCE_MODE_PASSTHROUGH then H.NONCE_RSP_SIZE_SHORT
                else H.NONCE_RSP_SIZE_LONG) % 256,
              H.NONCE_DELAY % 256, u8 (H.NONCE_EXEC_MAX - H.NONCE_DELAY))]) := by
  refine ⟨?_, ?_, ?_, ?_, ?_, ?_, ?_, ?_, ?_, ?_, ?_, ?_, ?_, ?_, ?_, ?_⟩
  · exact agree_of_row H E _ _ _ _ _ _ _ _ _ _ _ _ _ _
      (check_mac_row H E tx_buffer rx_buffer a b p q r hnd)
  · exact agree_of_row H E _ _ _ _ _ _ _ _ _ _ _ _ _ _
      (derive_key_row H E tx_buffer rx_buffer a b p hnd)
  · exact agree_of_row H E _ _ _ _ _ _ _ _ _ _ _ _ _ _
      (dev_rev_row H E tx_buffer rx_buffer  hnd)
  · exact agree_of_row H E _ _ _ _ _ _ _ _ _ _ _ _ _ _
      (gen_dig_row H E tx_buffer rx_buffer a b p hnd)
  · exact agree_of_row H E _ _ _ _ _ _ _ _ _ _ _ _ _ _
      (hmac_row H E tx_buffer rx_buffer a b hnd)
  · exact agree_of_row H E _ _ _ _ _ _ _ _ _ _ _ _ _ _
      (lock_row H E tx_buffer rx_buffer a b hnd)
  · exact agree_of_row H E _ _ _ _ _ _ _ _ _ _ _ _ _ _
      (mac_row H E tx_buffer rx_buffer a b p hnd)
  · exact agree_of_row H E _ _ _ _ _ _ _ _ _ _ _ _ _ _
      (nonce_row H E tx_buffer rx_buffer a p hnd)
  · exact agree_of_row H E _ _ _ _ _ _ _ _ _ _ _ _ _ _
      (pause_row H E tx_buffer rx_buffer a hnd)
  · exact agree_of_row H E _ _ _ _ _ _ _ _ _ _ _ _ _ _
      (random_row H E tx_buffer rx_buffer a hnd)
  · exact agree_of_row H E _ _ _ _ _ _ _ _ _ _ _ _ _ _
      (read_row H E tx_buffer rx_buffer a b hnd)
  · exact agree_of_row H E _ _ _ _ _ _ _ _ _ _ _ _ _ _
      (temp_sense_row H E tx_buffer rx_buffer temp_raw hnd)
  · exact agree_of_row H E _ _ _ _ _ _ _ _ _ _ _ _ _ _
      (update_extra_row H E tx_buffer rx_buffer a b hnd)
  · exact agree_of_row H E _ _ _ _ _ _ _ _ _ _ _ _ _ _
      (write_row H E tx_buffer rx_buffer a b p q hnd)
  · intro hl
    rw [read_row H E tx_buffer rx_buffer a b hnd hl 0, supply_read H a 0 hnd]
  · intro hl
    rw [nonce_row H E tx_buffer rx_buffer a p hnd hl 0, supply_nonce H a 0 hnd]

/-- Instance of C20 on the published header, first parameter `0x82`. -/
theorem metadata_shared_witness :
    (supported_opcodes atmel).Nodup
    ∧ (metadata_agree
        (sha204m_execute atmel demo atmel.SHA204_CHECKMAC 0x82 0 0 none 0 none
          0 none 64 (some fun _ => 0) 64 (some fun _ => 0))
        (sha204m_check_mac atmel demo (some fun _ => 0) (some fun _ => 0) 0x82 0 (some fun i => i) none none)
    ∧ metadata_agree
        (sha204m_execute atmel demo atmel.SHA204_DERIVE_KEY 0x82 0 0 none 0 none
          0 none 64 (some fun _ => 0) 64 (some fun _ => 0))
        (sha204m_derive_key atmel demo (some fun _ => 0) (some fun _ => 0) 0x82 0 (some fun i => i))
    ∧ metadata_agree
        (sha204m_execute atmel demo atmel.SHA204_DEVREV 0 0 0 none 0 none
          0 none 64 (some fun _ => 0) 64 (some fun _ => 0))
        (sha204m_dev_rev atmel demo (some fun _ => 0) (some fun _ => 0))
    ∧ metadata_agree
        (sha204m_execute atmel demo atmel.SHA204_GENDIG 0x82 0 0 none 0 none
          0 none 64 (some fun _ => 0) 64 (some fun _ => 0))
        (sha204m_gen_dig atmel demo (some fun _ => 0) (some fun _ => 0) 0x82 0 (some fun i => i))
    ∧ metadata_agree
        (sha204m_execute atmel demo atmel.SHA204_HMAC 0x82 0 0 none 0 none
          0 none 64 (some fun _ => 0) 64 (some fun _ => 0))
        (sha204m_hmac atmel demo (some fun _ => 0) (some fun _ => 0) 0x82 0)
    ∧ metadata_agree
        (sha204m_execute atmel demo atmel.SHA204_LOCK 0x82 0 0 none 0 none
          0 none 64 (some fun _ => 0) 64 (some fun _ => 0))
        (sha204m_lock atmel demo (some fun _ => 0) (some fun _ => 0) 0x82 0)
    ∧ metadata_agree
        (sha204m_execute atmel demo atmel.SHA204_MAC 0x82 0 0 none 0 none
          0 none 64 (some fun _ => 0) 64 (some fun _ => 0))
        (sha204m_mac atmel demo (some fun _ => 0) (some fun _ => 0) 0x82 0 (some fun i => i))
    ∧ metadata_agree
        (sha204m_execute atmel demo atmel.SHA204_NONCE 0x82 0 0 none 0 none
          0 none 64 (some fun _ => 0) 64 (some fun _ => 0))
        (sha204m_nonce atmel demo (some fun _ => 0) (some fun _ => 0) 0x82 (some fun i => i))
    ∧ metadata_agree
        (sha204m_execute atmel demo atmel.SHA204_PAUSE 0x82 0 0 none 0 none
          0 none 64 (some fun _ => 0) 64 (some fun _ => 0))
        (sha204m_pause atmel demo (some fun _ => 0) (some fun _ => 0) 0x82)
    ∧ metadata_agree
        (sha204m_execute atmel demo atmel.SHA204_RANDOM 0x82 0 0 none 0 none
          0 none 64 (some fun _ => 0) 64 (some fun _ => 0))
        (sha204m_random atmel demo (some fun _ => 0) (some fun _ => 0) 0x82)
    ∧ metadata_agree
        (sha204m_execute atmel demo atmel.SHA204_READ 0x82 0 0 none 0 none
          0 none 64 (some fun _ => 0) 64 (some fun _ => 0))
        (sha204m_read atmel demo (some fun _ => 0) (some fun _ => 0) 0x82 0)
    ∧ metadata_agree
        (sha204m_execute atmel demo atmel.SHA204_TEMPSENSE 0 0 0 none 0 none
          0 none 64 (some fun _ => 0) 64 (some fun _ => 0))
        (sha204m_temp_sense atmel demo (some fun _ => 0) (some fun _ => 0) (some 0)).1
    ∧ metadata_agree
        (sha204m_execute atmel demo atmel.SHA204_UPDATE_EXTRA 0x82 0 0 none 0 none
          0 none 64 (some fun _ => 0) 64 (some fun _ => 0))
        (sha204m_update_extra atmel demo (some fun _ => 0) (some fun _ => 0) 0x82 0)
    ∧ metadata_agree
        (sha204m_execute atmel demo atmel.SHA204_WRITE 0x82 0 0 none 0 none
          0 none 64 (some fun _ => 0) 64 (some fun _ => 0))
        (sha204m_write atmel demo (some fun _ => 0) (some fun _ => 0) 0x82 0 (some fun i => i) none)
    ∧ (¬ (sha204m_read atmel demo (some fun _ => 0) (some fun _ => 0) 0x82 0).returned_locally →
        (sha204m_read atmel demo (some fun _ => 0) (some fun _ => 0) 0x82 0).metadata
          = [((if (0x82 &&& atmel.SHA204_ZONE_COUNT_FLAG) ≠ 0 then atmel.READ_32_RSP_SIZE
                else atmel.READ_4_RSP_SIZE) % 256,
              atmel.READ_DELAY % 256, u8 (atmel.READ_EXEC_MAX - atmel.READ_DELAY))])
    ∧ (¬ (sha204m_nonce atmel demo (some fun _ => 0) (some fun _ => 0) 0x82 (some fun i => i)).returned_locally →
        (sha204m_nonce atmel demo (some fun _ => 0) (some fun _ => 0) 0x82 (some fun i => i)).metadata
          = [((if 0x82 = atmel.NONCE_MODE_PASSTHROUGH then atmel.NONCE_RSP_SIZE_SHORT
                else atmel.NONCE_RSP_SIZE_LONG) % 256,
              atmel.NONCE_DELAY % 256, u8 (atmel.NONCE_EXEC_MAX - atmel.NONCE_DELAY))])) :=
  ⟨by decide,
   metadata_shared atmel demo 0 0 none 0 none 0 none 64 (some fun _ => 0) 64 (some fun _ => 0)
     (some fun _ => 0) (some fun _ => 0) 0x82 0 (some fun i => i) none none (some 0)
     (by decide)⟩

/-! Random -/

/-- C21, evaluated on the failing input. `sha204m_random` accepts mode 1
(`RANDOM_NO_SEED_UPDATE`) but stores `mode & RANDOM_SEED_UPDATE`, and
`RANDOM_SEED_UPDATE` is 0: the mode byte of the frame is 0, while
`sha204m_execute` for `(SHA204_RANDOM, param1 = 1, param2 = 0)` writes 1. The
other four header bytes are the same on both paths. -/
theorem random_mode_not_sent :
    1 ≤ atmel.RANDOM_NO_SEED_UPDATE ∧ atmel.RANDOM_SEED_UPDATE = 0 ∧ atmel.RANDOM_MODE_IDX = 2
    ∧ (∃ frame rx,
        (sha204m_random atmel demo (some fun _ => 0xAA) (some fun _ => 0xBB) 1).calls
          = [Call.send_and_receive frame 35 rx 10 41]
        ∧ (sha204m_random atmel demo (some fun _ => 0xAA) (some fun _ => 0xBB) 1).tx
          = some frame
        ∧ frame 0 = 7 ∧ frame 1 = atmel.SHA204_RANDOM ∧ frame 2 = 0 ∧ frame 3 = 0
        ∧ frame 4 = 0)
    ∧ (∃ o frame rx body,
        sha204m_execute atmel demo atmel.SHA204_RANDOM 1 0 0 none 0 none 0 none
          64 (some fun _ => 0xAA) 64 (some fun _ => 0xBB) = some o
        ∧ o.calls = [Call.calculate_crc 5 body 5, Call.send_and_receive frame 35 rx 10 41]
        ∧ frame 0 = 7 ∧ frame 1 = atmel.SHA204_RANDOM ∧ frame 2 = 1 ∧ frame 3 = 0
        ∧ frame 4 = 0) :=
  ⟨by decide, rfl, rfl,
   ⟨_, _, rfl, rfl, by decide, by decide, by decide, by decide, by decide⟩,
   ⟨_, _, _, _, rfl, rfl, by decide, by decide, by decide, by decide, by decide⟩⟩

/-! Required data blocks on the generic path -/

/-- C22 is false as stated. The generic validator accepts a Nonce request with
an empty first block and one with a block of 5 bytes (20 are required for mode
0), a Write request with a block of 7 bytes (4 are required without the count
flag) and a CheckMac request with an empty first block, as long as the
pointers are non-null; `sha204m_execute` reaches the transport each time. -/
theorem generic_block_sizes_counterexample :
    atmel.NONCE_NUMIN_SIZE = 20 ∧ atmel.SHA204_ZONE_ACCESS_4 = 4
    ∧ (∃ o, sha204m_execute atmel demo atmel.SHA204_NONCE 0 0 0 (some fun i => i) 0 none
          0 none 64 (some fun _ => 0) 64 (some fun _ => 0) = some o
        ∧ ¬ o.returned_locally)
    ∧ (∃ o, sha204m_execute atmel demo atmel.SHA204_NONCE 0 0 5 (some fun i => i) 0 none
          0 none 64 (some fun _ => 0) 64 (some fun _ => 0) = some o
        ∧ ¬ o.returned_locally)
    ∧ (∃ o, sha204m_execute atmel demo atmel.SHA204_WRITE 0x02 0 7 (some fun i => i) 0 none
          0 none 64 (some fun _ => 0) 64 (some fun _ => 0) = some o
        ∧ ¬ o.returned_locally)
    ∧ (∃ o, sha204m_execute atmel demo atmel.SHA204_CHECKMAC 0 3 0 (some fun i => i)
          32 (some fun i => i) 13 (some fun i => i)
          64 (some fun _ => 0) 64 (some fun _ => 0) = some o
        ∧ ¬ o.returned_locally) :=
  ⟨rfl, rfl,
   ⟨_, rfl, send_and_receive_not_local _ _ _ _ _ _ _⟩,
   ⟨_, rfl, send_and_receive_not_local _ _ _ _ _ _ _⟩,
   ⟨_, rfl, send_and_receive_not_local _ _ _ _ _ _ _⟩,
   ⟨_, rfl, send_and_receive_not_local _ _ _ _ _ _ _⟩⟩

/-- C22, amended. The generic validator enforces the required data blocks by
pointer only (parameter checking compiled in, distinct op-codes). A CheckMac,
Nonce or Write request with a null `data1` makes `sha204m_execute` return
`SHA204_BAD_PARAM`; among requests that meet the general preconditions the
verdict on a CheckMac, Nonce or Write request is the same for every length of
the first block, so no block length is compared with a required size. -/
theorem generic_blocks_by_pointer (H : Header) (E : Collaborators) (param1 param2 : Nat)
    (datalen1 other_len1 : Nat) (data1 : Ptr) (datalen2 : Nat) (data2 : Ptr)
    (datalen3 : Nat) (data3 : Ptr)
    (tx_size : Nat) (tx_buffer : Ptr) (rx_size : Nat) (rx_buffer : Ptr)
    (hcheck : H.SHA204_CHECK_PARAMETERS = true)
    (hcodes : H.SHA204_BAD_PARAM ≠ H.SHA204_SUCCESS)
    (hnd : (supported_opcodes H).Nodup)
    (hg : general_preconditions H datalen1 data1 datalen2 data2 datalen3 data3
      tx_size tx_buffer rx_size rx_buffer)
    (hg2 : general_preconditions H other_len1 data1 datalen2 data2 datalen3 data3
      tx_size tx_buffer rx_size rx_buffer) :
    (∀ op_code, op_code = H.SHA204_CHECKMAC ∨ op_code = H.SHA204_NONCE
        ∨ op_code = H.SHA204_WRITE →
      (data1 = none →
        sha204m_execute H E op_code param1 param2 datalen1 data1 datalen2 data2
          datalen3 data3 tx_size tx_buffer rx_size rx_buffer
        = some (bad_param H tx_buffer rx_buffer))
      ∧ sha204m_check_parameters H op_code param1 param2 datalen1 data1 datalen2 data2
          datalen3 data3 tx_size tx_buffer rx_size rx_buffer
        = sha204m_check_parameters H op_code param1 param2 other_len1 data1 datalen2 data2
          datalen3 data3 tx_size tx_buffer rx_size rx_buffer) := by
  intro op_code hop
  rcases hop with rfl | rfl | rfl
  · refine ⟨fun hd => ?_, ?_⟩
    · apply execute_rejects
      rw [check_parameters_checkmac H param1 param2 datalen1 data1 datalen2 data2
        datalen3 data3 tx_size tx_buffer rx_size rx_buffer hcheck hnd hg,
        if_pos (Or.inl (by rw [hd]; rfl))]
      exact hcodes
    · rw [check_parameters_checkmac H param1 param2 datalen1 data1 datalen2 data2
        datalen3 data3 tx_size tx_buffer rx_size rx_buffer hcheck hnd hg,
        check_parameters_checkmac H param1 param2 other_len1 data1 datalen2 data2
        datalen3 data3 tx_size tx_buffer rx_size rx_buffer hcheck hnd hg2]
  · refine ⟨fun hd => ?_, ?_⟩
    · apply execute_rejects
      rw [check_parameters_nonce H param1 param2 datalen1 data1 datalen2 data2
        datalen3 data3 tx_size tx_buffer rx_size rx_buffer hcheck hnd hg,
        if_pos (Or.inl (by rw [hd]; rfl))]
      exact hcodes
    · rw [check_parameters_nonce H param1 param2 datalen1 data1 datalen2 data2
        datalen3 data3 tx_size tx_buffer rx_size rx_buffer hcheck hnd hg,
        check_parameters_nonce H param1 param2 other_len1 data1 datalen2 data2
        datalen3 data3 tx_size tx_buffer rx_size rx_buffer hcheck hnd hg2]
  · refine ⟨fun hd => ?_, ?_⟩
    · apply execute_rejects
      rw [check_parameters_write H param1 param2 datalen1 data1 datalen2 data2
        datalen3 data3 tx_size tx_buffer rx_size rx_buffer hcheck hnd hg,
        if_pos (Or.inl (by rw [hd]; rfl))]
      exact hcodes
    · rw [check_parameters_write H param1 param2 datalen1 data1 datalen2 data2
        datalen3 data3 tx_size tx_buffer rx_size rx_buffer hcheck hnd hg,
        check_parameters_write H param1 param2 other_len1 data1 datalen2 data2
        datalen3 data3 tx_size tx_buffer rx_size rx_buffer hcheck hnd hg2]

/-- Instance of the amended C22: a Nonce request with 20 and with 5 input bytes. -/
theorem generic_blocks_by_pointer_witness :
    atmel.SHA204_CHECK_PARAMETERS = true ∧ atmel.SHA204_BAD_PARAM ≠ atmel.SHA204_SUCCESS
    ∧ (supported_opcodes atmel).Nodup
    ∧ general_preconditions atmel 20 (some fun i => i) 0 (some fun i => i) 0
        (some fun i => i) 64 (some fun _ => 0) 64 (some fun _ => 0)
    ∧ general_preconditions atmel 5 (some fun i => i) 0 (some fun i => i) 0
        (some fun i => i) 64 (some fun _ => 0) 64 (some fun _ => 0)
    ∧ sha204m_check_parameters atmel atmel.SHA204_NONCE 0 0 20 (some fun i => i)
        0 (some fun i => i) 0 (some fun i => i) 64 (some fun _ => 0) 64 (some fun _ => 0)
      = sha204m_check_parameters atmel atmel.SHA204_NONCE 0 0 5 (some fun i => i)
        0 (some fun i => i) 0 (some fun i => i) 64 (some fun _ => 0) 64 (some fun _ => 0) :=
  ⟨rfl, by decide, by decide,
   atmel_general 20 _ 0 _ 0 _ 64 _ _ 64 (by decide) (by decide),
   atmel_general 5 _ 0 _ 0 _ 64 _ _ 64 (by decide) (by decide),
   ((generic_blocks_by_pointer atmel demo 0 0 20 5 (some fun i => i) 0 (some fun i => i) 0
      (some fun i => i) 64 (some fun _ => 0) 64 (some fun _ => 0) rfl (by decide) (by decide)
      (atmel_general 20 _ 0 _ 0 _ 64 _ _ 64 (by decide) (by decide))
      (atmel_general 5 _ 0 _ 0 _ 64 _ _ 64 (by decide) (by decide)))
      atmel.SHA204_NONCE (Or.inr (Or.inl rfl))).2⟩

/-! MAC -/

/-- C23. The challenge rule of MAC (parameter checking compiled in, distinct
op-codes, the header at offsets 0 to 4 and the challenge at offset 5, counts
fitting a byte).
For every mode without a bit outside `MAC_MODE_MASK`: with the
`MAC_MODE_BLOCK2_TEMPKEY` bit clear and a null challenge both `sha204m_execute`
and `sha204m_mac` return `SHA204_BAD_PARAM`; with the bit set both accept the
request, also without a challenge. `sha204m_mac` then writes the count
`MAC_COUNT_LONG` and copies `MAC_CHALLENGE_SIZE` challenge bytes to
`MAC_CHALLENGE_IDX` when the bit is clear, and writes the count
`MAC_COUNT_SHORT` and nothing but the five header bytes when the bit is set. -/
theorem mac_challenge_rule (H : Header) (E : Collaborators) (mode key_id : Nat)
    (datalen1 : Nat) (data1 : Ptr) (datalen2 : Nat) (data2 : Ptr)
    (datalen3 : Nat) (data3 : Ptr)
    (tx_size : Nat) (tx_buffer : Ptr) (rx_size : Nat) (rx_buffer : Ptr)
    (tx rx : Mem) (challenge : Ptr)
    (hcheck : H.SHA204_CHECK_PARAMETERS = true)
    (hcodes : H.SHA204_BAD_PARAM ≠ H.SHA204_SUCCESS)
    (hnd : (supported_opcodes H).Nodup)
    (hcount : H.SHA204_COUNT_IDX = 0) (hopidx : H.SHA204_OPCODE_IDX = 1)
    (hmidx : H.MAC_MODE_IDX = 2) (hkidx : H.MAC_KEYID_IDX = 3)
    (hcidx : H.MAC_CHALLENGE_IDX = 5)
    (hshort : H.MAC_COUNT_SHORT < 256) (hlong : H.MAC_COUNT_LONG < 256)
    (hmode : (mode &&& cnot H.MAC_MODE_MASK) = 0)
    (hg : general_preconditions H datalen1 data1 datalen2 data2 datalen3 data3
      tx_size tx_buffer rx_size rx_buffer) :
    -- bit clear, no challenge: refused on both paths
    ((mode &&& H.MAC_MODE_BLOCK2_TEMPKEY) = 0 →
      (data1 = none →
        sha204m_execute H E H.SHA204_MAC mode key_id datalen1 data1 datalen2 data2
          datalen3 data3 tx_size tx_buffer rx_size rx_buffer
        = some (bad_param H tx_buffer rx_buffer))
      ∧ (challenge = none →
        sha204m_mac H E (some tx) (some rx) mode key_id challenge
          = bad_param H (some tx) (some rx)))
    -- bit clear, challenge present: accepted, long count, challenge copied
    ∧ ((mode &&& H.MAC_MODE_BLOCK2_TEMPKEY) = 0 →
      (data1 ≠ none →
        sha204m_check_parameters H H.SHA204_MAC mode key_id datalen1 data1 datalen2 data2
          datalen3 data3 tx_size tx_buffer rx_size rx_buffer = H.SHA204_SUCCESS)
      ∧ (∀ c, challenge = some c →
        ∃ frame,
          (sha204m_mac H E (some tx) (some rx) mode key_id challenge).tx = some frame
          ∧ ¬ (sha204m_mac H E (some tx) (some rx) mode key_id challenge).returned_locally
          ∧ frame H.SHA204_COUNT_IDX = H.MAC_COUNT_LONG
          ∧ ∀ i, i < H.MAC_CHALLENGE_SIZE → frame (H.MAC_CHALLENGE_IDX + i) = c i))
    -- bit set: accepted with or without a challenge, short count, no data
    ∧ ((mode &&& H.MAC_MODE_BLOCK2_TEMPKEY) ≠ 0 →
      sha204m_check_parameters H H.SHA204_MAC mode key_id datalen1 data1 datalen2 data2
          datalen3 data3 tx_size tx_buffer rx_size rx_buffer = H.SHA204_SUCCESS
      ∧ ∃ frame,
          (sha204m_mac H E (some tx) (some rx) mode key_id challenge).tx = some frame
          ∧ ¬ (sha204m_mac H E (some tx) (some rx) mode key_id challenge).returned_locally
          ∧ frame H.SHA204_COUNT_IDX = H.MAC_COUNT_SHORT
          ∧ ∀ j, j ≠ H.SHA204_COUNT_IDX → j ≠ H.SHA204_OPCODE_IDX → j ≠ H.MAC_MODE_IDX →
              j ≠ H.MAC_KEYID_IDX → j ≠ H.MAC_KEYID_IDX + 1 → frame j = tx j) := by
  have hgen := check_parameters_mac H mode key_id datalen1 data1 datalen2 data2
    datalen3 data3 tx_size tx_buffer rx_size rx_buffer hcheck hnd hg
  refine ⟨fun hbit => ⟨fun hd => ?_, fun hc => ?_⟩, fun hbit => ⟨fun hd => ?_, fun c hc => ?_⟩,
    fun hbit => ⟨?_, ?_⟩⟩
  · apply execute_rejects
    rw [hgen, if_pos (Or.inr ⟨hbit, by rw [hd]; rfl⟩)]
    exact hcodes
  · unfold sha204m_mac
    simp only
    rw [if_pos (Or.inr ⟨hbit, by rw [hc]; rfl⟩)]
  · rw [hgen, if_neg]
    simp only [not_or, not_and, ne_eq, not_not, Option.isNone_iff_eq_none]
    exact ⟨hmode, fun _ => hd⟩
  · subst hc
    unfold sha204m_mac
    simp only
    rw [if_neg (by simp only [not_or, not_and, ne_eq, not_not]; exact ⟨hmode, fun _ => by simp⟩),
      if_pos hbit]
    refine ⟨_, rfl, send_and_receive_not_local _ _ _ _ _ _ _, ?_, ?_⟩
    · rw [store_apply, if_pos rfl, Nat.mod_eq_of_lt hlong]
    · intro i hi
      rw [store_apply, if_neg (by omega), memcpy_apply_in _ _ _ _ _ (by omega) (by omega)]
      congr 1
      omega
  · rw [hgen, if_neg]
    simp only [not_or, not_and, ne_eq, not_not]
    exact ⟨hmode, fun h => absurd h hbit⟩
  · unfold sha204m_mac
    simp only
    rw [if_neg (by simp only [not_or, not_and, ne_eq, not_not];
                   exact ⟨hmode, fun h => absurd h hbit⟩),
      if_neg hbit]
    refine ⟨_, rfl, send_and_receive_not_local _ _ _ _ _ _ _, ?_, ?_⟩
    · simp only [store_apply, hcount, hopidx, hmidx, hkidx]
      simp only [(by decide : (0 : Nat) ≠ 3 + 1), (by decide : (0 : Nat) ≠ 3),
        (by decide : (0 : Nat) ≠ 2), (by decide : (0 : Nat) ≠ 1), if_false, if_true]
      exact Nat.mod_eq_of_lt hshort
    · intro j h0 h1 h2 h3 h4
      simp only [store_apply, if_neg h0, if_neg h1, if_neg h2, if_neg h3, if_neg h4]

theorem atmel_general_nodata (tx_size : Nat) (tx rx : Mem) (rx_size : Nat)
    (h1 : 7 ≤ tx_size) (h2 : 4 ≤ rx_size) :
    general_preconditions atmel 0 none 0 none 0 none tx_size (some tx) rx_size (some rx) :=
  ⟨by simp, h1, h2, by simp, fun h => absurd h (by decide), fun h => absurd h (by decide),
    fun h => absurd h (by decide)⟩

/-- Instance of C23 on the published header: mode 0 without a challenge is
refused on both paths, mode 1 without a challenge is accepted on both. -/
theorem mac_challenge_rule_witness :
    atmel.SHA204_CHECK_PARAMETERS = true ∧ atmel.SHA204_BAD_PARAM ≠ atmel.SHA204_SUCCESS
    ∧ (supported_opcodes atmel).Nodup
    ∧ atmel.SHA204_COUNT_IDX = 0 ∧ atmel.SHA204_OPCODE_IDX = 1 ∧ atmel.MAC_MODE_IDX = 2
    ∧ atmel.MAC_KEYID_IDX = 3 ∧ atmel.MAC_CHALLENGE_IDX = 5
    ∧ atmel.MAC_COUNT_SHORT < 256 ∧ atmel.MAC_COUNT_LONG < 256
    ∧ (0 &&& cnot atmel.MAC_MODE_MASK) = 0 ∧ (1 &&& cnot atmel.MAC_MODE_MASK) = 0
    ∧ general_preconditions atmel 0 none 0 none 0 none 64 (some fun _ => 0) 64
        (some fun _ => 0)
    ∧ sha204m_execute atmel demo atmel.SHA204_MAC 0 0 0 none 0 none 0 none
        64 (some fun _ => 0) 64 (some fun _ => 0)
        = some (bad_param atmel (some fun _ => 0) (some fun _ => 0))
    ∧ sha204m_mac atmel demo (some fun _ => 0) (some fun _ => 0) 0 0 none
        = bad_param atmel (some fun _ => 0) (some fun _ => 0)
    ∧ sha204m_check_parameters atmel atmel.SHA204_MAC 1 0 0 none 0 none 0 none
        64 (some fun _ => 0) 64 (some fun _ => 0) = atmel.SHA204_SUCCESS
    ∧ ¬ (sha204m_mac atmel demo (some fun _ => 0) (some fun _ => 0) 1 0
          none).returned_locally :=
  ⟨rfl, by decide, by decide, rfl, rfl, rfl, rfl, rfl, by decide, by decide, by decide,
   by decide, atmel_general_nodata 64 _ _ 64 (by decide) (by decide),
   ((mac_challenge_rule atmel demo 0 0 0 none 0 none 0 none 64 (some fun _ => 0) 64
      (some fun _ => 0) (fun _ => 0) (fun _ => 0) none rfl (by decide) (by decide)
      rfl rfl rfl rfl rfl (by decide) (by decide) (by decide)
      (atmel_general_nodata 64 _ _ 64 (by decide) (by decide))).1 (by decide)).1 rfl,
   ((mac_challenge_rule atmel demo 0 0 0 none 0 none 0 none 64 (some fun _ => 0) 64
      (some fun _ => 0) (fun _ => 0) (fun _ => 0) none rfl (by decide) (by decide)
      rfl rfl rfl rfl rfl (by decide) (by decide) (by decide)
      (atmel_general_nodata 64 _ _ 64 (by decide) (by decide))).1 (by decide)).2 rfl,
   ((mac_challenge_rule atmel demo 1 0 0 none 0 none 0 none 64 (some fun _ => 0) 64
      (some fun _ => 0) (fun _ => 0) (fun _ => 0) none rfl (by decide) (by decide)
      rfl rfl rfl rfl rfl (by decide) (by decide) (by decide)
      (atmel_general_nodata 64 _ _ 64 (by decide) (by decide))).2.2 (by decide)).1,
   (((mac_challenge_rule atmel demo 1 0 0 none 0 none 0 none 64 (some fun _ => 0) 64
      (some fun _ => 0) (fun _ => 0) (fun _ => 0) none rfl (by decide) (by decide)
      rfl rfl rfl rfl rfl (by decide) (by decide) (by decide)
      (atmel_general_nodata 64 _ _ 64 (by decide) (by decide))).2.2 (by decide)).2).elim
      fun _ h => h.2.1⟩

/-! HMAC and Lock -/

theorem and_mask_of_cnot (z m : Nat) (hz : z < 2 ^ 32) (hm : m < 2 ^ 32)
    (h : z &&& cnot m = 0) : z &&& m = z := by
  unfold cnot at h
  apply Nat.eq_of_testBit_eq
  intro i
  rw [Nat.testBit_and]
  have hi := congrArg (fun x => Nat.testBit x i) h
  simp only [Nat.testBit_and, Nat.zero_testBit] at hi
  have e : 0xFFFFFFFF - m = 2 ^ 32 - (m + 1) := by omega
  rw [e, Nat.testBit_two_pow_sub_succ hm] at hi
  cases hzi : z.testBit i
  · simp
  · have hlt : i < 32 := by
      by_contra hge
      have := Nat.testBit_eq_false_of_lt
        (lt_of_lt_of_le hz (Nat.pow_le_pow_right (by decide) (not_lt.mp hge)))
      rw [this] at hzi
      exact absurd hzi (by decide)
    simp [hzi, hlt] at hi
    simp [hi]

/-- The header bytes of an accepted generic request without data blocks. -/
theorem execute_nodata_header (H : Header) (E : Collaborators) (op_code param1 param2 : Nat)
    (tx_size : Nat) (tx : Mem) (rx_size : Nat) (rx : Mem)
    (hcheck : H.SHA204_CHECK_PARAMETERS = true)
    (hcodes : H.SHA204_BAD_PARAM ≠ H.SHA204_SUCCESS)
    (hacc : sha204m_check_parameters H op_code param1 param2 0 none 0 none 0 none
      tx_size (some tx) rx_size (some rx) = H.SHA204_SUCCESS) :
    ∃ o frame,
      sha204m_execute H E op_code param1 param2 0 none 0 none 0 none
        tx_size (some tx) rx_size (some rx) = some o
      ∧ o.tx = some frame
      ∧ ¬ o.returned_locally
      ∧ ∀ j, j < 5 → frame j = store (store (store (store (store tx 0
          ((0 + 0 + 0 + H.SHA204_CMD_SIZE_MIN) % 256)) 1 op_code) 2 param1)
          3 (param2 &&& 0xFF)) 4 (param2 >>> 8) j := by
  obtain ⟨tx0, rx0, body, h1, _, hb, he⟩ := execute_closed H E op_code param1 param2
    0 none 0 none 0 none tx_size (some tx) rx_size (some rx) hcheck hcodes hacc
  simp only [Option.some.injEq] at h1
  subst h1
  refine ⟨_, _, he, rfl, send_and_receive_not_local _ _ _ _ _ _ _, ?_⟩
  intro j hj
  rw [calculate_crc_apply_lt _ _ _ _ _ (by omega), hb,
    memcpy_apply_lt _ _ _ _ _ (by omega), memcpy_apply_lt _ _ _ _ _ (by omega),
    memcpy_apply_lt _ _ _ _ _ (by omega)]

/-- C24. HMAC and Lock on the two paths (parameter checking compiled in,
distinct op-codes, header at offsets 0 to 4, `HMAC_COUNT = LOCK_COUNT =
SHA204_CMD_SIZE_MIN`, valid buffers of sufficient size). For every 8 bit mode
or zone and every 16 bit `param2`, `sha204m_hmac` and `sha204m_lock` reach the
transport exactly when the generic validator accepts the request without data
blocks: HMAC exactly when the mode has no bit outside `HMAC_MODE_MASK`
(`param2` plays no role), Lock exactly when the zone has no bit outside
`LOCK_ZONE_MASK` and `param2 = 0` whenever `LOCK_ZONE_NO_CRC` is set. When
accepted, both paths write the same bytes at offsets 0 to 4, with `param2`
little-endian at offsets 3 and 4. -/
theorem hmac_lock_paths_agree (H : Header) (E : Collaborators) (mode param2 : Nat)
    (tx_size : Nat) (tx : Mem) (rx_size : Nat) (rx : Mem)
    (hcheck : H.SHA204_CHECK_PARAMETERS = true)
    (hcodes : H.SHA204_BAD_PARAM ≠ H.SHA204_SUCCESS)
    (hnd : (supported_opcodes H).Nodup)
    (hcount : H.SHA204_COUNT_IDX = 0) (hopidx : H.SHA204_OPCODE_IDX = 1)
    (hhm : H.HMAC_MODE_IDX = 2) (hhk : H.HMAC_KEYID_IDX = 3)
    (hlz : H.LOCK_ZONE_IDX = 2) (hls : H.LOCK_SUMMARY_IDX = 3)
    (hhc : H.HMAC_COUNT = H.SHA204_CMD_SIZE_MIN) (hlc : H.LOCK_COUNT = H.SHA204_CMD_SIZE_MIN)
    (hlm : H.LOCK_ZONE_MASK < 256)
    (hmode : mode < 256) (hp2 : param2 < 65536)
    (htx : H.SHA204_CMD_SIZE_MIN % 256 ≤ tx_size) (hrx : H.SHA204_RSP_SIZE_MIN ≤ rx_size) :
    -- acceptance
    ((¬ (sha204m_hmac H E (some tx) (some rx) mode param2).returned_locally
        ↔ sha204m_check_parameters H H.SHA204_HMAC mode param2 0 none 0 none 0 none
            tx_size (some tx) rx_size (some rx) = H.SHA204_SUCCESS)
      ∧ (¬ (sha204m_hmac H E (some tx) (some rx) mode param2).returned_locally
        ↔ (mode &&& cnot H.HMAC_MODE_MASK) = 0))
    ∧ ((¬ (sha204m_lock H E (some tx) (some rx) mode param2).returned_locally
        ↔ sha204m_check_parameters H H.SHA204_LOCK mode param2 0 none 0 none 0 none
            tx_size (some tx) rx_size (some rx) = H.SHA204_SUCCESS)
      ∧ (¬ (sha204m_lock H E (some tx) (some rx) mode param2).returned_locally
        ↔ (mode &&& cnot H.LOCK_ZONE_MASK) = 0
          ∧ ((mode &&& H.LOCK_ZONE_NO_CRC) ≠ 0 → param2 = 0)))
    -- same header bytes
    ∧ ((mode &&& cnot H.HMAC_MODE_MASK) = 0 →
        ∃ o gframe cframe,
          sha204m_execute H E H.SHA204_HMAC mode param2 0 none 0 none 0 none
            tx_size (some tx) rx_size (some rx) = some o
          ∧ o.tx = some gframe
          ∧ (sha204m_hmac H E (some tx) (some rx) mode param2).tx = some cframe
          ∧ (∀ j, j < 5 → gframe j = cframe j)
          ∧ cframe 3 + 256 * cframe 4 = param2)
    ∧ ((mode &&& cnot H.LOCK_ZONE_MASK) = 0 → ((mode &&& H.LOCK_ZONE_NO_CRC) ≠ 0 → param2 = 0) →
        ∃ o gframe cframe,
          sha204m_execute H E H.SHA204_LOCK mode param2 0 none 0 none 0 none
            tx_size (some tx) rx_size (some rx) = some o
          ∧ o.tx = some gframe
          ∧ (sha204m_lock H E (some tx) (some rx) mode param2).tx = some cframe
          ∧ (∀ j, j < 5 → gframe j = cframe j)
          ∧ cframe 3 + 256 * cframe 4 = param2) := by
  have hg : general_preconditions H 0 none 0 none 0 none tx_size (some tx) rx_size (some rx) :=
    ⟨by simp, by simpa using htx, hrx, by simp, fun h => absurd h (by decide),
      fun h => absurd h (by decide), fun h => absurd h (by decide)⟩
  have hgh := check_parameters_hmac H mode param2 0 none 0 none 0 none tx_size (some tx)
    rx_size (some rx) hcheck hnd hg
  have hgl := check_parameters_lock H mode param2 0 none 0 none 0 none tx_size (some tx)
    rx_size (some rx) hcheck hnd hg
  have h3 : (param2 &&& 0xFF) % 256 = param2 % 256 := by rw [and_ff, Nat.mod_mod]
  have h4 : (param2 >>> 8) % 256 = param2 / 256 := by
    rw [shr8]; exact Nat.mod_eq_of_lt (by omega)
  -- the command functions
  have hh_acc : (mode &&& cnot H.HMAC_MODE_MASK) = 0 →
      sha204m_hmac H E (some tx) (some rx) mode param2
      = sha204c_send_and_receive E []
          (store (store (store (store (store tx H.SHA204_COUNT_IDX H.HMAC_COUNT)
            H.SHA204_OPCODE_IDX H.SHA204_HMAC) H.HMAC_MODE_IDX mode)
            H.HMAC_KEYID_IDX (param2 &&& 0xFF)) (H.HMAC_KEYID_IDX + 1) (param2 >>> 8))
          H.HMAC_RSP_SIZE rx H.HMAC_DELAY (u8 (H.HMAC_EXEC_MAX - H.HMAC_DELAY)) := by
    intro h
    unfold sha204m_hmac
    simp only
    rw [if_neg (not_not.mpr h)]
  have hh_rej : (mode &&& cnot H.HMAC_MODE_MASK) ≠ 0 →
      sha204m_hmac H E (some tx) (some rx) mode param2 = bad_param H (some tx) (some rx) := by
    intro h
    unfold sha204m_hmac
    simp only
    rw [if_pos h]
  have hl_acc : (mode &&& cnot H.LOCK_ZONE_MASK) = 0 →
      ((mode &&& H.LOCK_ZONE_NO_CRC) ≠ 0 → param2 = 0) →
      sha204m_lock H E (some tx) (some rx) mode param2
      = sha204c_send_and_receive E []
          (store (store (store (store (store tx H.SHA204_COUNT_IDX H.LOCK_COUNT)
            H.SHA204_OPCODE_IDX H.SHA204_LOCK) H.LOCK_ZONE_IDX (mode &&& H.LOCK_ZONE_MASK))
            H.LOCK_SUMMARY_IDX (param2 &&& 0xFF)) (H.LOCK_SUMMARY_IDX + 1) (param2 >>> 8))
          H.LOCK_RSP_SIZE rx H.LOCK_DELAY (u8 (H.LOCK_EXEC_MAX - H.LOCK_DELAY)) := by
    intro h h2
    unfold sha204m_lock
    simp only
    rw [if_neg (by simp only [not_or, not_and, ne_eq, not_not]; exact ⟨h, h2⟩)]
  have hl_rej : ¬ ((mode &&& cnot H.LOCK_ZONE_MASK) = 0
      ∧ ((mode &&& H.LOCK_ZONE_NO_CRC) ≠ 0 → param2 = 0)) →
      sha204m_lock H E (some tx) (some rx) mode param2 = bad_param H (some tx) (some rx) := by
    intro h
    unfold sha204m_lock
    simp only
    rw [if_pos (by
      by_contra hc
      simp only [not_or, not_and, ne_eq, not_not] at hc
      exact h ⟨hc.1, hc.2⟩)]
  have hh_iff : ¬ (sha204m_hmac H E (some tx) (some rx) mode param2).returned_locally
      ↔ (mode &&& cnot H.HMAC_MODE_MASK) = 0 := by
    constructor
    · intro h
      by_contra hc
      rw [hh_rej hc] at h
      exact h (bad_param_local H _ _)
    · intro h
      rw [hh_acc h]
      exact send_and_receive_not_local _ _ _ _ _ _ _
  have hl_iff : ¬ (sha204m_lock H E (some tx) (some rx) mode param2).returned_locally
      ↔ (mode &&& cnot H.LOCK_ZONE_MASK) = 0
        ∧ ((mode &&& H.LOCK_ZONE_NO_CRC) ≠ 0 → param2 = 0) := by
    constructor
    · intro h
      by_contra hc
      rw [hl_rej hc] at h
      exact h (bad_param_local H _ _)
    · rintro ⟨h, h2⟩
      rw [hl_acc h h2]
      exact send_and_receive_not_local _ _ _ _ _ _ _
  have hgh_iff : sha204m_check_parameters H H.SHA204_HMAC mode param2 0 none 0 none 0 none
      tx_size (some tx) rx_size (some rx) = H.SHA204_SUCCESS
      ↔ (mode &&& cnot H.HMAC_MODE_MASK) = 0 := by
    rw [hgh]
    constructor
    · intro h
      split_ifs at h with hc
      · exact absurd h hcodes
      · exact not_not.mp hc
    · intro h
      rw [if_neg (not_not.mpr h)]
  have hgl_iff : sha204m_check_parameters H H.SHA204_LOCK mode param2 0 none 0 none 0 none
      tx_size (some tx) rx_size (some rx) = H.SHA204_SUCCESS
      ↔ (mode &&& cnot H.LOCK_ZONE_MASK) = 0
        ∧ ((mode &&& H.LOCK_ZONE_NO_CRC) ≠ 0 → param2 = 0) := by
    rw [hgl]
    constructor
    · intro h
      split_ifs at h with hc
      · exact absurd h hcodes
      · simp only [not_or, not_and, ne_eq, not_not] at hc
        exact ⟨hc.1, hc.2⟩
    · rintro ⟨h, h2⟩
      rw [if_neg (by simp only [not_or, not_and, ne_eq, not_not]; exact ⟨h, h2⟩)]
  refine ⟨⟨hh_iff.trans hgh_iff.symm, hh_iff⟩, ⟨hl_iff.trans hgl_iff.symm, hl_iff⟩, ?_, ?_⟩
  · intro h
    obtain ⟨o, gframe, he, htxo, _, hbytes⟩ := execute_nodata_header H E H.SHA204_HMAC mode
      param2 tx_size tx rx_size rx hcheck hcodes (hgh_iff.mpr h)
    refine ⟨o, gframe, _, he, htxo, by rw [hh_acc h]; rfl, ?_, ?_⟩
    · intro j hj
      rw [hbytes j hj]
      simp only [store_apply, hcount, hopidx, hhm, hhk, hhc]
      interval_cases j <;> simp
    · simp only [store_apply, hcount, hopidx, hhm, hhk]
      simp only [(by decide : (3 : Nat) ≠ 3 + 1), if_false, if_true, h3, h4]
      omega
  · intro h h2
    obtain ⟨o, gframe, he, htxo, _, hbytes⟩ := execute_nodata_header H E H.SHA204_LOCK mode
      param2 tx_size tx rx_size rx hcheck hcodes (hgl_iff.mpr ⟨h, h2⟩)
    have hz : mode &&& H.LOCK_ZONE_MASK = mode :=
      and_mask_of_cnot mode _ (by omega) (by omega) h
    refine ⟨o, gframe, _, he, htxo, by rw [hl_acc h h2]; rfl, ?_, ?_⟩
    · intro j hj
      rw [hbytes j hj]
      simp only [store_apply, hcount, hopidx, hlz, hls, hlc, hz]
      interval_cases j <;> simp
    · simp only [store_apply, hcount, hopidx, hlz, hls]
      simp only [(by decide : (3 : Nat) ≠ 3 + 1), if_false, if_true, h3, h4]
      omega

/-- Instance of C24 on the published header: HMAC mode `0x04` and Lock zone
`0x80` with `param2 = 0x1234` resp. 0. -/
theorem hmac_lock_paths_agree_witness :
    atmel.SHA204_CHECK_PARAMETERS = true ∧ atmel.SHA204_BAD_PARAM ≠ atmel.SHA204_SUCCESS
    ∧ (supported_opcodes atmel).Nodup
    ∧ atmel.SHA204_COUNT_IDX = 0 ∧ atmel.SHA204_OPCODE_IDX = 1
    ∧ atmel.HMAC_MODE_IDX = 2 ∧ atmel.HMAC_KEYID_IDX = 3
    ∧ atmel.LOCK_ZONE_IDX = 2 ∧ atmel.LOCK_SUMMARY_IDX = 3
    ∧ atmel.HMAC_COUNT = atmel.SHA204_CMD_SIZE_MIN ∧ atmel.LOCK_COUNT = atmel.SHA204_CMD_SIZE_MIN
    ∧ atmel.LOCK_ZONE_MASK < 256 ∧ 0x04 < 256 ∧ 0x1234 < 65536
    ∧ atmel.SHA204_CMD_SIZE_MIN % 256 ≤ 64 ∧ atmel.SHA204_RSP_SIZE_MIN ≤ 64
    ∧ (0x04 &&& cnot atmel.HMAC_MODE_MASK) = 0
    ∧ ∃ o gframe cframe,
        sha204m_execute atmel demo atmel.SHA204_HMAC 0x04 0x1234 0 none 0 none 0 none
          64 (some fun _ => 0xAA) 64 (some fun _ => 0xBB) = some o
        ∧ o.tx = some gframe
        ∧ (sha204m_hmac atmel demo (some fun _ => 0xAA) (some fun _ => 0xBB) 0x04 0x1234).tx
            = some cframe
        ∧ (∀ j, j < 5 → gframe j = cframe j)
        ∧ cframe 3 + 256 * cframe 4 = 0x1234 :=
  ⟨rfl, by decide, by decide, rfl, rfl, rfl, rfl, rfl, rfl, rfl, rfl, by decide, by decide,
   by decide, by decide, by decide, by decide,
   (hmac_lock_paths_agree atmel demo 0x04 0x1234 64 (fun _ => 0xAA) 64 (fun _ => 0xBB)
      rfl (by decide) (by decide) rfl rfl rfl rfl rfl rfl rfl rfl (by decide) (by decide)
      (by decide) (by decide) (by decide)).2.2.1 (by decide)⟩

/-! The write cursor of the generic assembler -/

/-- C25. For every request accepted by `sha204m_execute` (parameter checking
compiled in): the third block is copied to offset `5 + datalen1 + (datalen1 if
datalen2 > 0 else 0)` and the checksum output position handed to
`sha204c_calculate_crc` is that offset plus `datalen3`, the cursor having moved
by `datalen1` after a non-empty second block. Whenever `datalen2 = 0` or
`datalen1 = datalen2` the frame has the documented layout: the three blocks in
order from offset 5 and the two checksum bytes right behind them, at offset
`5 + datalen1 + datalen2 + datalen3`, which is the frame length minus
`SHA204_CRC_SIZE` (for `SHA204_CMD_SIZE_MIN = 7`, `SHA204_CRC_SIZE = 2`); if
moreover the length fits a byte, the count byte is that length and the checksum
covers exactly the bytes in front of it. -/
theorem execute_write_cursor (H : Header) (E : Collaborators) (op_code param1 param2 : Nat)
    (datalen1 : Nat) (data1 : Ptr) (datalen2 : Nat) (data2 : Ptr)
    (datalen3 : Nat) (data3 : Ptr)
    (tx_size : Nat) (tx_buffer : Ptr) (rx_size : Nat) (rx_buffer : Ptr)
    (hcheck : H.SHA204_CHECK_PARAMETERS = true)
    (hcodes : H.SHA204_BAD_PARAM ≠ H.SHA204_SUCCESS)
    (hacc : sha204m_check_parameters H op_code param1 param2 datalen1 data1 datalen2 data2
      datalen3 data3 tx_size tx_buffer rx_size rx_buffer = H.SHA204_SUCCESS) :
    ∃ o frame body length rsp rx d t,
      sha204m_execute H E op_code param1 param2 datalen1 data1 datalen2 data2
        datalen3 data3 tx_size tx_buffer rx_size rx_buffer = some o
      ∧ o.tx = some frame
      ∧ o.calls = [Call.calculate_crc length body
            (5 + datalen1 + (if datalen2 > 0 then datalen1 else 0) + datalen3),
          Call.send_and_receive frame rsp rx d t]
      ∧ length = u8 (((datalen1 + datalen2 + datalen3 + H.SHA204_CMD_SIZE_MIN) % 256 : Nat)
          - H.SHA204_CRC_SIZE)
      -- block 3 starts at the cursor left by block 2
      ∧ (∀ d3, data3 = some d3 → ∀ i, i < datalen3 →
          frame (5 + datalen1 + (if datalen2 > 0 then datalen1 else 0) + i) = d3 i)
      -- the documented layout
      ∧ (datalen2 = 0 ∨ datalen1 = datalen2 →
          5 + datalen1 + (if datalen2 > 0 then datalen1 else 0) + datalen3
            = 5 + datalen1 + datalen2 + datalen3
          ∧ (H.SHA204_CMD_SIZE_MIN = 7 → H.SHA204_CRC_SIZE = 2 →
              5 + datalen1 + datalen2 + datalen3
                = H.SHA204_CMD_SIZE_MIN + datalen1 + datalen2 + datalen3 - H.SHA204_CRC_SIZE)
          ∧ (∀ d1, data1 = some d1 → ∀ i, i < datalen1 → frame (5 + i) = d1 i)
          ∧ (∀ d2, data2 = some d2 → ∀ i, i < datalen2 → frame (5 + datalen1 + i) = d2 i)
          ∧ (∀ d3, data3 = some d3 → ∀ i, i < datalen3 →
              frame (5 + datalen1 + datalen2 + i) = d3 i)
          ∧ frame (5 + datalen1 + datalen2 + datalen3) = (E.crc (bytes body length)).1
          ∧ frame (5 + datalen1 + datalen2 + datalen3 + 1) = (E.crc (bytes body length)).2
          ∧ (H.SHA204_CMD_SIZE_MIN = 7 → H.SHA204_CRC_SIZE = 2 →
              7 + datalen1 + datalen2 + datalen3 ≤ 255 →
              frame 0 = 7 + datalen1 + datalen2 + datalen3
              ∧ length = 5 + datalen1 + datalen2 + datalen3
              ∧ bytes body length = bytes frame length)) := by
  obtain ⟨tx0, rx0, body, _, _, hb, he⟩ := execute_closed H E op_code param1 param2
    datalen1 data1 datalen2 data2 datalen3 data3 tx_size tx_buffer rx_size rx_buffer
    hcheck hcodes hacc
  have hframe : ∀ j, j < 5 + datalen1 + (if datalen2 > 0 then datalen1 else 0) + datalen3 →
      sha204c_calculate_crc E
        (u8 (((datalen1 + datalen2 + datalen3 + H.SHA204_CMD_SIZE_MIN) % 256 : Nat)
          - H.SHA204_CRC_SIZE))
        body (5 + datalen1 + (if datalen2 > 0 then datalen1 else 0) + datalen3) j = body j :=
    fun j hj => calculate_crc_apply_lt _ _ _ _ _ hj
  refine ⟨_, _, body, _, (sha204m_execute_supply H op_code param1 rx_size).2.2 % 256, rx0,
    (sha204m_execute_supply H op_code param1 rx_size).1 % 256,
    (sha204m_execute_supply H op_code param1 rx_size).2.1 % 256, he, rfl, rfl, rfl, ?_, ?_⟩
  · intro d3 hd3 i hi
    rw [hframe _ (by omega), hb, hd3, memcpy_apply_in _ _ _ _ _ (by omega) (by omega)]
    simp only [Option.getD_some]
    congr 1
    omega
  · intro hcond
    have hk : (if datalen2 > 0 then datalen1 else 0) = datalen2 := by
      split_ifs with h
      · rcases hcond with h0 | h0
        · omega
        · exact h0
      · omega
    rw [hk] at hframe hb
    rw [hk]
    refine ⟨rfl, fun h7 h2 => by omega, ?_, ?_, ?_, ?_, ?_, ?_⟩
    · intro d1 hd1 i hi
      rw [hframe _ (by omega), hb, hd1, memcpy_apply_lt _ _ _ _ _ (by omega),
        memcpy_apply_lt _ _ _ _ _ (by omega), memcpy_apply_in _ _ _ _ _ (by omega) (by omega)]
      simp only [Option.getD_some]
      congr 1
      omega
    · intro d2 hd2 i hi
      rw [hframe _ (by omega), hb, hd2, memcpy_apply_lt _ _ _ _ _ (by omega),
        memcpy_apply_in _ _ _ _ _ (by omega) (by omega)]
      simp only [Option.getD_some]
      congr 1
      omega
    · intro d3 hd3 i hi
      rw [hframe _ (by omega), hb, hd3, memcpy_apply_in _ _ _ _ _ (by omega) (by omega)]
      simp only [Option.getD_some]
      congr 1
      omega
    · rw [calculate_crc_apply, if_neg (by omega), if_pos rfl]
    · rw [calculate_crc_apply, if_pos rfl]
    · intro h7 h2 hfit
      have hlen : u8 (((datalen1 + datalen2 + datalen3 + H.SHA204_CMD_SIZE_MIN) % 256 : Nat)
          - H.SHA204_CRC_SIZE) = 5 + datalen1 + datalen2 + datalen3 := by
        rw [h7, h2, Nat.mod_eq_of_lt (by omega)]
        unfold u8
        omega
      refine ⟨?_, hlen, ?_⟩
      · rw [hframe 0 (by omega), hb, memcpy_apply_lt _ _ _ _ _ (by omega),
          memcpy_apply_lt _ _ _ _ _ (by omega), memcpy_apply_lt _ _ _ _ _ (by omega)]
        simp only [store_apply]
        simp only [(by decide : (0 : Nat) ≠ 4), (by decide : (0 : Nat) ≠ 3),
          (by decide : (0 : Nat) ≠ 2), (by decide : (0 : Nat) ≠ 1), if_false, if_true,
          Nat.mod_mod, h7]
        rw [Nat.mod_eq_of_lt (by omega)]
        omega
      · rw [hlen]
        exact bytes_congr _ _ _ (fun j hj => (calculate_crc_apply_lt _ _ _ _ _ (by omega)).symm)


/-- Instance of C25: the `Write` of a 4 byte value with a 32 byte MAC, where the
checksum output position is `5 + 4 + 4 + 0 = 13`. -/
theorem execute_write_cursor_witness :
    atmel.SHA204_CHECK_PARAMETERS = true ∧ atmel.SHA204_BAD_PARAM ≠ atmel.SHA204_SUCCESS
    ∧ sha204m_check_parameters atmel atmel.SHA204_WRITE 0x42 0x0008
        4 (some fun i => 0x11 + i) 32 (some fun i => 0x40 + i) 0 none
        64 (some fun _ => 0) 4 (some fun _ => 0) = atmel.SHA204_SUCCESS
    ∧ (
    ∃ o frame body length rsp rx d t,
      sha204m_execute atmel demo atmel.SHA204_WRITE 0x42 0x0008 4 (some fun i => 0x11 + i) 32 (some fun i => 0x40 + i)
        0 (none : Ptr) 64 (some fun _ => 0) 4 (some fun _ => 0) = some o
      ∧ o.tx = some frame
      ∧ o.calls = [Call.calculate_crc length body
            (5 + 4 + (if 32 > 0 then 4 else 0) + 0),
          Call.send_and_receive frame rsp rx d t]
      ∧ length = u8 (((4 + 32 + 0 + atmel.SHA204_CMD_SIZE_MIN) % 256 : Nat)
          - atmel.SHA204_CRC_SIZE)
      ∧ (∀ d3, (none : Ptr) = some d3 → ∀ i, i < 0 →
          frame (5 + 4 + (if 32 > 0 then 4 else 0) + i) = d3 i)
      ∧ (32 = 0 ∨ 4 = 32 →
          5 + 4 + (if 32 > 0 then 4 else 0) + 0
            = 5 + 4 + 32 + 0
          ∧ (atmel.SHA204_CMD_SIZE_MIN = 7 → atmel.SHA204_CRC_SIZE = 2 →
              5 + 4 + 32 + 0
                = atmel.SHA204_CMD_SIZE_MIN + 4 + 32 + 0 - atmel.SHA204_CRC_SIZE)
          ∧ (∀ d1, (some fun i => 0x11 + i) = some d1 → ∀ i, i < 4 → frame (5 + i) = d1 i)
          ∧ (∀ d2, (some fun i => 0x40 + i) = some d2 → ∀ i, i < 32 → frame (5 + 4 + i) = d2 i)
          ∧ (∀ d3, (none : Ptr) = some d3 → ∀ i, i < 0 →
              frame (5 + 4 + 32 + i) = d3 i)
          ∧ frame (5 + 4 + 32 + 0) = (demo.crc (bytes body length)).1
          ∧ frame (5 + 4 + 32 + 0 + 1) = (demo.crc (bytes body length)).2
          ∧ (atmel.SHA204_CMD_SIZE_MIN = 7 → atmel.SHA204_CRC_SIZE = 2 →
              7 + 4 + 32 + 0 ≤ 255 →
              frame 0 = 7 + 4 + 32 + 0
              ∧ length = 5 + 4 + 32 + 0
              ∧ bytes body length = bytes frame length))) :=
  ⟨rfl, by decide, by decide,
   execute_write_cursor atmel demo atmel.SHA204_WRITE 0x42 0x0008
     4 (some fun i => 0x11 + i) 32 (some fun i => 0x40 + i) 0 none
     64 (some fun _ => 0) 4 (some fun _ => 0) rfl (by decide) (by decide)⟩

/-! Frame of sha204m_write -/

/-- C26. For every call of `sha204m_write` that reaches the transport (header at
offsets 0 and 1, `SHA204_CRC_SIZE = 2`, `SHA204_CMD_SIZE_MIN = 7`, access sizes
32 and 4, `WRITE_MAC_SIZE = 32`, zone and op-code fitting a byte), with
`n = 32` if `SHA204_ZONE_COUNT_FLAG` is set in the zone and `n = 4` otherwise,
and `m = 32` if `mac` is non-null and `m = 0` otherwise: the frame has
`SHA204_WRITE` at offset 1, the zone at offset 2, the new value at offsets
`5 .. 5+n`, the MAC (if any) at offsets `5+n .. 5+n+m`, and the count byte
`5 + n + m + SHA204_CRC_SIZE = SHA204_CMD_SIZE_MIN + n + m`. -/
theorem write_frame_length (H : Header) (E : Collaborators) (tx rx value : Mem) (mac : Ptr)
    (zone address : Nat)
    (hcount : H.SHA204_COUNT_IDX = 0) (hopidx : H.SHA204_OPCODE_IDX = 1)
    (hcrc : H.SHA204_CRC_SIZE = 2) (hmin : H.SHA204_CMD_SIZE_MIN = 7)
    (h32 : H.SHA204_ZONE_ACCESS_32 = 32) (h4 : H.SHA204_ZONE_ACCESS_4 = 4)
    (hms : H.WRITE_MAC_SIZE = 32)
    (hzone : zone < 256) (hop : H.SHA204_WRITE < 256)
    (hacc : ¬ (sha204m_write H E (some tx) (some rx) zone address (some value)
      mac).returned_locally) :
    ∃ frame,
      (sha204m_write H E (some tx) (some rx) zone address (some value) mac).tx = some frame
      ∧ frame 1 = H.SHA204_WRITE
      ∧ frame 2 = zone
      ∧ (∀ i, i < (if (zone &&& H.SHA204_ZONE_COUNT_FLAG) ≠ 0 then 32 else 4) →
          frame (5 + i) = value i)
      ∧ (∀ m, mac = some m → ∀ i, i < 32 →
          frame (5 + (if (zone &&& H.SHA204_ZONE_COUNT_FLAG) ≠ 0 then 32 else 4) + i) = m i)
      ∧ frame 0 = 5 + (if (zone &&& H.SHA204_ZONE_COUNT_FLAG) ≠ 0 then 32 else 4)
          + (if mac.isSome then 32 else 0) + H.SHA204_CRC_SIZE
      ∧ frame 0 = H.SHA204_CMD_SIZE_MIN
          + (if (zone &&& H.SHA204_ZONE_COUNT_FLAG) ≠ 0 then 32 else 4)
          + (if mac.isSome then 32 else 0) := by
  have hn : (if (zone &&& H.SHA204_ZONE_COUNT_FLAG) ≠ 0 then H.SHA204_ZONE_ACCESS_32
      else H.SHA204_ZONE_ACCESS_4)
      = if (zone &&& H.SHA204_ZONE_COUNT_FLAG) ≠ 0 then 32 else 4 := by
    rw [h32, h4]
  have hnb : (if (zone &&& H.SHA204_ZONE_COUNT_FLAG) ≠ 0 then 32 else 4) ≤ 32 := by
    split_ifs <;> omega
  have hnl : 4 ≤ (if (zone &&& H.SHA204_ZONE_COUNT_FLAG) ≠ 0 then 32 else 4) := by
    split_ifs <;> omega
  by_cases hc1 : (zone &&& cnot H.WRITE_ZONE_MASK) ≠ 0
  · exfalso
    apply hacc
    unfold sha204m_write
    simp only
    rw [if_pos hc1]
    exact bad_param_local H _ _
  by_cases hc2 : (zone &&& H.SHA204_ZONE_DATA) ≠ 0
      ∧ ((if (zone &&& H.SHA204_ZONE_DATA) ≠ 0 then address >>> 2 else address) &&& 1) ≠ 0
  · exfalso
    apply hacc
    unfold sha204m_write
    simp only
    rw [if_neg hc1, if_pos hc2]
    exact bad_param_local H _ _
  cases mac with
  | none =>
    have hw : sha204m_write H E (some tx) (some rx) zone address (some value) none
        = sha204c_send_and_receive E []
          (store (memcpy (store (store (store (store tx 1 H.SHA204_WRITE) 2 zone) 3
            ((if (zone &&& H.SHA204_ZONE_DATA) ≠ 0 then address >>> 2 else address)
              &&& H.SHA204_ADDRESS_MASK)) 4 0) 5 value
            (if (zone &&& H.SHA204_ZONE_COUNT_FLAG) ≠ 0 then 32 else 4))
            0 (5 + (if (zone &&& H.SHA204_ZONE_COUNT_FLAG) ≠ 0 then 32 else 4) + 2))
          H.WRITE_RSP_SIZE rx H.WRITE_DELAY (u8 (H.WRITE_EXEC_MAX - H.WRITE_DELAY)) := by
      unfold sha204m_write
      simp only
      rw [if_neg hc1, if_neg hc2]
      simp only [hcount, hopidx, hcrc, hn]
    rw [hw]
    refine ⟨_, rfl, ?_, ?_, ?_, ?_, ?_, ?_⟩
    · rw [store_apply, if_neg (by decide), memcpy_apply_lt _ _ _ _ _ (by decide)]
      simp [store_apply, Nat.mod_eq_of_lt hop]
    · rw [store_apply, if_neg (by decide), memcpy_apply_lt _ _ _ _ _ (by decide)]
      simp [store_apply, Nat.mod_eq_of_lt hzone]
    · intro i hi
      rw [store_apply, if_neg (by omega), memcpy_apply_in _ _ _ _ _ (by omega) (by omega)]
      congr 1
      omega
    · intro m hm
      exact absurd hm (by simp)
    · rw [store_apply, if_pos rfl, hcrc]
      simp only [Option.isSome_none, Bool.false_eq_true, if_false]
      rw [Nat.mod_eq_of_lt (by omega)]
    · rw [store_apply, if_pos rfl, hmin]
      simp only [Option.isSome_none, Bool.false_eq_true, if_false]
      rw [Nat.mod_eq_of_lt (by omega)]
      omega
  | some m0 =>
    have hw : sha204m_write H E (some tx) (some rx) zone address (some value) (some m0)
        = sha204c_send_and_receive E []
          (store (memcpy (memcpy (store (store (store (store tx 1 H.SHA204_WRITE) 2 zone) 3
            ((if (zone &&& H.SHA204_ZONE_DATA) ≠ 0 then address >>> 2 else address)
              &&& H.SHA204_ADDRESS_MASK)) 4 0) 5 value
            (if (zone &&& H.SHA204_ZONE_COUNT_FLAG) ≠ 0 then 32 else 4))
            (5 + (if (zone &&& H.SHA204_ZONE_COUNT_FLAG) ≠ 0 then 32 else 4)) m0 32)
            0 (5 + (if (zone &&& H.SHA204_ZONE_COUNT_FLAG) ≠ 0 then 32 else 4) + 32 + 2))
          H.WRITE_RSP_SIZE rx H.WRITE_DELAY (u8 (H.WRITE_EXEC_MAX - H.WRITE_DELAY)) := by
      unfold sha204m_write
      simp only
      rw [if_neg hc1, if_neg hc2]
      simp only [hcount, hopidx, hcrc, hn, hms]
    rw [hw]
    refine ⟨_, rfl, ?_, ?_, ?_, ?_, ?_, ?_⟩
    · rw [store_apply, if_neg (by decide), memcpy_apply_lt _ _ _ _ _ (by omega),
        memcpy_apply_lt _ _ _ _ _ (by decide)]
      simp [store_apply, Nat.mod_eq_of_lt hop]
    · rw [store_apply, if_neg (by decide), memcpy_apply_lt _ _ _ _ _ (by omega),
        memcpy_apply_lt _ _ _ _ _ (by decide)]
      simp [store_apply, Nat.mod_eq_of_lt hzone]
    · intro i hi
      rw [store_apply, if_neg (by omega), memcpy_apply_lt _ _ _ _ _ (by omega),
        memcpy_apply_in _ _ _ _ _ (by omega) (by omega)]
      congr 1
      omega
    · intro m hm i hi
      simp only [Option.some.injEq] at hm
      subst hm
      rw [store_apply, if_neg (by omega), memcpy_apply_in _ _ _ _ _ (by omega) (by omega)]
      congr 1
      omega
    · rw [store_apply, if_pos rfl, hcrc]
      simp only [Option.isSome_some, if_true]
      rw [Nat.mod_eq_of_lt (by omega)]
    · rw [store_apply, if_pos rfl, hmin]
      simp only [Option.isSome_some, if_true]
      rw [Nat.mod_eq_of_lt (by omega)]
      omega

/-- Instance of C26: a 32 byte write with MAC, zone `0x82`; the count is 71. -/
theorem write_frame_length_witness :
    atmel.SHA204_COUNT_IDX = 0 ∧ atmel.SHA204_OPCODE_IDX = 1
    ∧ atmel.SHA204_CRC_SIZE = 2 ∧ atmel.SHA204_CMD_SIZE_MIN = 7
    ∧ atmel.SHA204_ZONE_ACCESS_32 = 32 ∧ atmel.SHA204_ZONE_ACCESS_4 = 4
    ∧ atmel.WRITE_MAC_SIZE = 32 ∧ 0x82 < 256 ∧ atmel.SHA204_WRITE < 256
    ∧ ¬ (sha204m_write atmel demo (some fun _ => 0) (some fun _ => 0) 0x82 0
          (some fun i => i) (some fun i => 0x40 + i)).returned_locally
    ∧ ∃ frame,
      (sha204m_write atmel demo (some fun _ => 0) (some fun _ => 0) 0x82 0
          (some fun i => i) (some fun i => 0x40 + i)).tx = some frame
      ∧ frame 1 = atmel.SHA204_WRITE
      ∧ frame 2 = 0x82
      ∧ (∀ i, i < (if (0x82 &&& atmel.SHA204_ZONE_COUNT_FLAG) ≠ 0 then 32 else 4) →
          frame (5 + i) = (fun i => i) i)
      ∧ (∀ m, (some fun i => 0x40 + i : Ptr) = some m → ∀ i, i < 32 →
          frame (5 + (if (0x82 &&& atmel.SHA204_ZONE_COUNT_FLAG) ≠ 0 then 32 else 4) + i)
            = m i)
      ∧ frame 0 = 5 + (if (0x82 &&& atmel.SHA204_ZONE_COUNT_FLAG) ≠ 0 then 32 else 4)
          + (if (some fun i => 0x40 + i : Ptr).isSome then 32 else 0) + atmel.SHA204_CRC_SIZE
      ∧ frame 0 = atmel.SHA204_CMD_SIZE_MIN
          + (if (0x82 &&& atmel.SHA204_ZONE_COUNT_FLAG) ≠ 0 then 32 else 4)
          + (if (some fun i => 0x40 + i : Ptr).isSome then 32 else 0) :=
  ⟨rfl, rfl, rfl, rfl, rfl, rfl, rfl, by decide, by decide,
   send_and_receive_not_local _ _ _ _ _ _ _,
   write_frame_length atmel demo (fun _ => 0) (fun _ => 0) (fun i => i)
     (some fun i => 0x40 + i) 0x82 0 rfl rfl rfl rfl rfl rfl rfl (by decide) (by decide)
     (send_and_receive_not_local _ _ _ _ _ _ _)⟩

/-! Response size and response buffer -/

/-- C27 is false as stated. A MAC request with `rx_size = 4` is accepted (4 is
`SHA204_RSP_SIZE_MIN`), and `sha204m_execute` asks the transport for the 35
bytes of `MAC_RSP_SIZE`. -/
theorem response_size_counterexample :
    atmel.SHA204_RSP_SIZE_MIN = 4 ∧ atmel.MAC_RSP_SIZE = 35
    ∧ sha204m_check_parameters atmel atmel.SHA204_MAC 0x01 0 0 none 0 none 0 none
        64 (some fun _ => 0) 4 (some fun _ => 0) = atmel.SHA204_SUCCESS
    ∧ ∃ o frame rx body,
        sha204m_execute atmel demo atmel.SHA204_MAC 0x01 0 0 none 0 none 0 none
          64 (some fun _ => 0) 4 (some fun _ => 0) = some o
        ∧ o.calls = [Call.calculate_crc 5 body 5, Call.send_and_receive frame 35 rx 11 24]
        ∧ ¬ (35 ≤ 4) :=
  ⟨rfl, rfl, by decide, _, _, _, _, rfl, rfl, by decide⟩

theorem ite_both {α : Type} (c : Prop) [Decidable c] (a b b2 : α)
    (h : ¬ c → b = b2) : (if c then a else b) = (if c then a else b2) := by
  split
  · rfl
  · exact h (by assumption)

theorem supply_rx_size (H : Header) (op_code param1 rx_size other_size : Nat)
    (hop : op_code ∈ supported_opcodes H) :
    sha204m_execute_supply H op_code param1 rx_size
      = sha204m_execute_supply H op_code param1 other_size := by
  simp only [supported_opcodes, List.mem_cons, List.mem_singleton, List.mem_nil_iff,
    or_false] at hop
  unfold sha204m_execute_supply
  refine ite_both _ _ _ _ (fun h1 => ?_)
  refine ite_both _ _ _ _ (fun h2 => ?_)
  refine ite_both _ _ _ _ (fun h3 => ?_)
  refine ite_both _ _ _ _ (fun h4 => ?_)
  refine ite_both _ _ _ _ (fun h5 => ?_)
  refine ite_both _ _ _ _ (fun h6 => ?_)
  refine ite_both _ _ _ _ (fun h7 => ?_)
  refine ite_both _ _ _ _ (fun h8 => ?_)
  refine ite_both _ _ _ _ (fun h9 => ?_)
  refine ite_both _ _ _ _ (fun h10 => ?_)
  refine ite_both _ _ _ _ (fun h11 => ?_)
  refine ite_both _ _ _ _ (fun h12 => ?_)
  refine ite_both _ _ _ _ (fun h13 => ?_)
  refine ite_both _ _ _ _ (fun h14 => ?_)
  exfalso
  rcases hop with h | h | h | h | h | h | h | h | h | h | h | h | h | h
  · exact h1 h
  · exact h2 h
  · exact h3 h
  · exact h4 h
  · exact h5 h
  · exact h6 h
  · exact h7 h
  · exact h8 h
  · exact h9 h
  · exact h10 h
  · exact h11 h
  · exact h12 h
  · exact h13 h
  · exact h14 h

/-- C27, amended. For every request that `sha204m_execute` accepts (parameter
checking compiled in), `rx_size >= SHA204_RSP_SIZE_MIN`, and the response size
handed to the transport is the one the op-code switch supplies, whatever
`rx_size` is; it is at most `rx_size` whenever it is at most
`SHA204_RSP_SIZE_MIN`. -/
theorem execute_response_size (H : Header) (E : Collaborators) (op_code param1 param2 : Nat)
    (datalen1 : Nat) (data1 : Ptr) (datalen2 : Nat) (data2 : Ptr)
    (datalen3 : Nat) (data3 : Ptr)
    (tx_size : Nat) (tx_buffer : Ptr) (rx_size : Nat) (rx_buffer : Ptr)
    (hcheck : H.SHA204_CHECK_PARAMETERS = true)
    (hcodes : H.SHA204_BAD_PARAM ≠ H.SHA204_SUCCESS)
    (hacc : sha204m_check_parameters H op_code param1 param2 datalen1 data1 datalen2 data2
      datalen3 data3 tx_size tx_buffer rx_size rx_buffer = H.SHA204_SUCCESS) :
    H.SHA204_RSP_SIZE_MIN ≤ rx_size
    ∧ ∃ o frame crc_call rsp rx d t,
        sha204m_execute H E op_code param1 param2 datalen1 data1 datalen2 data2
          datalen3 data3 tx_size tx_buffer rx_size rx_buffer = some o
        ∧ o.calls = [crc_call, Call.send_and_receive frame rsp rx d t]
        ∧ (∀ other_size, rsp = (sha204m_execute_supply H op_code param1 other_size).2.2)
        ∧ (rsp ≤ H.SHA204_RSP_SIZE_MIN → rsp ≤ rx_size) := by
  obtain ⟨⟨_, _, _, hrx⟩, _, _, _⟩ := check_parameters_general H op_code param1 param2
    datalen1 data1 datalen2 data2 datalen3 data3 tx_size tx_buffer rx_size rx_buffer
    hcheck hcodes hacc
  have hop : op_code ∈ supported_opcodes H := by
    by_contra hn
    have := check_parameters_unknown H op_code param1 param2 datalen1 data1 datalen2 data2
      datalen3 data3 tx_size tx_buffer rx_size rx_buffer hcheck hn
    rw [hacc] at this
    exact hcodes this.symm
  obtain ⟨tx0, rx0, body, _, _, _, he⟩ := execute_closed H E op_code param1 param2
    datalen1 data1 datalen2 data2 datalen3 data3 tx_size tx_buffer rx_size rx_buffer
    hcheck hcodes hacc
  obtain ⟨h1, h2, h3⟩ := supply_lt H op_code param1 rx_size
  refine ⟨hrx, _, sha204c_calculate_crc E
      (u8 (((datalen1 + datalen2 + datalen3 + H.SHA204_CMD_SIZE_MIN) % 256 : Nat)
        - H.SHA204_CRC_SIZE))
      body (5 + datalen1 + (if datalen2 > 0 then datalen1 else 0) + datalen3),
    Call.calculate_crc
      (u8 (((datalen1 + datalen2 + datalen3 + H.SHA204_CMD_SIZE_MIN) % 256 : Nat)
        - H.SHA204_CRC_SIZE))
      body (5 + datalen1 + (if datalen2 > 0 then datalen1 else 0) + datalen3),
    (sha204m_execute_supply H op_code param1 rx_size).2.2, rx0,
    (sha204m_execute_supply H op_code param1 rx_size).1,
    (sha204m_execute_supply H op_code param1 rx_size).2.1, he, ?_, ?_, ?_⟩
  · simp only [sha204c_send_and_receive, List.singleton_append, Nat.mod_eq_of_lt h1,
      Nat.mod_eq_of_lt h2, Nat.mod_eq_of_lt h3]
  · intro other_size
    rw [supply_rx_size H op_code param1 rx_size other_size hop]
  · intro h
    omega

/-- Instance of the amended C27: a Lock request with `rx_size = 4`. -/
theorem execute_response_size_witness :
    atmel.SHA204_CHECK_PARAMETERS = true ∧ atmel.SHA204_BAD_PARAM ≠ atmel.SHA204_SUCCESS
    ∧ sha204m_check_parameters atmel atmel.SHA204_LOCK 0x80 0 0 none 0 none 0 none
        64 (some fun _ => 0) 4 (some fun _ => 0) = atmel.SHA204_SUCCESS
    ∧ (atmel.SHA204_RSP_SIZE_MIN ≤ 4
      ∧ ∃ o frame crc_call rsp rx d t,
          sha204m_execute atmel demo atmel.SHA204_LOCK 0x80 0 0 none 0 none 0 none
            64 (some fun _ => 0) 4 (some fun _ => 0) = some o
          ∧ o.calls = [crc_call, Call.send_and_receive frame rsp rx d t]
          ∧ (∀ other_size,
              rsp = (sha204m_execute_supply atmel atmel.SHA204_LOCK 0x80 other_size).2.2)
          ∧ (rsp ≤ atmel.SHA204_RSP_SIZE_MIN → rsp ≤ 4)) :=
  ⟨rfl, by decide, by decide,
   execute_response_size atmel demo atmel.SHA204_LOCK 0x80 0 0 none 0 none 0 none
     64 (some fun _ => 0) 4 (some fun _ => 0) rfl (by decide) (by decide)⟩

end SHA204
